import Mathlib

/-!
# cybr_lmp: lamp controller with an animated status display

A shallow embedding of `src/main.cpp`.  The program state (the global
variables of the sketch) is a record that is passed explicitly through every
function.  Calls into the hardware libraries are recorded in two command
logs, one for the LED driver pins and one for the display.

Conventions of the embedding:

* `unsigned long` is 32 bits wide on the target; values are naturals and each
  subtraction is taken modulo `2^32` (`sub32`).
* `int` values are integers; `/` and `%` are the truncating `Int.tdiv` and
  `Int.tmod` of C.  Signed overflow (undefined in C) is not modelled.
* `millis()` and the pseudo-random generator are oracles: the environment
  gives the value of the k-th call, the state counts the calls made so far.
* Floating-point expressions of the two power animations are not evaluated;
  their integer results are supplied by the environment (`FloatOps`).
-/

namespace CybrLmp

/-! ## Machine arithmetic -/

/-- Modulus of the 32-bit `unsigned long` type. -/
def U32 : Nat := 4294967296

/-- Unsigned 32-bit subtraction `a - b`. -/
def sub32 (a b : Nat) : Nat := (a % U32 + (U32 - b % U32)) % U32

/-- Conversion of a signed value to `unsigned long`, as done by the usual
arithmetic conversions when the two are compared. -/
def toU32 (i : Int) : Nat := (i % (U32 : Int)).toNat

/-! ## Commands sent to the hardware libraries -/

/-- The two LED driver pins. -/
inductive Pin where
  | PIN_LED_FIBER
  | PIN_LED_FIBER2
deriving DecidableEq, Repr

/-- Calls made on the LED pins. -/
inductive LedCmd where
  /-- The call `pinMode(pin, OUTPUT)`. -/
  | pinModeOutput (pin : Pin)
  /-- The call `gpio_set_drive_strength(gpio, GPIO_DRIVE_STRENGTH_12MA)`. -/
  | driveStrength12mA (pin : Pin)
  /-- The call `digitalWrite(pin, HIGH)` when `high`, else `digitalWrite(pin, LOW)`. -/
  | digitalWrite (pin : Pin) (high : Bool)
  /-- The call `analogWrite(pin, value)`. -/
  | analogWrite (pin : Pin) (value : Int)
deriving DecidableEq, Repr

/-- Fonts selected by the sketch. -/
inductive Font where
  | font_4x6_tr
  | font_5x7_tr
  | font_6x12_tr
deriving DecidableEq, Repr

/-- Calls made on the `u8g2` display object. -/
inductive DispCmd where
  | setPowerSave (v : Nat)
  | setContrast (v : Nat)
  | clearBuffer
  | sendBuffer
  | setFont (f : Font)
  | setDrawColor (c : Nat)
  | drawStr (x y : Int) (text : String)
  | drawHLine (x y w : Int)
  | drawPixel (x y : Int)
  | drawLine (x1 y1 x2 y2 : Int)
  | drawBox (x y w h : Int)
  | drawFrame (x y w h : Int)
deriving DecidableEq, Repr

/-! ## Program state -/

/-- Screen power management states (`enum ScreenState`). -/
inductive ScreenState where
  | SCREEN_OFF
  | SCREEN_POWERING_UP
  | SCREEN_ON
  | SCREEN_POWERING_DOWN
deriving DecidableEq, Repr

open ScreenState

/-- The global variables of the sketch, followed by the bookkeeping of the
embedding: oracle counters, command logs and the out-of-bounds marker. -/
structure State where
  isLedOn : Bool
  currentLevelIndex : Int
  lastFrameTime : Nat
  frameCounter : Int
  glitchOffset : Int
  scanlinePos : Int
  lastScanlinePos : Int
  glitchActive : Bool
  lastGlitchTime : Nat
  scanlinePaused : Bool
  scanlinePauseStart : Nat
  lastSuccessfulDraw : Nat
  screenState : ScreenState
  lastUserActivity : Nat
  animationStartTime : Nat
  noiseBurstActive : Bool
  lastNoiseBurst : Nat
  /-- Number of `millis()` calls made so far. -/
  clk : Nat
  /-- Number of draws from the pseudo-random generator made so far. -/
  rnd : Nat
  /-- Calls made on the LED pins, oldest first. -/
  led : List LedCmd
  /-- Calls made on the display, oldest first. -/
  disp : List DispCmd
  /-- Set when `BRIGHTNESS_LEVELS` was read outside its five elements. -/
  fault : Bool
deriving DecidableEq, Repr

/-- The initializers of the global variables. -/
def initState : State where
  isLedOn := false
  currentLevelIndex := 4
  lastFrameTime := 0
  frameCounter := 0
  glitchOffset := 0
  scanlinePos := 0
  lastScanlinePos := 0
  glitchActive := false
  lastGlitchTime := 0
  scanlinePaused := false
  scanlinePauseStart := 0
  lastSuccessfulDraw := 0
  screenState := SCREEN_OFF
  lastUserActivity := 0
  animationStartTime := 0
  noiseBurstActive := false
  lastNoiseBurst := 0
  clk := 0
  rnd := 0
  led := []
  disp := []
  fault := false

/-! ## Constants -/

def BRIGHTNESS_LEVELS : List Int := [51, 102, 153, 204, 255]
def NUM_LEVELS : Int := 5
def SCANLINE_PAUSE_DURATION : Nat := 1000
def SCREEN_TIMEOUT : Nat := 5000
def POWERUP_DURATION : Nat := 500
def POWERDOWN_DURATION : Nat := 600
/-- The global `noiseBurstDuration`; it is never assigned after its initializer. -/
def noiseBurstDuration : Nat := 150
/-- The global `noisePixelCount`; it is never assigned after its initializer. -/
def noisePixelCount : Int := 140

/-! ## Environment -/

/-- The float value `(float)elapsed / duration`, clamped to `1.0`, kept
symbolically as the two integers it is computed from. -/
structure Progress where
  elapsed : Nat
  duration : Nat
deriving DecidableEq, Repr

/-- Integer results of the floating-point expressions of the animations. -/
structure FloatOps where
  /-- The value `(int)(k * progress)`. -/
  scaled : Int → Progress → Int
  /-- The test `progress > 0.3`. -/
  gt03 : Progress → Bool
  /-- The test `progress > 0.7`. -/
  gt07 : Progress → Bool
  /-- The test `progress < 0.3`. -/
  lt03 : Progress → Bool
  /-- The value `(int)(20 * (progress - 0.3) / 0.7)`. -/
  lineLength : Progress → Int
  /-- The value `(int)(cos(angle) * r)` for `angle = progress * 6.28f + i * 1.57f`. -/
  cosTimes : Progress → Nat → Int → Int
  /-- The value `(int)(sin(angle) * r)` for the same angle. -/
  sinTimes : Progress → Nat → Int → Int
  /-- The value `(int)(k * reverseProgress)` for `reverseProgress = 1.0 - progress`. -/
  revScaled : Int → Progress → Int

/-- What the program reads from outside: the clock, the generator and the
floating-point unit. -/
structure Env where
  /-- Value returned by the k-th call of `millis()`. -/
  clock : Nat → Nat
  /-- Raw value of the k-th draw of the pseudo-random generator. -/
  entropy : Nat → Nat
  fl : FloatOps

/-- Value returned by the k-th `millis()` call, an `unsigned long`. -/
def reading (env : Env) (k : Nat) : Nat := env.clock k % U32

/-- Value returned by the next `millis()` call. -/
def millis (env : Env) (s : State) : Nat := reading env s.clk

/-- State after a `millis()` call. -/
def afterMillis (s : State) : State := { s with clk := s.clk + 1 }

/-- Modelled from the spec: the Arduino library function `random(howbig)`,
which is not part of the sketch; it returns a value in `[0, howbig)`, the
next raw value of the generator reduced modulo `howbig`. -/
def random1 (env : Env) (howbig : Int) (s : State) : Int :=
  if howbig = 0 then 0 else Int.tmod (env.entropy s.rnd) howbig

/-- Modelled from the spec: the Arduino library function
`random(howsmall, howbig)`, which is not part of the sketch; it returns a
value in `[howsmall, howbig)`. -/
def random (env : Env) (howsmall howbig : Int) (s : State) : Int :=
  if howsmall ≥ howbig then howsmall else random1 env (howbig - howsmall) s + howsmall

/-- State after a call of `random`. -/
def afterRandom (s : State) : State := { s with rnd := s.rnd + 1 }

/-- Modelled from the spec: the Arduino library function `map`, which is not
part of the sketch; it rescales `x` linearly from the input range to the
output range, with the truncating division of C (the power bar is filled
proportionally to the percentage). -/
def map (x in_min in_max out_min out_max : Int) : Int :=
  Int.tdiv ((x - in_min) * (out_max - out_min)) (in_max - in_min) + out_min

/-- Record a call on the LED pins. -/
def emitL (c : LedCmd) (s : State) : State := { s with led := s.led ++ [c] }

/-- Record a call on the display. -/
def emitD (c : DispCmd) (s : State) : State := { s with disp := s.disp ++ [c] }

/-- A counted loop `for (int i = 0; i < n; i++) body`. -/
def forLoop (n : Nat) (body : Nat → State → State) (s : State) : State :=
  (List.range n).foldl (fun st i => body i st) s

/-- The text produced by `sprintf(buf, "%d", n)`. -/
def fmtD (n : Int) : String :=
  if n < 0 then "-" ++ Nat.repr n.natAbs else Nat.repr n.toNat

/-- The text produced by `sprintf(buf, "%02X", n)`. -/
def fmt02X (n : Int) : String :=
  let ds := (Nat.toDigits 16 (toU32 n)).map Char.toUpper
  String.mk (if ds.length < 2 then '0' :: ds else ds)

/-! ## Screen lifecycle -/

/-- Source: `wakeScreen`, lines 79-87. -/
def wakeScreen (env : Env) (s : State) : State :=
  let s :=
    if s.screenState = SCREEN_OFF then
      let s := { s with screenState := SCREEN_POWERING_UP }
      let s := { afterMillis s with animationStartTime := millis env s }
      let s := emitD (.setPowerSave 0) s
      emitD (.setContrast 255) s
    else s
  { afterMillis s with lastUserActivity := millis env s }

/-- Source: `updateScreenState`, lines 90-118. -/
def updateScreenState (env : Env) (s : State) : State :=
  let now := millis env s
  let s := afterMillis s
  match s.screenState with
  | SCREEN_POWERING_UP =>
    if sub32 now s.animationStartTime ≥ POWERUP_DURATION then
      { s with screenState := SCREEN_ON }
    else s
  | SCREEN_ON =>
    if sub32 now s.lastUserActivity ≥ SCREEN_TIMEOUT then
      { s with screenState := SCREEN_POWERING_DOWN, animationStartTime := now }
    else s
  | SCREEN_POWERING_DOWN =>
    if sub32 now s.animationStartTime ≥ POWERDOWN_DURATION then
      emitD (.setPowerSave 1) { s with screenState := SCREEN_OFF }
    else s
  | SCREEN_OFF => s

/-! ## Animations -/

/-- One iteration of the loop of `drawPowerUpAnimation`, lines 135-141. -/
def drawPowerUpRay (env : Env) (progress : Progress) (i : Nat) (s : State) : State :=
  let centerY : Int := 64
  let centerX : Int := 16
  let lineLength := env.fl.lineLength progress
  let x1 := centerX + env.fl.cosTimes progress i 5
  let y1 := centerY + env.fl.sinTimes progress i 5
  let x2 := centerX + env.fl.cosTimes progress i (5 + lineLength)
  let y2 := centerY + env.fl.sinTimes progress i (5 + lineLength)
  emitD (.drawLine x1 y1 x2 y2) s

/-- Source: `drawPowerUpAnimation`, lines 121-150. -/
def drawPowerUpAnimation (env : Env) (progress : Progress) (s : State) : State :=
  let centerY : Int := 64
  let centerX : Int := 16
  let width := env.fl.scaled 32 progress
  let height := env.fl.scaled 128 progress
  let s := emitD (.drawFrame (centerX - Int.tdiv width 2) (centerY - Int.tdiv height 2) width height) s
  let s :=
    if env.fl.gt03 progress then forLoop 4 (drawPowerUpRay env progress) s
    else s
  if env.fl.gt07 progress then
    let s := emitD (.setFont .font_6x12_tr) s
    emitD (.drawStr 4 64 "ONLINE") s
  else s

/-- One iteration of the first loop of `drawPowerDownAnimation`, lines 163-166. -/
def drawPowerDownBand (env : Env) (progress : Progress) (i : Nat) (s : State) : State :=
  let y := env.fl.revScaled (i * 16) progress
  if y < 128 then emitD (.drawHLine 0 y 32) s else s

/-- Source: `drawPowerDownAnimation`, lines 153-179. -/
def drawPowerDownAnimation (env : Env) (progress : Progress) (s : State) : State :=
  let centerY : Int := 64
  let centerX : Int := 16
  let s := forLoop 8 (drawPowerDownBand env progress) s
  let width := env.fl.revScaled 32 progress
  let height := env.fl.revScaled 128 progress
  let s := emitD (.drawFrame (centerX - Int.tdiv width 2) (centerY - Int.tdiv height 2) width height) s
  if env.fl.lt03 progress then
    let s := emitD (.setFont .font_6x12_tr) s
    emitD (.drawStr 2 64 "OFFLINE") s
  else s

/-- Source: `updateNoiseBurst`, lines 182-196.  The generator is consulted
only when no burst is active (`&&` evaluates its right operand only then). -/
def updateNoiseBurst (env : Env) (s : State) : State :=
  let now := millis env s
  let s := afterMillis s
  let s :=
    if s.noiseBurstActive = false then
      let r := random env 4000 7000 s
      let s := afterRandom s
      if sub32 now s.lastNoiseBurst > toU32 r then
        { s with noiseBurstActive := true, lastNoiseBurst := now }
      else s
    else s
  if s.noiseBurstActive = true ∧ sub32 now s.lastNoiseBurst > noiseBurstDuration then
    { s with noiseBurstActive := false }
  else s

/-- Source: `updateGlitch`, lines 199-210. -/
def updateGlitch (env : Env) (s : State) : State :=
  let now := millis env s
  let s := afterMillis s
  let r := random env 2000 3500 s
  let s := afterRandom s
  if sub32 now s.lastGlitchTime > toU32 r then
    let s := { s with glitchActive := true }
    let s := { afterRandom s with glitchOffset := random env (-3) 4 s }
    { s with lastGlitchTime := now }
  else if sub32 now s.lastGlitchTime > 150 then
    { s with glitchActive := false, glitchOffset := 0 }
  else s

/-- One iteration of the loop of `drawNoiseBurst`, lines 220-230. -/
def drawNoiseBurstBody (env : Env) (s : State) : State :=
  let x := random env 0 32 s
  let s := afterRandom s
  let y := random env 0 128 s
  let s := afterRandom s
  let s := emitD (.drawPixel x y) s
  let r := random1 env 100 s
  let s := afterRandom s
  let s := if r < 50 then emitD (.drawPixel (x + 1) y) s else s
  let r := random1 env 100 s
  let s := afterRandom s
  if r < 30 then emitD (.drawPixel x (y + 1)) s else s

/-- Source: `drawNoiseBurst`, lines 213-232. -/
def drawNoiseBurst (env : Env) (s : State) : State :=
  if s.noiseBurstActive = false then s
  else forLoop noisePixelCount.toNat (fun _ => drawNoiseBurstBody env) s

/-- One iteration of the loop of `drawScanline`, lines 260-262. -/
def drawScanlineColumn (i : Nat) (s : State) : State :=
  let y := Int.tmod (s.scanlinePos + Int.tdiv i 8) 128
  let s := emitD (.drawPixel i y) s
  emitD (.drawPixel i (Int.tmod (y + 1) 128)) s

/-- Lines 248-263 of `drawScanline`: advance the sweep and draw it. -/
def drawScanlineSweep (now : Nat) (s : State) : State :=
  let s := { s with lastScanlinePos := s.scanlinePos }
  let s := { s with scanlinePos := Int.tmod (s.scanlinePos + 12) 512 }
  if s.scanlinePos < s.lastScanlinePos then
    { s with scanlinePaused := true, scanlinePauseStart := now }
  else
    forLoop 32 drawScanlineColumn s

/-- Source: `drawScanline`, lines 235-264. -/
def drawScanline (env : Env) (s : State) : State :=
  let now := millis env s
  let s := afterMillis s
  if s.scanlinePaused then
    if sub32 now s.scanlinePauseStart ≥ SCANLINE_PAUSE_DURATION then
      drawScanlineSweep now { s with scanlinePaused := false, scanlinePos := 0 }
    else s
  else drawScanlineSweep now s

/-- Source: `drawStatusIndicator`, lines 267-299. -/
def drawStatusIndicator (y : Int) (active : Bool) (s : State) : State :=
  if active then
    let pulse := Int.tmod s.frameCounter 20
    let cx : Int := 16
    let cy : Int := y - 3
    let s := emitD (.drawStr 2 y "[") s
    let s := emitD (.drawStr 26 y "]") s
    if pulse < 3 then
      let s := emitD (.drawBox (cx - 3) (cy - 3) 7 7) s
      let s := emitD (.drawLine (cx - 5) cy (cx + 5) cy) s
      emitD (.drawLine cx (cy - 5) cx (cy + 5)) s
    else if pulse < 6 then
      emitD (.drawBox (cx - 1) (cy - 1) 3 3) s
    else if pulse < 11 then
      let s := emitD (.drawBox (cx - 2) (cy - 2) 5 5) s
      emitD (.drawFrame (cx - 5) (cy - 5) 11 11) s
    else
      emitD (.drawBox (cx - 1) (cy - 1) 3 3) s
  else
    let s := emitD (.drawStr 2 y "[") s
    let s := emitD (.drawStr 26 y "]") s
    emitD (.drawPixel 15 (y - 3)) s

/-- One iteration of the hatching loop of `drawPowerBar`, lines 319-329. -/
def drawPowerBarHatch (i : Nat) (s : State) : State :=
  let yBase : Int := 70 + (i * 8) + 1
  let s := emitD (.drawLine 3 (yBase + 6) (3 + 6) yBase) s
  let s := emitD (.drawLine 3 (yBase + 2) (3 + 2) yBase) s
  let s := emitD (.drawLine (3 + 4) (yBase + 6) (3 + 6) (yBase + 4)) s
  let s := emitD (.drawLine 23 (yBase + 6) (23 + 6) yBase) s
  let s := emitD (.drawLine 23 (yBase + 2) (23 + 2) yBase) s
  emitD (.drawLine (23 + 4) (yBase + 6) (23 + 6) (yBase + 4)) s

/-- One iteration of the segment-line loop of `drawPowerBar`, lines 335-337. -/
def drawPowerBarSegment (i : Nat) (s : State) : State :=
  let segY : Int := 70 + (i * 8)
  let s := emitD (.drawHLine 2 segY 8) s
  emitD (.drawHLine 22 segY 8) s

/-- Source: `drawPowerBar`, lines 303-339. -/
def drawPowerBar (percentage : Int) (active : Bool) (s : State) : State :=
  let barHeight := map percentage 0 100 0 40
  let s := emitD (.drawFrame 2 70 8 42) s
  let s := emitD (.drawFrame 22 70 8 42) s
  let s :=
    if active then
      if barHeight > 0 then
        let s := emitD (.drawBox 3 (111 - barHeight) 6 barHeight) s
        emitD (.drawBox 23 (111 - barHeight) 6 barHeight) s
      else s
    else
      forLoop 5 drawPowerBarHatch s
  forLoop 5 drawPowerBarSegment s

/-! ## LED driver -/

/-- Record a read of `BRIGHTNESS_LEVELS` outside its five elements. -/
def markFault (s : State) : State := { s with fault := true }

/-- The read `BRIGHTNESS_LEVELS[i]`; `none` outside the table. -/
def readLevel (i : Int) : Option Int :=
  if 0 ≤ i then BRIGHTNESS_LEVELS[i.toNat]? else none

/-- Source: `updateLED`, lines 342-368. -/
def updateLED (s : State) : State :=
  if s.isLedOn then
    let s := emitL (.pinModeOutput .PIN_LED_FIBER) s
    let s := emitL (.pinModeOutput .PIN_LED_FIBER2) s
    let s := emitL (.driveStrength12mA .PIN_LED_FIBER) s
    let s := emitL (.driveStrength12mA .PIN_LED_FIBER2) s
    if s.currentLevelIndex = NUM_LEVELS - 1 then
      let s := emitL (.digitalWrite .PIN_LED_FIBER true) s
      emitL (.digitalWrite .PIN_LED_FIBER2 true) s
    else
      match readLevel s.currentLevelIndex with
      | some v =>
        let s := emitL (.analogWrite .PIN_LED_FIBER v) s
        emitL (.analogWrite .PIN_LED_FIBER2 v) s
      | none => markFault s
  else
    let s := emitL (.pinModeOutput .PIN_LED_FIBER) s
    let s := emitL (.pinModeOutput .PIN_LED_FIBER2) s
    let s := emitL (.digitalWrite .PIN_LED_FIBER false) s
    emitL (.digitalWrite .PIN_LED_FIBER2 false) s

/-! ## Frame composer -/

/-- Lines 401-477 of `drawScreen`: the status panel drawn while the screen is on. -/
def drawStatusPanel (env : Env) (s : State) : State :=
  let s := updateGlitch env s
  let s := drawNoiseBurst env s
  let s := emitD (.setFont .font_5x7_tr) s
  let s := emitD (.setFont .font_4x6_tr) s
  let headerY : Int := if s.glitchActive then s.glitchOffset else 0
  let s := emitD (.drawStr 1 (8 + headerY) "CYBR.LMP") s
  let s := emitD (.drawHLine 0 10 32) s
  let s :=
    if s.glitchActive then
      emitD (.drawHLine 0 11 (random1 env 32 s)) (afterRandom s)
    else s
  let s := emitD (.setFont .font_5x7_tr) s
  let s := drawStatusIndicator 28 s.isLedOn s
  let s := emitD (.setFont .font_4x6_tr) s
  let statusY : Int := 38
  let s :=
    if s.isLedOn then
      let s := emitD (.drawStr (6 + headerY) statusY "PWR") s
      if Int.tmod (Int.tdiv s.frameCounter 5) 2 = 0 then
        let s := emitD (.drawPixel 2 (statusY - 3)) s
        emitD (.drawPixel 28 (statusY - 3)) s
      else s
    else
      emitD (.drawStr (4 - headerY) statusY "SLEEP") s
  let s := emitD (.drawHLine 0 42 32) s
  let percentage : Int := (s.currentLevelIndex + 1) * 20
  let s := emitD (.setFont .font_4x6_tr) s
  let s := emitD (.drawStr 8 54 "LVL") s
  let s := emitD (.setFont .font_6x12_tr) s
  let numX : Int := if percentage = 100 then 6 else 10
  let s := emitD (.drawStr numX 66 (fmtD percentage)) s
  let s := drawPowerBar percentage s.isLedOn s
  let s := emitD (.setDrawColor 1) s
  let s := drawScanline env s
  let s := emitD (.setFont .font_4x6_tr) s
  let s := emitD (.drawStr 2 122 "SYS.OK") s
  if Int.tmod s.frameCounter 30 < 15 then
    emitD (.drawStr 18 122 (fmt02X (Int.tmod (Int.tdiv s.frameCounter 10) 256))) s
  else s

/-- Source: `drawScreen`, lines 370-485. -/
def drawScreen (env : Env) (s : State) : State :=
  if s.screenState = SCREEN_OFF then s
  else
    let s := updateNoiseBurst env s
    let s := emitD .clearBuffer s
    let s :=
      if s.screenState = SCREEN_POWERING_UP then
        let elapsed := sub32 (millis env s) s.animationStartTime
        let s := afterMillis s
        drawPowerUpAnimation env ⟨elapsed, POWERUP_DURATION⟩ s
      else if s.screenState = SCREEN_POWERING_DOWN then
        let elapsed := sub32 (millis env s) s.animationStartTime
        let s := afterMillis s
        drawPowerDownAnimation env ⟨elapsed, POWERDOWN_DURATION⟩ s
      else
        drawStatusPanel env s
    let s := emitD .sendBuffer s
    let s := { afterMillis s with lastSuccessfulDraw := millis env s }
    { s with frameCounter := s.frameCounter + 1 }

/-! ## Button callbacks -/

/-- Source: `onToggleClick`, lines 489-498. -/
def onToggleClick (env : Env) (s : State) : State :=
  let s := wakeScreen env s
  let s := { s with isLedOn := !s.isLedOn }
  let s := updateLED s
  let s := drawScreen env s
  let s := { s with glitchActive := true }
  { afterMillis s with lastGlitchTime := millis env s }

/-- Source: `onBrightClick`, lines 500-519. -/
def onBrightClick (env : Env) (s : State) : State :=
  let s := wakeScreen env s
  if s.isLedOn = false then s
  else
    let s := { s with currentLevelIndex := s.currentLevelIndex + 1 }
    let s := if s.currentLevelIndex ≥ NUM_LEVELS then { s with currentLevelIndex := 0 } else s
    let s := updateLED s
    let s := drawScreen env s
    let s := { s with glitchActive := true }
    { afterMillis s with lastGlitchTime := millis env s }

/-! ## Poll loop -/

/-- Source: `loop`, lines 551-579.  `toggle` and `bright` tell whether the
`tick()` of the corresponding button delivers a click in this iteration.
The closing `delay(10)` only lets time pass, which the clock oracle covers. -/
def loop (env : Env) (toggle bright : Bool) (s : State) : State :=
  let now := millis env s
  let s := afterMillis s
  let s := updateScreenState env s
  let s := if toggle then onToggleClick env s else s
  let s := if bright then onBrightClick env s else s
  let frameRate : Int :=
    if s.screenState = SCREEN_POWERING_UP ∨ s.screenState = SCREEN_POWERING_DOWN
        ∨ s.noiseBurstActive = true then 33 else 100
  if s.screenState ≠ SCREEN_OFF ∧ sub32 now s.lastFrameTime > toU32 frameRate then
    let s := { s with lastFrameTime := now }
    let s := drawScreen env s
    if Int.tmod s.frameCounter 100 = 0 ∧ s.screenState = SCREEN_ON then afterMillis s else s
  else s

/-! ## Notions used by the statements -/

/-- The LED part of the state (`LedState` of the data model). -/
def ledState (s : State) : Bool × Int := (s.isLedOn, s.currentLevelIndex)

/-- The lifecycle part of the state (`ScreenLifecycle` of the data model). -/
def lifecycle (s : State) : ScreenState × Nat × Nat :=
  (s.screenState, s.animationStartTime, s.lastUserActivity)

/-- Float results used by the concrete examples: every expression evaluates
to zero or false. -/
def flZero : FloatOps :=
  ⟨fun _ _ => 0, fun _ => false, fun _ => false, fun _ => false, fun _ => 0,
   fun _ _ _ => 0, fun _ _ _ => 0, fun _ _ => 0⟩

/-- Environment of the concrete examples: the clock readings and the raw
random values are taken from two lists (zero beyond their ends). -/
def envOf (clock entropy : List Nat) : Env :=
  ⟨fun k => clock.getD k 0, fun k => entropy.getD k 0, flZero⟩

/-- The state after `n` further `millis()` calls that changed nothing else. -/
def advance (n : Nat) (s : State) : State := { s with clk := s.clk + n }

/-- What can happen to the display without a wake: a lifecycle poll, a frame
render, or a whole `loop` iteration in which neither button delivers a click. -/
inductive Idle where
  | poll
  | render
  | iteration
deriving DecidableEq, Repr

/-- One step without a wake. -/
def idleStep (env : Env) : Idle → State → State
  | .poll => updateScreenState env
  | .render => drawScreen env
  | .iteration => loop env false false

/-- A sequence of steps without a wake, oldest first. -/
def idleRun (env : Env) (steps : List Idle) (s : State) : State :=
  steps.foldl (fun st a => idleStep env a st) s

/-- Position of a lifecycle state in the order powering up, on, powering
down, off. -/
def lifecycleRank : ScreenState → Nat
  | SCREEN_POWERING_UP => 0
  | SCREEN_ON => 1
  | SCREEN_POWERING_DOWN => 2
  | SCREEN_OFF => 3

/-- Environment of the concrete examples whose clock advances by `step`
milliseconds from one reading to the next. -/
def envTick (step : Nat) : Env := ⟨fun k => step * k, fun _ => 0, flZero⟩

/-- Environment of the concrete examples whose clock reads `t` at every call. -/
def envConst (t : Nat) : Env := ⟨fun _ => t, fun _ => 0, flZero⟩

/-- Input dispatch of one poll iteration: the click callbacks of the buttons
that deliver a click, the toggle button first. -/
def dispatchClicks (env : Env) (toggle bright : Bool) (s : State) : State :=
  let s := if toggle then onToggleClick env s else s
  if bright then onBrightClick env s else s

/-- The frame-rate-gated `drawScreen` of one poll iteration that started at
clock reading `now`. -/
def renderIfDue (env : Env) (now : Nat) (s : State) : State :=
  let frameRate : Int :=
    if s.screenState = SCREEN_POWERING_UP ∨ s.screenState = SCREEN_POWERING_DOWN
        ∨ s.noiseBurstActive = true then 33 else 100
  if s.screenState ≠ SCREEN_OFF ∧ sub32 now s.lastFrameTime > toU32 frameRate then
    let s := drawScreen env { s with lastFrameTime := now }
    if Int.tmod s.frameCounter 100 = 0 ∧ s.screenState = SCREEN_ON then afterMillis s else s
  else s

/-- One poll iteration in the order the specification gives: input dispatch,
then the lifecycle update, then the gated render. -/
def iterationDispatchFirst (env : Env) (toggle bright : Bool) (s : State) : State :=
  renderIfDue env (millis env s)
    (updateScreenState env (dispatchClicks env toggle bright (afterMillis s)))

/-- One poll iteration in the order lifecycle update, then input dispatch,
then the gated render. -/
def iterationUpdateFirst (env : Env) (toggle bright : Bool) (s : State) : State :=
  renderIfDue env (millis env s)
    (dispatchClicks env toggle bright (updateScreenState env (afterMillis s)))

/-- The display calls made by `drawPowerUpAnimation` at a given progress. -/
def powerUpCalls (env : Env) (p : Progress) : List DispCmd :=
  (drawPowerUpAnimation env p initState).disp

/-- Calls of the power-up animation: its frame, its radiating lines, the
font of its label and the label itself. -/
def isPowerUpCall : DispCmd → Bool
  | .drawFrame _ _ _ _ => true
  | .drawLine _ _ _ _ => true
  | .setFont f => f == .font_6x12_tr
  | .drawStr x y text => x == 4 && y == 64 && text == "ONLINE"
  | _ => false

/-- Calls that only the status panel makes: pixels (scanline, indicator,
noise), horizontal lines (separators, power bar), boxes (indicator, power
bar), the draw colour, the two small fonts and every text other than the
label of the power-up animation. -/
def isStatusPanelCall : DispCmd → Bool
  | .drawPixel _ _ => true
  | .drawHLine _ _ _ => true
  | .drawBox _ _ _ _ => true
  | .setDrawColor _ => true
  | .setFont f => f != .font_6x12_tr
  | .drawStr _ _ text => text != "ONLINE"
  | _ => false

/-- The state without what `updateLED` writes: the LED command log and the
out-of-bounds marker. -/
def sansLed (s : State) : State := { s with led := [], fault := false }

/-- The two `drawPixel` calls of `drawScanline` in column `i` at sweep
position `pos` (lines 260-262). -/
def scanlineColumnCalls (pos : Int) (i : Nat) : List DispCmd :=
  [.drawPixel i (Int.tmod (pos + Int.tdiv i 8) 128),
   .drawPixel i (Int.tmod (Int.tmod (pos + Int.tdiv i 8) 128 + 1) 128)]

/-- The display calls of one drawn scanline at sweep position `pos`: what the
drawing loop of `drawScanline` (lines 259-263) sends to the display. -/
def scanlineCalls (pos : Int) : List DispCmd :=
  (forLoop 32 drawScanlineColumn { initState with scanlinePos := pos }).disp

/-- Environment of the noise-burst example: `updateNoiseBurst` is called when
the clock reads 10000, 10151 and 14001 ms, and the generator yields raw
values 0, so that every `random(4000, 7000)` returns 4000. -/
def envBurst : Env := envOf [10000, 10151, 14001] [0, 0]

/-- The display calls of `drawStatusIndicator(y, active)` at a given value of
`frameCounter`. -/
def indicatorCalls (y : Int) (active : Bool) (frameCounter : Int) : List DispCmd :=
  (drawStatusIndicator y active { initState with frameCounter := frameCounter }).disp

/-- The frame counter. -/
def frameCount (s : State) : Int := s.frameCounter

/-- What `drawScreen` and the functions it calls never write: the LED state,
the time of the last gated frame, the lifecycle, the LED command log and the
out-of-bounds marker. -/
def outer (s : State) :
    Bool × Int × Nat × ScreenState × Nat × Nat × List LedCmd × Bool :=
  (s.isLedOn, s.currentLevelIndex, s.lastFrameTime, s.screenState, s.lastUserActivity,
   s.animationStartTime, s.led, s.fault)

/-- The ranges of the effects state in the data model: `glitchOffset` in
`[-3, 3]` and `scanlinePos` in `[0, 511]`. -/
def fxOk (s : State) : Prop :=
  -3 ≤ s.glitchOffset ∧ s.glitchOffset ≤ 3 ∧ 0 ≤ s.scanlinePos ∧ s.scanlinePos ≤ 511

/-- The out-of-bounds marker. -/
def faultOf (s : State) : Bool := s.fault

/-- The glitch as the header reads it. -/
def glitchView (s : State) : Bool × Int := (s.glitchActive, s.glitchOffset)

/-- The operations of the state invariants: the two click callbacks, a
lifecycle poll and a frame render. -/
inductive Op where
  | toggle
  | bright
  | poll
  | draw
deriving DecidableEq, Repr

/-- One operation. -/
def opStep (env : Env) : Op → State → State
  | .toggle => onToggleClick env
  | .bright => onBrightClick env
  | .poll => updateScreenState env
  | .draw => drawScreen env

/-- A sequence of operations, oldest first. -/
def opRun (env : Env) (ops : List Op) (s : State) : State :=
  ops.foldl (fun st o => opStep env o st) s

/-- The level index is inside the brightness table and no read of the table
went outside it. -/
def levelOk (s : State) : Prop :=
  0 ≤ s.currentLevelIndex ∧ s.currentLevelIndex ≤ 4 ∧ s.fault = false

/-- A call that draws into the frame buffer or selects a font or a colour:
every display call other than `clearBuffer`, `sendBuffer`, `setPowerSave` and
`setContrast`. -/
def isDrawCall : DispCmd → Bool
  | .clearBuffer => false
  | .sendBuffer => false
  | .setPowerSave _ => false
  | .setContrast _ => false
  | _ => true

/-- The display log, newest call first, from its last call that is not a draw
call on. -/
def lastControl (s : State) : List DispCmd := s.disp.reverse.dropWhile isDrawCall

/-- A text drawn with `drawStr`. -/
def isText : DispCmd → Bool
  | .drawStr _ _ _ => true
  | _ => false

/-- The texts drawn so far, oldest first. -/
def textCalls (s : State) : List DispCmd := s.disp.filter isText

/-- The target frame interval in the words of the specification: 33 ms while
the screen is powering up or down or a noise burst is active, 100 ms
otherwise. -/
def targetFrameInterval (s : State) : Nat :=
  if s.screenState = SCREEN_POWERING_UP ∨ s.screenState = SCREEN_POWERING_DOWN
      ∨ s.noiseBurstActive = true then 33 else 100

/-- The state of a poll iteration when it reaches the frame-rate gate, line
563: after the clock reading, the lifecycle update and the button ticks. -/
def beforeGate (env : Env) (toggle bright : Bool) (s : State) : State :=
  dispatchClicks env toggle bright (updateScreenState env (afterMillis s))

/-- The local `headerY` of `drawScreen`, line 414:
`int headerY = (glitchActive ? glitchOffset : 0)`. -/
def headerY (s : State) : Int := if s.glitchActive then s.glitchOffset else 0

/-- The local `percentage` of `drawScreen`, line 447:
`int percentage = (currentLevelIndex + 1) * 20`. -/
def percentage (s : State) : Int := (s.currentLevelIndex + 1) * 20

/-- State of the header example: the status panel is on and a glitch with
offset 2 started at 9000 ms, the time of the last noise burst. -/
def glitchedPanel : State :=
  { initState with screenState := SCREEN_ON, glitchActive := true, glitchOffset := 2,
                   lastGlitchTime := 9000, lastNoiseBurst := 9000 }

/-! # Theorems -/

/-! ## Frame lemmas: what the functions leave untouched -/

theorem forLoop_preserves {α : Type} (g : State → α) (n : Nat) (body : Nat → State → State)
    (h : ∀ i s, g (body i s) = g s) (s : State) : g (forLoop n body s) = g s := by
  unfold forLoop
  generalize List.range n = l
  induction l generalizing s with
  | nil => rfl
  | cons a l ih => simp only [List.foldl_cons]; rw [ih, h]

/-! ### The LED part -/

theorem ledState_mk (a1 : Bool) (a2 : Int) (a3 : Nat) (a4 a5 a6 a7 : Int) (a8 : Bool) (a9 : Nat)
    (a10 : Bool) (a11 a12 : Nat) (a13 : ScreenState) (a14 a15 : Nat) (a16 : Bool) (a17 a18 a19 : Nat)
    (a20 : List LedCmd) (a21 : List DispCmd) (a22 : Bool) :
    ledState ⟨a1, a2, a3, a4, a5, a6, a7, a8, a9, a10, a11, a12, a13, a14, a15, a16, a17, a18, a19,
      a20, a21, a22⟩ = (a1, a2) := rfl
theorem ledState_fold (s : State) : (s.isLedOn, s.currentLevelIndex) = ledState s := by cases s; rfl
theorem ledState_emitD (c : DispCmd) (s : State) : ledState (emitD c s) = ledState s := by cases s; rfl
theorem ledState_emitL (c : LedCmd) (s : State) : ledState (emitL c s) = ledState s := by cases s; rfl
theorem ledState_markFault (s : State) : ledState (markFault s) = ledState s := by cases s; rfl
theorem ledState_afterMillis (s : State) : ledState (afterMillis s) = ledState s := by cases s; rfl
theorem ledState_afterRandom (s : State) : ledState (afterRandom s) = ledState s := by cases s; rfl

theorem ledState_updateNoiseBurst (env : Env) (s : State) :
    ledState (updateNoiseBurst env s) = ledState s := by
  unfold updateNoiseBurst
  simp only [apply_ite ledState, ledState_mk, ledState_fold, ledState_afterMillis,
    ledState_afterRandom, ite_self]

theorem ledState_updateGlitch (env : Env) (s : State) :
    ledState (updateGlitch env s) = ledState s := by
  unfold updateGlitch
  simp only [apply_ite ledState, ledState_mk, ledState_fold, ledState_afterMillis,
    ledState_afterRandom, ite_self]

theorem ledState_drawNoiseBurstBody (env : Env) (s : State) :
    ledState (drawNoiseBurstBody env s) = ledState s := by
  unfold drawNoiseBurstBody
  simp only [apply_ite ledState, ledState_emitD, ledState_afterRandom, ite_self]

theorem ledState_drawNoiseBurst (env : Env) (s : State) :
    ledState (drawNoiseBurst env s) = ledState s := by
  unfold drawNoiseBurst
  split_ifs
  · rfl
  · exact forLoop_preserves ledState _ _ (fun _ s => ledState_drawNoiseBurstBody env s) _

theorem ledState_drawScanlineSweep (now : Nat) (s : State) :
    ledState (drawScanlineSweep now s) = ledState s := by
  unfold drawScanlineSweep
  simp only [apply_ite ledState, ledState_mk, ledState_fold, ite_self,
    forLoop_preserves ledState 32 drawScanlineColumn (fun _ s => by cases s; rfl)]

theorem ledState_drawScanline (env : Env) (s : State) :
    ledState (drawScanline env s) = ledState s := by
  unfold drawScanline
  simp only [apply_ite ledState, ledState_drawScanlineSweep, ledState_mk, ledState_fold,
    ledState_afterMillis, ite_self]

theorem ledState_drawStatusIndicator (y : Int) (a : Bool) (s : State) :
    ledState (drawStatusIndicator y a s) = ledState s := by
  unfold drawStatusIndicator
  simp only [apply_ite ledState, ledState_emitD, ite_self]

theorem ledState_drawPowerBar (p : Int) (a : Bool) (s : State) :
    ledState (drawPowerBar p a s) = ledState s := by
  unfold drawPowerBar
  simp only [apply_ite ledState, ledState_emitD, ite_self,
    forLoop_preserves ledState 5 drawPowerBarHatch (fun _ s => by cases s; rfl),
    forLoop_preserves ledState 5 drawPowerBarSegment (fun _ s => by cases s; rfl)]

theorem ledState_drawPowerUpAnimation (env : Env) (p : Progress) (s : State) :
    ledState (drawPowerUpAnimation env p s) = ledState s := by
  unfold drawPowerUpAnimation
  simp only [apply_ite ledState, ledState_emitD, ite_self,
    forLoop_preserves ledState 4 (drawPowerUpRay env p) (fun _ s => by cases s; rfl)]

theorem ledState_drawPowerDownBand (env : Env) (p : Progress) (i : Nat) (s : State) :
    ledState (drawPowerDownBand env p i s) = ledState s := by
  unfold drawPowerDownBand
  simp only [apply_ite ledState, ledState_emitD, ite_self]

theorem ledState_drawPowerDownAnimation (env : Env) (p : Progress) (s : State) :
    ledState (drawPowerDownAnimation env p s) = ledState s := by
  unfold drawPowerDownAnimation
  simp only [apply_ite ledState, ledState_emitD, ite_self,
    forLoop_preserves ledState 8 (drawPowerDownBand env p) (ledState_drawPowerDownBand env p)]

theorem ledState_drawStatusPanel (env : Env) (s : State) :
    ledState (drawStatusPanel env s) = ledState s := by
  unfold drawStatusPanel
  simp only [apply_ite ledState, ledState_emitD, ledState_afterRandom, ite_self,
    ledState_drawScanline, ledState_drawPowerBar, ledState_drawStatusIndicator,
    ledState_drawNoiseBurst, ledState_updateGlitch]

theorem ledState_drawScreen (env : Env) (s : State) :
    ledState (drawScreen env s) = ledState s := by
  unfold drawScreen
  simp only [apply_ite ledState, ledState_mk, ledState_fold, ledState_emitD, ledState_afterMillis,
    ite_self, ledState_drawStatusPanel, ledState_drawPowerDownAnimation,
    ledState_drawPowerUpAnimation, ledState_updateNoiseBurst]

theorem ledState_wakeScreen (env : Env) (s : State) :
    ledState (wakeScreen env s) = ledState s := by
  unfold wakeScreen
  simp only [apply_ite ledState, ledState_mk, ledState_fold, ledState_emitD, ledState_afterMillis,
    ite_self]

theorem ledState_updateScreenState (env : Env) (s : State) :
    ledState (updateScreenState env s) = ledState s := by
  unfold updateScreenState
  simp only
  split <;>
    simp only [apply_ite ledState, ledState_mk, ledState_fold, ledState_emitD,
      ledState_afterMillis, ite_self]

theorem ledState_updateLED (s : State) : ledState (updateLED s) = ledState s := by
  unfold updateLED
  simp only
  split_ifs
  · simp only [ledState_emitL]
  · split <;> simp only [ledState_emitL, ledState_markFault]
  · simp only [ledState_emitL]

/-! ### The lifecycle part -/

theorem lifecycle_mk (a1 : Bool) (a2 : Int) (a3 : Nat) (a4 a5 a6 a7 : Int) (a8 : Bool) (a9 : Nat)
    (a10 : Bool) (a11 a12 : Nat) (a13 : ScreenState) (a14 a15 : Nat) (a16 : Bool) (a17 a18 a19 : Nat)
    (a20 : List LedCmd) (a21 : List DispCmd) (a22 : Bool) :
    lifecycle ⟨a1, a2, a3, a4, a5, a6, a7, a8, a9, a10, a11, a12, a13, a14, a15, a16, a17, a18, a19,
      a20, a21, a22⟩ = (a13, a15, a14) := rfl
theorem lifecycle_fold (s : State) : (s.screenState, s.animationStartTime, s.lastUserActivity) = lifecycle s := by cases s; rfl
theorem lifecycle_emitD (c : DispCmd) (s : State) : lifecycle (emitD c s) = lifecycle s := by cases s; rfl
theorem lifecycle_emitL (c : LedCmd) (s : State) : lifecycle (emitL c s) = lifecycle s := by cases s; rfl
theorem lifecycle_markFault (s : State) : lifecycle (markFault s) = lifecycle s := by cases s; rfl
theorem lifecycle_afterMillis (s : State) : lifecycle (afterMillis s) = lifecycle s := by cases s; rfl
theorem lifecycle_afterRandom (s : State) : lifecycle (afterRandom s) = lifecycle s := by cases s; rfl

theorem lifecycle_updateNoiseBurst (env : Env) (s : State) :
    lifecycle (updateNoiseBurst env s) = lifecycle s := by
  unfold updateNoiseBurst
  simp only [apply_ite lifecycle, lifecycle_mk, lifecycle_fold, lifecycle_afterMillis,
    lifecycle_afterRandom, ite_self]

theorem lifecycle_updateGlitch (env : Env) (s : State) :
    lifecycle (updateGlitch env s) = lifecycle s := by
  unfold updateGlitch
  simp only [apply_ite lifecycle, lifecycle_mk, lifecycle_fold, lifecycle_afterMillis,
    lifecycle_afterRandom, ite_self]

theorem lifecycle_drawNoiseBurstBody (env : Env) (s : State) :
    lifecycle (drawNoiseBurstBody env s) = lifecycle s := by
  unfold drawNoiseBurstBody
  simp only [apply_ite lifecycle, lifecycle_emitD, lifecycle_afterRandom, ite_self]

theorem lifecycle_drawNoiseBurst (env : Env) (s : State) :
    lifecycle (drawNoiseBurst env s) = lifecycle s := by
  unfold drawNoiseBurst
  split_ifs
  · rfl
  · exact forLoop_preserves lifecycle _ _ (fun _ s => lifecycle_drawNoiseBurstBody env s) _

theorem lifecycle_drawScanlineSweep (now : Nat) (s : State) :
    lifecycle (drawScanlineSweep now s) = lifecycle s := by
  unfold drawScanlineSweep
  simp only [apply_ite lifecycle, lifecycle_mk, lifecycle_fold, ite_self,
    forLoop_preserves lifecycle 32 drawScanlineColumn (fun _ s => by cases s; rfl)]

theorem lifecycle_drawScanline (env : Env) (s : State) :
    lifecycle (drawScanline env s) = lifecycle s := by
  unfold drawScanline
  simp only [apply_ite lifecycle, lifecycle_drawScanlineSweep, lifecycle_mk, lifecycle_fold,
    lifecycle_afterMillis, ite_self]

theorem lifecycle_drawStatusIndicator (y : Int) (a : Bool) (s : State) :
    lifecycle (drawStatusIndicator y a s) = lifecycle s := by
  unfold drawStatusIndicator
  simp only [apply_ite lifecycle, lifecycle_emitD, ite_self]

theorem lifecycle_drawPowerBar (p : Int) (a : Bool) (s : State) :
    lifecycle (drawPowerBar p a s) = lifecycle s := by
  unfold drawPowerBar
  simp only [apply_ite lifecycle, lifecycle_emitD, ite_self,
    forLoop_preserves lifecycle 5 drawPowerBarHatch (fun _ s => by cases s; rfl),
    forLoop_preserves lifecycle 5 drawPowerBarSegment (fun _ s => by cases s; rfl)]

theorem lifecycle_drawPowerUpAnimation (env : Env) (p : Progress) (s : State) :
    lifecycle (drawPowerUpAnimation env p s) = lifecycle s := by
  unfold drawPowerUpAnimation
  simp only [apply_ite lifecycle, lifecycle_emitD, ite_self,
    forLoop_preserves lifecycle 4 (drawPowerUpRay env p) (fun _ s => by cases s; rfl)]

theorem lifecycle_drawPowerDownBand (env : Env) (p : Progress) (i : Nat) (s : State) :
    lifecycle (drawPowerDownBand env p i s) = lifecycle s := by
  unfold drawPowerDownBand
  simp only [apply_ite lifecycle, lifecycle_emitD, ite_self]

theorem lifecycle_drawPowerDownAnimation (env : Env) (p : Progress) (s : State) :
    lifecycle (drawPowerDownAnimation env p s) = lifecycle s := by
  unfold drawPowerDownAnimation
  simp only [apply_ite lifecycle, lifecycle_emitD, ite_self,
    forLoop_preserves lifecycle 8 (drawPowerDownBand env p) (lifecycle_drawPowerDownBand env p)]

theorem lifecycle_drawStatusPanel (env : Env) (s : State) :
    lifecycle (drawStatusPanel env s) = lifecycle s := by
  unfold drawStatusPanel
  simp only [apply_ite lifecycle, lifecycle_emitD, lifecycle_afterRandom, ite_self,
    lifecycle_drawScanline, lifecycle_drawPowerBar, lifecycle_drawStatusIndicator,
    lifecycle_drawNoiseBurst, lifecycle_updateGlitch]

theorem lifecycle_drawScreen (env : Env) (s : State) :
    lifecycle (drawScreen env s) = lifecycle s := by
  unfold drawScreen
  simp only [apply_ite lifecycle, lifecycle_mk, lifecycle_fold, lifecycle_emitD, lifecycle_afterMillis,
    ite_self, lifecycle_drawStatusPanel, lifecycle_drawPowerDownAnimation,
    lifecycle_drawPowerUpAnimation, lifecycle_updateNoiseBurst]

theorem lifecycle_updateLED (s : State) : lifecycle (updateLED s) = lifecycle s := by
  unfold updateLED
  simp only
  split_ifs
  · simp only [lifecycle_emitL]
  · split <;> simp only [lifecycle_emitL, lifecycle_markFault]
  · simp only [lifecycle_emitL]

/-! ## C1: the brightness controller -/

/-- C1: `updateLED` emits exactly the drive commands of the three-case table.
When the LED is off both pins are made outputs and driven LOW, whatever the
level index; when it is on at index 4 both pins get a digital HIGH and no
`analogWrite`; when it is on at index 0, 1, 2 or 3 both pins get an
`analogWrite` of 51, 102, 153 or 204 and no `digitalWrite`.  Nothing else in
the state changes. -/
theorem updateLED_drive_table (s : State) :
    (s.isLedOn = false →
      updateLED s = { s with led := s.led ++
        [.pinModeOutput .PIN_LED_FIBER, .pinModeOutput .PIN_LED_FIBER2,
         .digitalWrite .PIN_LED_FIBER false, .digitalWrite .PIN_LED_FIBER2 false] }) ∧
    (s.isLedOn = true → s.currentLevelIndex = 4 →
      updateLED s = { s with led := s.led ++
        [.pinModeOutput .PIN_LED_FIBER, .pinModeOutput .PIN_LED_FIBER2,
         .driveStrength12mA .PIN_LED_FIBER, .driveStrength12mA .PIN_LED_FIBER2,
         .digitalWrite .PIN_LED_FIBER true, .digitalWrite .PIN_LED_FIBER2 true] }) ∧
    (s.isLedOn = true → ∀ v : Int,
      (s.currentLevelIndex, v) ∈ [((0 : Int), (51 : Int)), (1, 102), (2, 153), (3, 204)] →
      updateLED s = { s with led := s.led ++
        [.pinModeOutput .PIN_LED_FIBER, .pinModeOutput .PIN_LED_FIBER2,
         .driveStrength12mA .PIN_LED_FIBER, .driveStrength12mA .PIN_LED_FIBER2,
         .analogWrite .PIN_LED_FIBER v, .analogWrite .PIN_LED_FIBER2 v] }) := by
  refine ⟨fun h => ?_, fun h h4 => ?_, fun h v hv => ?_⟩
  · simp [updateLED, emitL, h]
  · simp [updateLED, emitL, h, h4, NUM_LEVELS]
  · simp only [List.mem_cons, Prod.mk.injEq, List.mem_singleton, List.not_mem_nil, or_false] at hv
    rcases hv with ⟨hi, rfl⟩ | ⟨hi, rfl⟩ | ⟨hi, rfl⟩ | ⟨hi, rfl⟩ <;>
      simp [updateLED, emitL, h, hi, NUM_LEVELS, readLevel, BRIGHTNESS_LEVELS]

/-- C1 at concrete states: off at index 2, on at index 4, on at index 2. -/
theorem updateLED_drive_table_witness :
    (updateLED { initState with currentLevelIndex := 2 }).led =
        [.pinModeOutput .PIN_LED_FIBER, .pinModeOutput .PIN_LED_FIBER2,
         .digitalWrite .PIN_LED_FIBER false, .digitalWrite .PIN_LED_FIBER2 false] ∧
    (updateLED { initState with isLedOn := true }).led =
        [.pinModeOutput .PIN_LED_FIBER, .pinModeOutput .PIN_LED_FIBER2,
         .driveStrength12mA .PIN_LED_FIBER, .driveStrength12mA .PIN_LED_FIBER2,
         .digitalWrite .PIN_LED_FIBER true, .digitalWrite .PIN_LED_FIBER2 true] ∧
    (updateLED { initState with isLedOn := true, currentLevelIndex := 2 }).led =
        [.pinModeOutput .PIN_LED_FIBER, .pinModeOutput .PIN_LED_FIBER2,
         .driveStrength12mA .PIN_LED_FIBER, .driveStrength12mA .PIN_LED_FIBER2,
         .analogWrite .PIN_LED_FIBER 153, .analogWrite .PIN_LED_FIBER2 153] :=
  ⟨by rw [(updateLED_drive_table { initState with currentLevelIndex := 2 }).1 rfl]; rfl,
   by rw [(updateLED_drive_table { initState with isLedOn := true }).2.1 rfl rfl]; rfl,
   by rw [(updateLED_drive_table { initState with isLedOn := true, currentLevelIndex := 2
      }).2.2 rfl 153 (by decide)]; rfl⟩

/-! ## C2: cycling the brightness -/

theorem ledState_onBrightClick (env : Env) (s : State) :
    ledState (onBrightClick env s) =
      if s.isLedOn = false then ledState s
      else (s.isLedOn, if s.currentLevelIndex + 1 ≥ NUM_LEVELS then 0 else s.currentLevelIndex + 1) := by
  have hw := ledState_wakeScreen env s
  simp only [ledState, Prod.mk.injEq] at hw
  unfold onBrightClick
  simp only [apply_ite ledState, ledState_mk, ledState_fold, ledState_afterMillis,
    ledState_drawScreen, ledState_updateLED, hw.1, hw.2]
  split_ifs <;> simp_all [ledState]

theorem onBrightClick_on (env : Env) (s : State) (hon : s.isLedOn = true)
    (h0 : 0 ≤ s.currentLevelIndex) (h4 : s.currentLevelIndex ≤ 4) :
    (onBrightClick env s).isLedOn = true ∧
    (onBrightClick env s).currentLevelIndex = (s.currentLevelIndex + 1) % 5 := by
  have h := ledState_onBrightClick env s
  simp only [ledState, hon, NUM_LEVELS, Bool.true_eq_false, if_false] at h
  rw [Prod.mk.injEq] at h
  refine ⟨h.1, ?_⟩
  rw [h.2]
  split_ifs <;> omega

theorem onBrightClick_off (env : Env) (s : State) (hoff : s.isLedOn = false) :
    (onBrightClick env s).isLedOn = false ∧
    (onBrightClick env s).currentLevelIndex = s.currentLevelIndex := by
  have h := ledState_onBrightClick env s
  simp only [ledState, hoff, Prod.mk.injEq, if_true] at h
  exact h

/-- C2: with the LED on and the level index in `[0,4]`, one `onBrightClick`
maps the index `i` to `(i+1) mod 5` and five consecutive calls return it to
its original value; with the LED off, any number of calls leaves the index
and `isLedOn` unchanged.  The calls may happen at any times and with any
values of the random source. -/
theorem onBrightClick_cycle (env : Env) (s : State) :
    (s.isLedOn = true → 0 ≤ s.currentLevelIndex → s.currentLevelIndex ≤ 4 →
      (onBrightClick env s).currentLevelIndex = (s.currentLevelIndex + 1) % 5 ∧
      (onBrightClick env s).isLedOn = true ∧
      ((onBrightClick env)^[5] s).currentLevelIndex = s.currentLevelIndex) ∧
    (s.isLedOn = false → ∀ n : Nat,
      ((onBrightClick env)^[n] s).currentLevelIndex = s.currentLevelIndex ∧
      ((onBrightClick env)^[n] s).isLedOn = false) := by
  constructor
  · intro hon h0 h4
    have h1 := onBrightClick_on env s hon h0 h4
    have h2 := onBrightClick_on env _ h1.1 (by omega) (by omega)
    have h3 := onBrightClick_on env _ h2.1 (by omega) (by omega)
    have h4' := onBrightClick_on env _ h3.1 (by omega) (by omega)
    have h5 := onBrightClick_on env _ h4'.1 (by omega) (by omega)
    refine ⟨h1.2, h1.1, ?_⟩
    simp only [Function.iterate_succ, Function.iterate_zero, Function.comp_apply, id_eq]
    omega
  · intro hoff n
    induction n generalizing s with
    | zero => exact ⟨rfl, hoff⟩
    | succ n ih =>
      have h := onBrightClick_off env s hoff
      have := ih (onBrightClick env s) h.1
      simp only [Function.iterate_succ, Function.comp_apply]
      exact ⟨this.1.trans h.2, this.2⟩

/-- C2 at concrete states: five clicks from index 3 with the LED on, two
clicks from the initial state with the LED off. -/
theorem onBrightClick_cycle_witness :
    ((onBrightClick (envOf [] []))^[5]
      { initState with isLedOn := true, currentLevelIndex := 3 }).currentLevelIndex = 3 ∧
    ((onBrightClick (envOf [] []))^[2] initState).currentLevelIndex = 4 ∧
    ((onBrightClick (envOf [] []))^[2] initState).isLedOn = false :=
  ⟨((onBrightClick_cycle (envOf [] [])
      { initState with isLedOn := true, currentLevelIndex := 3 }).1 rfl (by decide) (by decide)).2.2,
   (onBrightClick_cycle (envOf [] []) initState).2 rfl 2⟩

/-! ## The lifecycle state machine, one poll at a time -/

theorem updateScreenState_off (env : Env) (s : State) (h : s.screenState = SCREEN_OFF) :
    updateScreenState env s = afterMillis s := by
  simp [updateScreenState, afterMillis, h]

theorem updateScreenState_up_stay (env : Env) (s : State) (h : s.screenState = SCREEN_POWERING_UP)
    (ht : sub32 (millis env s) s.animationStartTime < 500) :
    updateScreenState env s = afterMillis s := by
  simp [updateScreenState, afterMillis, h, POWERUP_DURATION, ht]

theorem updateScreenState_up_go (env : Env) (s : State) (h : s.screenState = SCREEN_POWERING_UP)
    (ht : sub32 (millis env s) s.animationStartTime ≥ 500) :
    updateScreenState env s = { afterMillis s with screenState := SCREEN_ON } := by
  simp [updateScreenState, afterMillis, h, POWERUP_DURATION, ht]

theorem updateScreenState_on_stay (env : Env) (s : State) (h : s.screenState = SCREEN_ON)
    (ht : sub32 (millis env s) s.lastUserActivity < 5000) :
    updateScreenState env s = afterMillis s := by
  simp [updateScreenState, afterMillis, h, SCREEN_TIMEOUT, ht]

theorem updateScreenState_on_go (env : Env) (s : State) (h : s.screenState = SCREEN_ON)
    (ht : sub32 (millis env s) s.lastUserActivity ≥ 5000) :
    updateScreenState env s =
      { afterMillis s with screenState := SCREEN_POWERING_DOWN,
                           animationStartTime := millis env s } := by
  simp [updateScreenState, afterMillis, h, SCREEN_TIMEOUT, ht]

theorem updateScreenState_down_stay (env : Env) (s : State)
    (h : s.screenState = SCREEN_POWERING_DOWN)
    (ht : sub32 (millis env s) s.animationStartTime < 600) :
    updateScreenState env s = afterMillis s := by
  simp [updateScreenState, afterMillis, h, POWERDOWN_DURATION, ht]

theorem updateScreenState_down_go (env : Env) (s : State)
    (h : s.screenState = SCREEN_POWERING_DOWN)
    (ht : sub32 (millis env s) s.animationStartTime ≥ 600) :
    updateScreenState env s =
      emitD (.setPowerSave 1) { afterMillis s with screenState := SCREEN_OFF } := by
  simp [updateScreenState, afterMillis, h, POWERDOWN_DURATION, ht]

theorem advance_zero (s : State) : advance 0 s = s := rfl

theorem advance_succ (n : Nat) (s : State) : advance (n + 1) s = advance n (afterMillis s) := by
  simp [advance, afterMillis]; omega

/-- Polls that each change nothing but the call counter. -/
theorem polls_stay (env : Env) (n : Nat) (s : State)
    (h : ∀ j < n, updateScreenState env (advance j s) = afterMillis (advance j s)) :
    (updateScreenState env)^[n] s = advance n s := by
  induction n generalizing s with
  | zero => rfl
  | succ n ih =>
    have h0 := h 0 (Nat.succ_pos n)
    rw [advance_zero] at h0
    rw [Function.iterate_succ_apply, h0, advance_succ]
    apply ih
    intro j hj
    have := h (j + 1) (Nat.succ_lt_succ hj)
    rwa [advance_succ] at this

theorem polls_up_stay (env : Env) (n : Nat) (s : State) (h : s.screenState = SCREEN_POWERING_UP)
    (ht : ∀ j < n, sub32 (reading env (s.clk + j)) s.animationStartTime < 500) :
    (updateScreenState env)^[n] s = advance n s :=
  polls_stay env n s fun j hj => updateScreenState_up_stay env _ h (ht j hj)

theorem polls_on_stay (env : Env) (n : Nat) (s : State) (h : s.screenState = SCREEN_ON)
    (ht : ∀ j < n, sub32 (reading env (s.clk + j)) s.lastUserActivity < 5000) :
    (updateScreenState env)^[n] s = advance n s :=
  polls_stay env n s fun j hj => updateScreenState_on_stay env _ h (ht j hj)

theorem polls_down_stay (env : Env) (n : Nat) (s : State)
    (h : s.screenState = SCREEN_POWERING_DOWN)
    (ht : ∀ j < n, sub32 (reading env (s.clk + j)) s.animationStartTime < 600) :
    (updateScreenState env)^[n] s = advance n s :=
  polls_stay env n s fun j hj => updateScreenState_down_stay env _ h (ht j hj)

theorem wakeScreen_off (env : Env) (s : State) (h : s.screenState = SCREEN_OFF) :
    wakeScreen env s =
      { s with screenState := SCREEN_POWERING_UP,
               animationStartTime := reading env s.clk,
               lastUserActivity := reading env (s.clk + 1),
               clk := s.clk + 2,
               disp := s.disp ++ [.setPowerSave 0, .setContrast 255] } := by
  simp [wakeScreen, h, afterMillis, emitD, millis]

theorem wakeScreen_not_off (env : Env) (s : State) (h : s.screenState ≠ SCREEN_OFF) :
    wakeScreen env s = { afterMillis s with lastUserActivity := millis env s } := by
  simp [wakeScreen, h]


/-! ## C3: the timeline after a wake -/

/-- C3: `wakeScreen` is called in `SCREEN_OFF` when the clock reads `T`, and
the display is then polled with no later wake.  Right after the call the
state is `SCREEN_POWERING_UP` with `animationStartTime = T` and
`lastUserActivity = T`.  It stays so through `n` polls whose readings `t`
have `t - T < 500`; the first poll with `t - T ≥ 500` makes it `SCREEN_ON`.
It stays on through `m` polls with `t - T < 5000`; the first poll with
`t - T ≥ 5000`, reading `t'`, makes it `SCREEN_POWERING_DOWN` with
`animationStartTime = t'`.  It stays so through `k` polls with
`t - t' < 600`, and the first poll with `t - t' ≥ 600` makes it
`SCREEN_OFF`.  Differences are those of the 32-bit clock. -/
theorem wake_timeline (env : Env) (s : State) (T t' n m k : Nat)
    (hoff : s.screenState = SCREEN_OFF)
    (hT1 : reading env s.clk = T) (hT2 : reading env (s.clk + 1) = T)
    (hup : ∀ j < n, sub32 (reading env (s.clk + 2 + j)) T < 500)
    (hon : sub32 (reading env (s.clk + 2 + n)) T ≥ 500)
    (hstay : ∀ j < m, sub32 (reading env (s.clk + 2 + n + 1 + j)) T < 5000)
    (ht' : reading env (s.clk + 2 + n + 1 + m) = t') (hto : sub32 t' T ≥ 5000)
    (hdown : ∀ j < k, sub32 (reading env (s.clk + 2 + n + 1 + m + 1 + j)) t' < 600)
    (hend : sub32 (reading env (s.clk + 2 + n + 1 + m + 1 + k)) t' ≥ 600) :
    ((wakeScreen env s).screenState = SCREEN_POWERING_UP ∧
      (wakeScreen env s).animationStartTime = T ∧
      (wakeScreen env s).lastUserActivity = T) ∧
    (∀ j ≤ n, ((updateScreenState env)^[j] (wakeScreen env s)).screenState
      = SCREEN_POWERING_UP) ∧
    (∀ j ≤ m, ((updateScreenState env)^[n + 1 + j] (wakeScreen env s)).screenState
      = SCREEN_ON) ∧
    ((updateScreenState env)^[n + 1 + m + 1] (wakeScreen env s)).animationStartTime = t' ∧
    (∀ j ≤ k, ((updateScreenState env)^[n + 1 + m + 1 + j] (wakeScreen env s)).screenState
      = SCREEN_POWERING_DOWN) ∧
    ((updateScreenState env)^[n + 1 + m + 1 + k + 1] (wakeScreen env s)).screenState
      = SCREEN_OFF := by
  have hw := wakeScreen_off env s hoff
  rw [hT1, hT2] at hw
  generalize wakeScreen env s = w at hw ⊢
  have hws : w.screenState = SCREEN_POWERING_UP := by rw [hw]
  have hwa : w.animationStartTime = T := by rw [hw]
  have hwu : w.lastUserActivity = T := by rw [hw]
  have hwc : w.clk = s.clk + 2 := by rw [hw]
  -- powering up
  have hA : ∀ j ≤ n, (updateScreenState env)^[j] w = advance j w := fun j hj =>
    polls_up_stay env j w hws fun i hi => by
      rw [hwa, hwc]; exact hup i (Nat.lt_of_lt_of_le hi hj)
  have hB : (updateScreenState env)^[n + 1] w
      = { afterMillis (advance n w) with screenState := SCREEN_ON } := by
    rw [Function.iterate_succ_apply', hA n (Nat.le_refl n)]
    apply updateScreenState_up_go env (advance n w) hws
    simp only [millis, advance, hwa, hwc]
    exact hon
  -- on
  generalize hb : ({ afterMillis (advance n w) with screenState := SCREEN_ON } : State) = b at hB
  have hbs : b.screenState = SCREEN_ON := by rw [← hb]
  have hbu : b.lastUserActivity = T := by rw [← hb]; exact hwu
  have hbc : b.clk = s.clk + 2 + n + 1 := by rw [← hb]; simp [afterMillis, advance, hwc]
  have hC : ∀ j ≤ m, (updateScreenState env)^[n + 1 + j] w = advance j b := fun j hj => by
    rw [Nat.add_comm (n + 1) j, Function.iterate_add_apply, hB]
    exact polls_on_stay env j b hbs fun i hi => by
      rw [hbu, hbc]; exact hstay i (Nat.lt_of_lt_of_le hi hj)
  have hD : (updateScreenState env)^[n + 1 + m + 1] w
      = { afterMillis (advance m b) with
            screenState := SCREEN_POWERING_DOWN, animationStartTime := t' } := by
    rw [Function.iterate_succ_apply', hC m (Nat.le_refl m)]
    have hrd : millis env (advance m b) = t' := by
      simp only [millis, advance, hbc]; exact ht'
    rw [← hrd]
    apply updateScreenState_on_go env (advance m b) hbs
    rw [hrd]
    simp only [advance, hbu]
    exact hto
  -- powering down
  generalize hd : ({ afterMillis (advance m b) with
      screenState := SCREEN_POWERING_DOWN, animationStartTime := t' } : State) = d at hD
  have hds : d.screenState = SCREEN_POWERING_DOWN := by rw [← hd]
  have hda : d.animationStartTime = t' := by rw [← hd]
  have hdc : d.clk = s.clk + 2 + n + 1 + m + 1 := by
    rw [← hd]; simp [afterMillis, advance, hbc]
  have hE : ∀ j ≤ k, (updateScreenState env)^[n + 1 + m + 1 + j] w = advance j d := fun j hj => by
    rw [Nat.add_comm (n + 1 + m + 1) j, Function.iterate_add_apply, hD]
    exact polls_down_stay env j d hds fun i hi => by
      rw [hda, hdc]; exact hdown i (Nat.lt_of_lt_of_le hi hj)
  have hF : (updateScreenState env)^[n + 1 + m + 1 + k + 1] w
      = emitD (.setPowerSave 1) { afterMillis (advance k d) with screenState := SCREEN_OFF } := by
    rw [Function.iterate_succ_apply', hE k (Nat.le_refl k)]
    apply updateScreenState_down_go env (advance k d) hds
    simp only [millis, advance, hda, hdc]
    exact hend
  refine ⟨⟨hws, hwa, hwu⟩, fun j hj => ?_, fun j hj => ?_, ?_, fun j hj => ?_, ?_⟩
  · rw [hA j hj]; exact hws
  · rw [hC j hj]; exact hbs
  · rw [hD, ← hd]
  · rw [hE j hj]; exact hds
  · rw [hF]; rfl

/-- C3 on a concrete clock: the wake happens at 1000 ms, the polls read
1100, 1300, 1500, 3000, 6000, 6100 and 6600 ms. -/
theorem wake_timeline_witness :
    ((updateScreenState (envOf [1000, 1000, 1100, 1300, 1500, 3000, 6000, 6100, 6600] []))^[3]
        (wakeScreen (envOf [1000, 1000, 1100, 1300, 1500, 3000, 6000, 6100, 6600] [])
          initState)).screenState = SCREEN_ON ∧
    ((updateScreenState (envOf [1000, 1000, 1100, 1300, 1500, 3000, 6000, 6100, 6600] []))^[7]
        (wakeScreen (envOf [1000, 1000, 1100, 1300, 1500, 3000, 6000, 6100, 6600] [])
          initState)).screenState = SCREEN_OFF :=
  have h := wake_timeline (envOf [1000, 1000, 1100, 1300, 1500, 3000, 6000, 6100, 6600] [])
    initState 1000 6000 2 1 1 rfl (by decide) (by decide) (by decide) (by decide) (by decide)
    (by decide) (by decide) (by decide) (by decide)
  ⟨h.2.2.1 0 (Nat.zero_le 1), h.2.2.2.2.2⟩

/-! ## C4: no wake, no power-up -/

theorem drawScreen_off (env : Env) (s : State) (h : s.screenState = SCREEN_OFF) :
    drawScreen env s = s := by
  simp [drawScreen, h]

theorem loop_idle_off (env : Env) (s : State) (h : s.screenState = SCREEN_OFF) :
    loop env false false s = advance 2 s := by
  have h1 : (afterMillis s).screenState = SCREEN_OFF := h
  have h2 : (afterMillis (afterMillis s)).screenState = SCREEN_OFF := h
  simp [loop, updateScreenState_off env (afterMillis s) h1, h2]
  simp [afterMillis, advance]

theorem idleStep_off (env : Env) (a : Idle) (s : State) (h : s.screenState = SCREEN_OFF) :
    ∃ n, idleStep env a s = advance n s := by
  cases a with
  | poll => exact ⟨1, updateScreenState_off env s h⟩
  | render => exact ⟨0, drawScreen_off env s h⟩
  | iteration => exact ⟨2, loop_idle_off env s h⟩

/-- C4: in `SCREEN_OFF`, `updateScreenState` changes nothing but the count of
clock readings, at every clock value; hence every sequence of polls, frame
renders and click-free `loop` iterations that starts in `SCREEN_OFF` leaves
the whole state as it was, clock readings apart: the screen stays
`SCREEN_OFF`, the lifecycle timestamps keep their values and no display
command is issued. -/
theorem off_stays_off (env : Env) (s : State) (h : s.screenState = SCREEN_OFF) :
    updateScreenState env s = { s with clk := s.clk + 1 } ∧
    ∀ steps : List Idle,
      (∃ n, idleRun env steps s = { s with clk := s.clk + n }) ∧
      (idleRun env steps s).screenState = SCREEN_OFF ∧
      (idleRun env steps s).animationStartTime = s.animationStartTime ∧
      (idleRun env steps s).lastUserActivity = s.lastUserActivity ∧
      (idleRun env steps s).disp = s.disp := by
  refine ⟨updateScreenState_off env s h, fun steps => ?_⟩
  have key : ∃ n, idleRun env steps s = advance n s := by
    unfold idleRun
    induction steps generalizing s with
    | nil => exact ⟨0, rfl⟩
    | cons a l ih =>
      obtain ⟨n, hn⟩ := idleStep_off env a s h
      obtain ⟨m, hm⟩ := ih (advance n s) h
      refine ⟨n + m, ?_⟩
      rw [List.foldl_cons, hn, hm]
      simp [advance, Nat.add_assoc]
  obtain ⟨n, hn⟩ := key
  refine ⟨⟨n, hn⟩, ?_, ?_, ?_, ?_⟩ <;> rw [hn] <;> first | exact h | rfl

/-- C4 from the initial state: a poll, a render and a `loop` iteration. -/
theorem off_stays_off_witness :
    (idleRun (envOf [100, 200, 300] []) [.poll, .render, .iteration] initState).screenState
      = SCREEN_OFF :=
  ((off_stays_off (envOf [100, 200, 300] []) initState rfl).2 [.poll, .render, .iteration]).2.1

/-! ## C5: polling without input ends in `SCREEN_OFF` -/

theorem sub32_step (a b d : Nat) : sub32 ((a + d) % U32) b = (sub32 a b + d) % U32 := by
  unfold sub32 U32
  omega

/-- On a clock that advances by at least 1 ms and at most `2^32 - 5000` ms per
reading, the time elapsed since any `start` reaches any duration `D ≤ 5000`
within `D` further readings. -/
theorem eventually_elapsed (env : Env)
    (hclock : ∀ k, ∃ d, 1 ≤ d ∧ d ≤ U32 - 5000 ∧ reading env (k + 1) = (reading env k + d) % U32)
    (D : Nat) (hD : D ≤ 5000) (start : Nat) (m : Nat) :
    ∀ c, D - sub32 (reading env c) start ≤ m →
      ∃ j ≤ m, sub32 (reading env (c + j)) start ≥ D ∧
        ∀ i < j, sub32 (reading env (c + i)) start < D := by
  induction m with
  | zero =>
    intro c hc
    exact ⟨0, Nat.le_refl 0, by simpa using (by omega : D ≤ sub32 (reading env c) start),
      fun i hi => absurd hi (Nat.not_lt_zero i)⟩
  | succ m ih =>
    intro c hc
    by_cases h0 : sub32 (reading env c) start ≥ D
    · exact ⟨0, Nat.zero_le _, by simpa using h0, fun i hi => absurd hi (Nat.not_lt_zero i)⟩
    · obtain ⟨d, hd1, hd2, hd⟩ := hclock c
      have hlt : sub32 (reading env c) start < D := Nat.lt_of_not_le h0
      have hnext : sub32 (reading env (c + 1)) start = sub32 (reading env c) start + d := by
        rw [hd, sub32_step]
        apply Nat.mod_eq_of_lt
        unfold U32 at hd2 ⊢
        omega
      obtain ⟨j, hj, hge, hbefore⟩ := ih (c + 1) (by omega)
      refine ⟨j + 1, Nat.succ_le_succ hj, ?_, ?_⟩
      · rw [show c + (j + 1) = c + 1 + j by omega]; exact hge
      · intro i hi
        cases i with
        | zero => exact hlt
        | succ i =>
          rw [show c + (i + 1) = c + 1 + i by omega]
          exact hbefore i (Nat.lt_of_succ_lt_succ hi)

theorem reach_off_from_down (env : Env)
    (hclock : ∀ k, ∃ d, 1 ≤ d ∧ d ≤ U32 - 5000 ∧ reading env (k + 1) = (reading env k + d) % U32)
    (s : State) (h : s.screenState = SCREEN_POWERING_DOWN) :
    ∃ n ≤ 601, ((updateScreenState env)^[n] s).screenState = SCREEN_OFF := by
  obtain ⟨j, hj, hge, hbefore⟩ :=
    eventually_elapsed env hclock 600 (by decide) s.animationStartTime 600 s.clk (by omega)
  refine ⟨j + 1, by omega, ?_⟩
  rw [Function.iterate_succ_apply', polls_down_stay env j s h hbefore,
    updateScreenState_down_go env (advance j s) h hge]
  rfl

theorem reach_off_from_on (env : Env)
    (hclock : ∀ k, ∃ d, 1 ≤ d ∧ d ≤ U32 - 5000 ∧ reading env (k + 1) = (reading env k + d) % U32)
    (s : State) (h : s.screenState = SCREEN_ON) :
    ∃ n ≤ 5602, ((updateScreenState env)^[n] s).screenState = SCREEN_OFF := by
  obtain ⟨j, hj, hge, hbefore⟩ :=
    eventually_elapsed env hclock 5000 (by decide) s.lastUserActivity 5000 s.clk (by omega)
  have hstep : (updateScreenState env)^[j + 1] s =
      { afterMillis (advance j s) with
          screenState := SCREEN_POWERING_DOWN, animationStartTime := millis env (advance j s) } := by
    rw [Function.iterate_succ_apply', polls_on_stay env j s h hbefore,
      updateScreenState_on_go env (advance j s) h hge]
  obtain ⟨n, hn, hoff⟩ := reach_off_from_down env hclock _ (show
    ({ afterMillis (advance j s) with
          screenState := SCREEN_POWERING_DOWN,
          animationStartTime := millis env (advance j s) } : State).screenState
      = SCREEN_POWERING_DOWN from rfl)
  refine ⟨n + (j + 1), by omega, ?_⟩
  rw [Function.iterate_add_apply, hstep]
  exact hoff

theorem reach_off_from_up (env : Env)
    (hclock : ∀ k, ∃ d, 1 ≤ d ∧ d ≤ U32 - 5000 ∧ reading env (k + 1) = (reading env k + d) % U32)
    (s : State) (h : s.screenState = SCREEN_POWERING_UP) :
    ∃ n ≤ 6103, ((updateScreenState env)^[n] s).screenState = SCREEN_OFF := by
  obtain ⟨j, hj, hge, hbefore⟩ :=
    eventually_elapsed env hclock 500 (by decide) s.animationStartTime 500 s.clk (by omega)
  have hstep : (updateScreenState env)^[j + 1] s =
      { afterMillis (advance j s) with screenState := SCREEN_ON } := by
    rw [Function.iterate_succ_apply', polls_up_stay env j s h hbefore,
      updateScreenState_up_go env (advance j s) h hge]
  obtain ⟨n, hn, hoff⟩ := reach_off_from_on env hclock _ (show
    ({ afterMillis (advance j s) with screenState := SCREEN_ON } : State).screenState
      = SCREEN_ON from rfl)
  refine ⟨n + (j + 1), by omega, ?_⟩
  rw [Function.iterate_add_apply, hstep]
  exact hoff

theorem lifecycleRank_step (env : Env) (s : State) :
    lifecycleRank (updateScreenState env s).screenState = lifecycleRank s.screenState ∨
    lifecycleRank (updateScreenState env s).screenState = lifecycleRank s.screenState + 1 := by
  unfold updateScreenState
  simp only
  have hs : (afterMillis s).screenState = s.screenState := rfl
  split <;> rename_i heq <;> rw [hs] at heq <;> rw [heq] <;> (try split_ifs) <;>
    simp [lifecycleRank, emitD, afterMillis, heq]

/-- C5: from any lifecycle state, polling `updateScreenState` without input on
a clock that advances by at least 1 ms and at most `2^32 - 5000` ms from one
poll to the next reaches `SCREEN_OFF`, within 6103 polls.  At every poll, on
any clock, the state keeps its place in the order powering up, on, powering
down, off or moves to the next one, so at most three transitions happen, and
`SCREEN_OFF` is never left. -/
theorem polling_reaches_off (env : Env) (s : State)
    (hclock : ∀ k, ∃ d, 1 ≤ d ∧ d ≤ U32 - 5000 ∧ reading env (k + 1) = (reading env k + d) % U32) :
    (∃ n ≤ 6103, ((updateScreenState env)^[n] s).screenState = SCREEN_OFF) ∧
    (∀ j : Nat,
      lifecycleRank ((updateScreenState env)^[j + 1] s).screenState
        = lifecycleRank ((updateScreenState env)^[j] s).screenState ∨
      lifecycleRank ((updateScreenState env)^[j + 1] s).screenState
        = lifecycleRank ((updateScreenState env)^[j] s).screenState + 1) ∧
    (∀ j : Nat, ((updateScreenState env)^[j] s).screenState = SCREEN_OFF →
      ((updateScreenState env)^[j + 1] s).screenState = SCREEN_OFF) := by
  refine ⟨?_, fun j => ?_, fun j hj => ?_⟩
  · cases h : s.screenState with
    | SCREEN_OFF => exact ⟨0, by omega, h⟩
    | SCREEN_POWERING_UP => exact reach_off_from_up env hclock s h
    | SCREEN_ON =>
      obtain ⟨n, hn, hoff⟩ := reach_off_from_on env hclock s h
      exact ⟨n, by omega, hoff⟩
    | SCREEN_POWERING_DOWN =>
      obtain ⟨n, hn, hoff⟩ := reach_off_from_down env hclock s h
      exact ⟨n, by omega, hoff⟩
  · rw [Function.iterate_succ_apply']
    exact lifecycleRank_step env _
  · rw [Function.iterate_succ_apply', updateScreenState_off env _ hj]
    exact hj

theorem envTick_clock (k : Nat) :
    ∃ d, 1 ≤ d ∧ d ≤ U32 - 5000 ∧
      reading (envTick 10) (k + 1) = (reading (envTick 10) k + d) % U32 := by
  refine ⟨10, by decide, by decide, ?_⟩
  simp only [reading, envTick, U32]
  omega

/-- C5 on a clock that advances by 10 ms per poll, from a screen that is on. -/
theorem polling_reaches_off_witness :
    ∃ n ≤ 6103, ((updateScreenState (envTick 10))^[n]
      { initState with screenState := SCREEN_ON }).screenState = SCREEN_OFF :=
  (polling_reaches_off (envTick 10) { initState with screenState := SCREEN_ON }
    envTick_clock).1

/-! ## C6: what a wake changes -/

/-- C6: in every lifecycle state `wakeScreen` sets `lastUserActivity` to the
clock reading it takes last.  In `SCREEN_POWERING_UP`, `SCREEN_ON` and
`SCREEN_POWERING_DOWN` it changes nothing else: `screenState` and
`animationStartTime` keep their values and no display command is issued.
It changes `screenState` in `SCREEN_OFF` only, to `SCREEN_POWERING_UP`. -/
theorem wakeScreen_effect (env : Env) (s : State) :
    (wakeScreen env s).lastUserActivity = reading env ((wakeScreen env s).clk - 1) ∧
    (s.screenState ≠ SCREEN_OFF →
      wakeScreen env s = { s with lastUserActivity := reading env s.clk, clk := s.clk + 1 } ∧
      (wakeScreen env s).screenState = s.screenState ∧
      (wakeScreen env s).animationStartTime = s.animationStartTime ∧
      (wakeScreen env s).disp = s.disp) ∧
    (s.screenState = SCREEN_OFF → (wakeScreen env s).screenState = SCREEN_POWERING_UP) ∧
    ((wakeScreen env s).screenState ≠ s.screenState ↔ s.screenState = SCREEN_OFF) := by
  by_cases h : s.screenState = SCREEN_OFF
  · have hw := wakeScreen_off env s h
    refine ⟨by rw [hw]; rfl, fun hne => absurd h hne, fun _ => by rw [hw], ?_⟩
    rw [hw]
    simp [h]
  · have hw := wakeScreen_not_off env s h
    refine ⟨by rw [hw]; rfl, fun _ => ⟨hw, by rw [hw]; rfl, by rw [hw]; rfl, by rw [hw]; rfl⟩,
      fun h' => absurd h' h, ?_⟩
    rw [hw]
    simp [afterMillis, h]

/-- C6 at concrete states: a wake at 7000 ms while powering down, and a wake
from the initial state. -/
theorem wakeScreen_effect_witness :
    (wakeScreen (envOf [7000] []) { initState with screenState := SCREEN_POWERING_DOWN })
      = { initState with screenState := SCREEN_POWERING_DOWN, lastUserActivity := 7000, clk := 1 } ∧
    (wakeScreen (envOf [7000, 7000] []) initState).screenState = SCREEN_POWERING_UP :=
  ⟨((wakeScreen_effect (envOf [7000] [])
      { initState with screenState := SCREEN_POWERING_DOWN }).2.1 (by decide)).1,
   (wakeScreen_effect (envOf [7000, 7000] []) initState).2.2.1 rfl⟩

/-! ## C7: the order of one poll iteration -/

/-- C7, counterexample: the screen is powering down since 0 ms, the clock
reads 1000 ms and the toggle button delivers a click.  `loop` first completes
the power-down and then lets the click wake the screen, ending in
`SCREEN_POWERING_UP`; dispatching the click before the lifecycle update ends
in `SCREEN_OFF`. -/
theorem loop_order_counterexample :
    (loop (envConst 1000) true false
      { initState with screenState := SCREEN_POWERING_DOWN }).screenState = SCREEN_POWERING_UP ∧
    (iterationDispatchFirst (envConst 1000) true false
      { initState with screenState := SCREEN_POWERING_DOWN }).screenState = SCREEN_OFF ∧
    loop (envConst 1000) true false { initState with screenState := SCREEN_POWERING_DOWN }
      ≠ iterationDispatchFirst (envConst 1000) true false
          { initState with screenState := SCREEN_POWERING_DOWN } := by
  refine ⟨by decide, by decide, fun h => ?_⟩
  have h' := congrArg State.screenState h
  revert h'
  decide

/-- C7, amended: within one iteration of the poll loop the lifecycle update
precedes input dispatch, which precedes rendering.  For every state and every
combination of pending toggle and bright clicks, the state after one `loop`
iteration is the state obtained by first running `updateScreenState`, then
the click callbacks, then the frame-rate-gated `drawScreen`. -/
theorem loop_order (env : Env) (toggle bright : Bool) (s : State) :
    loop env toggle bright s = iterationUpdateFirst env toggle bright s := by
  unfold loop iterationUpdateFirst renderIfDue dispatchClicks
  rfl

/-! ## C8: a toggle click while the screen is off -/

theorem updateNoiseBurst_modifies (env : Env) (s : State) :
    ∃ a l r, updateNoiseBurst env s =
      { s with noiseBurstActive := a, lastNoiseBurst := l, clk := s.clk + 1, rnd := r } := by
  unfold updateNoiseBurst
  simp only
  split_ifs <;> exact ⟨_, _, _, rfl⟩

theorem forLoop_four (body : Nat → State → State) (s : State) :
    forLoop 4 body s = body 3 (body 2 (body 1 (body 0 s))) := rfl

theorem drawPowerUpAnimation_eq (env : Env) (p : Progress) (s : State) :
    drawPowerUpAnimation env p s = { s with disp := s.disp ++ powerUpCalls env p } := by
  unfold powerUpCalls drawPowerUpAnimation
  simp only [forLoop_four, drawPowerUpRay]
  split_ifs <;> simp [emitD, initState]

theorem powerUpCalls_only (env : Env) (p : Progress) :
    ∀ c ∈ powerUpCalls env p, isPowerUpCall c = true ∧ isStatusPanelCall c = false := by
  unfold powerUpCalls drawPowerUpAnimation
  simp only [forLoop_four, drawPowerUpRay]
  split_ifs <;> simp [emitD, initState, isPowerUpCall, isStatusPanelCall]

theorem drawScreen_powering_up (env : Env) (s : State) (h : s.screenState = SCREEN_POWERING_UP) :
    ∃ a l r, drawScreen env s =
      { s with noiseBurstActive := a, lastNoiseBurst := l, rnd := r,
               clk := s.clk + 3,
               lastSuccessfulDraw := reading env (s.clk + 2),
               frameCounter := s.frameCounter + 1,
               disp := s.disp ++ [.clearBuffer] ++
                 powerUpCalls env ⟨sub32 (reading env (s.clk + 1)) s.animationStartTime,
                   POWERUP_DURATION⟩ ++ [.sendBuffer] } := by
  obtain ⟨a, l, r, hn⟩ := updateNoiseBurst_modifies env s
  refine ⟨a, l, r, ?_⟩
  unfold drawScreen
  rw [hn]
  simp [h, drawPowerUpAnimation_eq, emitD, afterMillis, millis]


theorem sansLed_emitL (c : LedCmd) (s : State) : sansLed (emitL c s) = sansLed s := by
  cases s; rfl

theorem sansLed_markFault (s : State) : sansLed (markFault s) = sansLed s := by
  cases s; rfl

theorem sansLed_updateLED (s : State) : sansLed (updateLED s) = sansLed s := by
  unfold updateLED
  simp only
  split_ifs
  · simp only [sansLed_emitL]
  · split
    · simp only [sansLed_emitL]
    · simp only [sansLed_emitL, sansLed_markFault]
  · simp only [sansLed_emitL]

theorem updateLED_modifies (s : State) :
    ∃ l f, updateLED s = { s with led := l, fault := f } := by
  have h := sansLed_updateLED s
  refine ⟨(updateLED s).led, (updateLED s).fault, ?_⟩
  generalize updateLED s = u at h
  cases u
  cases s
  simp only [sansLed, State.mk.injEq] at h
  simp only [State.mk.injEq]
  simp [h]

theorem onToggleClick_off_eq (env : Env) (s : State) (hoff : s.screenState = SCREEN_OFF) :
    ∃ l f a b r, onToggleClick env s =
      { s with isLedOn := !s.isLedOn, led := l, fault := f,
               noiseBurstActive := a, lastNoiseBurst := b, rnd := r,
               screenState := SCREEN_POWERING_UP,
               animationStartTime := reading env s.clk,
               lastUserActivity := reading env (s.clk + 1),
               lastSuccessfulDraw := reading env (s.clk + 4),
               frameCounter := s.frameCounter + 1,
               glitchActive := true,
               lastGlitchTime := reading env (s.clk + 5),
               clk := s.clk + 6,
               disp := s.disp ++ [.setPowerSave 0, .setContrast 255, .clearBuffer] ++
                 powerUpCalls env ⟨sub32 (reading env (s.clk + 3)) (reading env s.clk),
                   POWERUP_DURATION⟩ ++ [.sendBuffer] } := by
  have hw := wakeScreen_off env s hoff
  generalize hwd : wakeScreen env s = w at hw
  obtain ⟨t, ht⟩ : ∃ t : State, t = { w with isLedOn := !w.isLedOn } := ⟨_, rfl⟩
  obtain ⟨l, f, hl⟩ := updateLED_modifies t
  generalize hu : updateLED t = u at hl
  have hus : u.screenState = SCREEN_POWERING_UP := by rw [hl, ht, hw]
  obtain ⟨a, b, r, hd⟩ := drawScreen_powering_up env u hus
  generalize hdd : drawScreen env u = d at hd
  have hfin : onToggleClick env s =
      { afterMillis d with glitchActive := true, lastGlitchTime := millis env d } := by
    rw [← hdd, ← hu, ht, ← hwd]
    rfl
  refine ⟨l, f, a, b, r, ?_⟩
  rw [hfin, hd, hl, ht, hw]
  simp [afterMillis, millis, Nat.add_assoc]

/-- C8: `onToggleClick` in a state with the screen off and the LED off, at
any clock values.  Afterwards the screen is powering up, the LED is on and
the glitch is active with `lastGlitchTime` the last clock reading of the call
(the click time `T` when the clock reads `T` throughout the call).  The
display receives the power-on commands and one frame that holds the calls of
the power-up animation and nothing else.  The same holds for every frame
rendered after a poll that finds less than 500 ms elapsed.  No call of the
power-up animation is a call of the status panel. -/
theorem onToggleClick_from_off (env : Env) (s : State)
    (hoff : s.screenState = SCREEN_OFF) (hled : s.isLedOn = false) :
    (onToggleClick env s).screenState = SCREEN_POWERING_UP ∧
    (onToggleClick env s).isLedOn = true ∧
    (onToggleClick env s).glitchActive = true ∧
    (onToggleClick env s).lastGlitchTime = reading env (s.clk + 5) ∧
    (onToggleClick env s).clk = s.clk + 6 ∧
    (∀ T, (∀ i < 6, reading env (s.clk + i) = T) →
      (onToggleClick env s).lastGlitchTime = T ∧
      (onToggleClick env s).animationStartTime = T) ∧
    (onToggleClick env s).disp =
      s.disp ++ [.setPowerSave 0, .setContrast 255, .clearBuffer] ++
        powerUpCalls env ⟨sub32 (reading env (s.clk + 3)) (reading env s.clk),
          POWERUP_DURATION⟩ ++ [.sendBuffer] ∧
    (∀ q : State, q.screenState = SCREEN_POWERING_UP →
      sub32 (millis env q) q.animationStartTime < 500 →
      (drawScreen env (updateScreenState env q)).disp =
        q.disp ++ [.clearBuffer] ++
          powerUpCalls env ⟨sub32 (reading env (q.clk + 2)) q.animationStartTime,
            POWERUP_DURATION⟩ ++ [.sendBuffer]) ∧
    (∀ p, ∀ c ∈ powerUpCalls env p, isPowerUpCall c = true ∧ isStatusPanelCall c = false) := by
  obtain ⟨l, f, a, b, r, h⟩ := onToggleClick_off_eq env s hoff
  refine ⟨by rw [h], by rw [h]; simp [hled], by rw [h], by rw [h], by rw [h], fun T hT => ?_,
    by rw [h], fun q hq ht => ?_, powerUpCalls_only env⟩
  · rw [h]
    exact ⟨hT 5 (by decide), by simpa using hT 0 (by decide)⟩
  · rw [updateScreenState_up_stay env q hq ht]
    obtain ⟨a', b', r', hd⟩ := drawScreen_powering_up env (afterMillis q) hq
    rw [hd]
    simp [afterMillis, Nat.add_assoc]

/-- C8 from the initial state with the clock at 1000 ms: the frame is the
power-on commands followed by the animation frame at progress zero. -/
theorem onToggleClick_from_off_witness :
    (onToggleClick (envConst 1000) initState).screenState = SCREEN_POWERING_UP ∧
    (onToggleClick (envConst 1000) initState).isLedOn = true ∧
    (onToggleClick (envConst 1000) initState).glitchActive = true ∧
    (onToggleClick (envConst 1000) initState).lastGlitchTime = 1000 ∧
    (onToggleClick (envConst 1000) initState).disp =
      [.setPowerSave 0, .setContrast 255, .clearBuffer, .drawFrame 16 64 0 0, .sendBuffer] :=
  have h := onToggleClick_from_off (envConst 1000) initState rfl rfl
  ⟨h.1, h.2.1, h.2.2.1, h.2.2.2.1, by rw [h.2.2.2.2.2.2.1]; decide⟩

/-! ## C9: the scanline sweep -/

theorem drawScanlineColumn_eq (i : Nat) (s : State) :
    drawScanlineColumn i s =
      { s with disp := s.disp ++ scanlineColumnCalls s.scanlinePos i } := by
  simp [drawScanlineColumn, emitD, scanlineColumnCalls]

theorem foldl_drawScanlineColumn (l : List Nat) (s : State) :
    l.foldl (fun st i => drawScanlineColumn i st) s =
      { s with disp := s.disp ++ l.flatMap (scanlineColumnCalls s.scanlinePos) } := by
  induction l generalizing s with
  | nil => simp
  | cons a l ih =>
    rw [List.foldl_cons, ih, drawScanlineColumn_eq]
    simp

theorem scanlineCalls_eq (pos : Int) :
    scanlineCalls pos = (List.range 32).flatMap (scanlineColumnCalls pos) := by
  unfold scanlineCalls forLoop
  rw [foldl_drawScanlineColumn]
  simp [initState]

theorem scanlineCalls_length (pos : Int) : (scanlineCalls pos).length = 64 := by
  have h : (List.length ∘ scanlineColumnCalls pos) = fun _ => 2 := rfl
  rw [scanlineCalls_eq, List.length_flatMap, h]
  rfl

theorem forLoop_drawScanlineColumn (s : State) :
    forLoop 32 drawScanlineColumn s = { s with disp := s.disp ++ scanlineCalls s.scanlinePos } := by
  rw [scanlineCalls_eq]
  unfold forLoop
  rw [foldl_drawScanlineColumn]

theorem drawScanlineSweep_advance (now : Nat) (s : State) (h0 : 0 ≤ s.scanlinePos)
    (h : s.scanlinePos + 12 < 512) :
    drawScanlineSweep now s =
      { s with lastScanlinePos := s.scanlinePos, scanlinePos := s.scanlinePos + 12,
               disp := s.disp ++ scanlineCalls (s.scanlinePos + 12) } := by
  have hm : Int.tmod (s.scanlinePos + 12) 512 = s.scanlinePos + 12 :=
    Int.tmod_eq_of_lt (by omega) h
  unfold drawScanlineSweep
  simp only [hm, forLoop_drawScanlineColumn]
  rw [if_neg (by omega)]

theorem drawScanlineSweep_wrap (now : Nat) (s : State) (h0 : s.scanlinePos < 512)
    (h : 512 ≤ s.scanlinePos + 12) :
    drawScanlineSweep now s =
      { s with lastScanlinePos := s.scanlinePos, scanlinePos := s.scanlinePos + 12 - 512,
               scanlinePaused := true, scanlinePauseStart := now } := by
  have hm : Int.tmod (s.scanlinePos + 12) 512 = s.scanlinePos + 12 - 512 := by
    rw [Int.tmod_eq_emod (by omega) (by decide)]
    omega
  unfold drawScanlineSweep
  simp only [hm]
  rw [if_pos (by omega)]


/-- C9: the scanline sweep, one `drawScanline` call at a time; `now` is the
clock reading of the call.  While not paused the position becomes
`(scanlinePos + 12) mod 512`.  If the new position is not smaller than the
old one it is strictly larger and the line is drawn (64 pixels); if it is
smaller, the sweep becomes paused with `scanlinePauseStart = now` and nothing
is drawn.  While paused, a call with `now - scanlinePauseStart < 1000` draws
nothing and changes nothing; the first call with
`now - scanlinePauseStart ≥ 1000` ends the pause and restarts the sweep from
position 0: it records 0 as the previous position, advances to 12 and draws
the line there. -/
theorem drawScanline_sweep (env : Env) (s : State) :
    (s.scanlinePaused = false → 0 ≤ s.scanlinePos → s.scanlinePos < 512 →
      (drawScanline env s).scanlinePos = (s.scanlinePos + 12) % 512 ∧
      (drawScanline env s).lastScanlinePos = s.scanlinePos ∧
      (¬ (drawScanline env s).scanlinePos < s.scanlinePos →
        s.scanlinePos < (drawScanline env s).scanlinePos ∧
        (drawScanline env s).scanlinePaused = false ∧
        (drawScanline env s).disp = s.disp ++ scanlineCalls (s.scanlinePos + 12)) ∧
      ((drawScanline env s).scanlinePos < s.scanlinePos →
        (drawScanline env s).scanlinePaused = true ∧
        (drawScanline env s).scanlinePauseStart = millis env s ∧
        (drawScanline env s).disp = s.disp)) ∧
    (s.scanlinePaused = true → sub32 (millis env s) s.scanlinePauseStart < 1000 →
      drawScanline env s = { s with clk := s.clk + 1 }) ∧
    (s.scanlinePaused = true → sub32 (millis env s) s.scanlinePauseStart ≥ 1000 →
      drawScanline env s =
        { s with clk := s.clk + 1, scanlinePaused := false, lastScanlinePos := 0,
                 scanlinePos := 12, disp := s.disp ++ scanlineCalls 12 }) ∧
    (∀ pos, (scanlineCalls pos).length = 64) := by
  refine ⟨fun hp h0 h1 => ?_, fun hp ht => ?_, fun hp ht => ?_, scanlineCalls_length⟩
  · have hd : drawScanline env s = drawScanlineSweep (millis env s) (afterMillis s) := by
      simp [drawScanline, afterMillis, hp]
    rw [hd]
    by_cases hw : s.scanlinePos + 12 < 512
    · rw [drawScanlineSweep_advance (millis env s) (afterMillis s) h0 hw]
      refine ⟨?_, ?_, ?_, ?_⟩ <;> simp [afterMillis, hp]
      omega
    · rw [drawScanlineSweep_wrap (millis env s) (afterMillis s) h1
        (show 512 ≤ s.scanlinePos + 12 by omega)]
      refine ⟨?_, ?_, ?_, ?_⟩ <;> simp [afterMillis] <;> omega
  · simp [drawScanline, afterMillis, hp, SCANLINE_PAUSE_DURATION, ht]
  · have hd : drawScanline env s = drawScanlineSweep (millis env s)
        { afterMillis s with scanlinePaused := false, scanlinePos := 0 } := by
      simp [drawScanline, afterMillis, hp, SCANLINE_PAUSE_DURATION, ht]
    rw [hd, drawScanlineSweep_advance (millis env s)
      { afterMillis s with scanlinePaused := false, scanlinePos := 0 } (Int.le_refl 0)
      (show (0 : Int) + 12 < 512 by decide)]
    simp [afterMillis]

/-- C9 at concrete states: a step from 0, the wrap at 504, a call 999 ms into
the pause and the call that ends the pause. -/
theorem drawScanline_sweep_witness :
    (drawScanline (envConst 5000) initState).scanlinePos = 12 ∧
    (drawScanline (envConst 5000) { initState with scanlinePos := 504 }).scanlinePaused = true ∧
    drawScanline (envConst 5000)
        { initState with scanlinePaused := true, scanlinePauseStart := 4001, scanlinePos := 4 }
      = { initState with scanlinePaused := true, scanlinePauseStart := 4001, scanlinePos := 4,
                         clk := 1 } ∧
    (drawScanline (envConst 5000)
        { initState with scanlinePaused := true, scanlinePauseStart := 4000,
                         scanlinePos := 4 }).scanlinePos = 12 :=
  ⟨((drawScanline_sweep (envConst 5000) initState).1 rfl (by decide) (by decide)).1,
   (((drawScanline_sweep (envConst 5000) { initState with scanlinePos := 504 }).1 rfl
      (by decide) (by decide)).2.2.2 (by decide)).1,
   (drawScanline_sweep (envConst 5000)
      { initState with scanlinePaused := true, scanlinePauseStart := 4001,
                       scanlinePos := 4 }).2.1 rfl (by decide),
   by rw [(drawScanline_sweep (envConst 5000)
      { initState with scanlinePaused := true, scanlinePauseStart := 4000,
                       scanlinePos := 4 }).2.2.1 rfl (by decide)]⟩

/-! ## C10: the noise burst -/

theorem random_noise (env : Env) (s : State) :
    toU32 (random env 4000 7000 s) = 4000 + env.entropy s.rnd % 3000 := by
  have h : Int.tmod (env.entropy s.rnd : Int) 3000 = ((env.entropy s.rnd % 3000 : Nat) : Int) := by
    rw [Int.tmod_eq_emod (Int.ofNat_nonneg _) (by decide)]
    omega
  unfold toU32 random random1 U32
  simp only [show ¬ ((4000 : Int) ≥ 7000) by decide, if_false,
    show ((7000 : Int) - 4000) = 3000 by decide, show ((3000 : Int) = 0) = False by decide, h]
  omega

/-- C10, counterexample: a burst starts at 10000 ms and is deactivated by the
call at 10151 ms; the call at 14001 ms, where `random(4000, 7000)` returns
4000, starts the next burst, 3850 ms after the deactivation. -/
theorem noise_burst_counterexample :
    (updateNoiseBurst envBurst initState).noiseBurstActive = true ∧
    (updateNoiseBurst envBurst initState).lastNoiseBurst = 10000 ∧
    ((updateNoiseBurst envBurst)^[2] initState).noiseBurstActive = false ∧
    reading envBurst 1 = 10151 ∧
    ((updateNoiseBurst envBurst)^[3] initState).noiseBurstActive = true ∧
    ((updateNoiseBurst envBurst)^[3] initState).lastNoiseBurst = 14001 ∧
    14001 - 10151 < 4000 := by
  decide


theorem sub32_self (a : Nat) : sub32 a a = 0 := by
  unfold sub32 U32
  omega

theorem noise_active_stay (env : Env) (s : State) (ha : s.noiseBurstActive = true)
    (ht : sub32 (millis env s) s.lastNoiseBurst ≤ 150) :
    updateNoiseBurst env s = afterMillis s := by
  have h : ¬ noiseBurstDuration < sub32 (millis env s) s.lastNoiseBurst := by
    unfold noiseBurstDuration; omega
  simp [updateNoiseBurst, afterMillis, ha, h]

theorem noise_active_end (env : Env) (s : State) (ha : s.noiseBurstActive = true)
    (ht : sub32 (millis env s) s.lastNoiseBurst > 150) :
    updateNoiseBurst env s = { afterMillis s with noiseBurstActive := false } := by
  have h : noiseBurstDuration < sub32 (millis env s) s.lastNoiseBurst := ht
  simp [updateNoiseBurst, afterMillis, ha, h]

theorem noise_inactive_stay (env : Env) (s : State) (ha : s.noiseBurstActive = false)
    (ht : sub32 (millis env s) s.lastNoiseBurst ≤ 4000 + env.entropy s.rnd % 3000) :
    updateNoiseBurst env s = afterRandom (afterMillis s) := by
  have hr := random_noise env (afterMillis s)
  have hc : (afterMillis s).rnd = s.rnd := rfl
  rw [hc] at hr
  have h : ¬ (4000 + env.entropy s.rnd % 3000 < sub32 (millis env s) s.lastNoiseBurst) := by
    omega
  unfold updateNoiseBurst
  simp only [hr]
  simp [ha, afterMillis, afterRandom, h]

theorem noise_inactive_start (env : Env) (s : State) (ha : s.noiseBurstActive = false)
    (ht : sub32 (millis env s) s.lastNoiseBurst > 4000 + env.entropy s.rnd % 3000) :
    updateNoiseBurst env s =
      { afterRandom (afterMillis s) with
          noiseBurstActive := true, lastNoiseBurst := millis env s } := by
  have hr := random_noise env (afterMillis s)
  have hc : (afterMillis s).rnd = s.rnd := rfl
  rw [hc] at hr
  have h : 4000 + env.entropy s.rnd % 3000 < sub32 (millis env s) s.lastNoiseBurst := ht
  unfold updateNoiseBurst
  simp only [hr]
  simp [ha, afterMillis, afterRandom, h, sub32_self]

theorem noise_active_calls (env : Env) (n : Nat) (s : State) (ha : s.noiseBurstActive = true)
    (ht : ∀ j < n, sub32 (reading env (s.clk + j)) s.lastNoiseBurst ≤ 150) :
    (updateNoiseBurst env)^[n] s = advance n s := by
  induction n generalizing s with
  | zero => rfl
  | succ n ih =>
    rw [Function.iterate_succ_apply, noise_active_stay env s ha (ht 0 (Nat.succ_pos n)),
      advance_succ]
    apply ih (afterMillis s) ha
    intro j hj
    have := ht (j + 1) (Nat.succ_lt_succ hj)
    rwa [show s.clk + (j + 1) = (afterMillis s).clk + j by simp [afterMillis]; omega] at this

theorem noise_inactive_calls (env : Env) (n : Nat) (s : State) (ha : s.noiseBurstActive = false)
    (ht : ∀ j < n, sub32 (reading env (s.clk + j)) s.lastNoiseBurst ≤ 4000) :
    (updateNoiseBurst env)^[n] s = { s with clk := s.clk + n, rnd := s.rnd + n } := by
  induction n generalizing s with
  | zero => rfl
  | succ n ih =>
    have h0 := ht 0 (Nat.succ_pos n)
    rw [Function.iterate_succ_apply,
      noise_inactive_stay env s ha (Nat.le_trans h0 (Nat.le_add_right _ _)),
      ih (afterRandom (afterMillis s)) ha]
    · simp [afterRandom, afterMillis]; omega
    · intro j hj
      have := ht (j + 1) (Nat.succ_lt_succ hj)
      rwa [show s.clk + (j + 1) = (afterRandom (afterMillis s)).clk + j by
        simp [afterMillis, afterRandom]; omega] at this


/-- C10, amended: the noise burst, for every sequence of `updateNoiseBurst`
calls and of random values.  A burst that started at `t0 = lastNoiseBurst`
is still active after every call with `now - t0 ≤ 150`, however the calls
are spaced, and is deactivated by the first call with `now - t0 > 150`.
While no burst is active, a call starts one, with `lastNoiseBurst = now`,
exactly when `now - t0 > r` for the value `r` in `[4000, 7000)` that
`random(4000, 7000)` returns at that call; so no burst starts at calls with
`now - t0 ≤ 4000`.  The interval runs from the start `t0` of the previous
burst, not from its deactivation. -/
theorem updateNoiseBurst_timing (env : Env) (s : State) :
    (s.noiseBurstActive = true → ∀ n : Nat,
      (∀ j < n, sub32 (reading env (s.clk + j)) s.lastNoiseBurst ≤ 150) →
      (updateNoiseBurst env)^[n] s = { s with clk := s.clk + n } ∧
      (sub32 (reading env (s.clk + n)) s.lastNoiseBurst > 150 →
        (updateNoiseBurst env)^[n + 1] s =
          { s with clk := s.clk + n + 1, noiseBurstActive := false })) ∧
    (s.noiseBurstActive = false →
      (4000 ≤ toU32 (random env 4000 7000 s) ∧ toU32 (random env 4000 7000 s) < 7000) ∧
      (sub32 (millis env s) s.lastNoiseBurst > toU32 (random env 4000 7000 s) →
        updateNoiseBurst env s =
          { s with clk := s.clk + 1, rnd := s.rnd + 1, noiseBurstActive := true,
                   lastNoiseBurst := millis env s }) ∧
      (sub32 (millis env s) s.lastNoiseBurst ≤ toU32 (random env 4000 7000 s) →
        updateNoiseBurst env s = { s with clk := s.clk + 1, rnd := s.rnd + 1 }) ∧
      (∀ n : Nat, (∀ j < n, sub32 (reading env (s.clk + j)) s.lastNoiseBurst ≤ 4000) →
        (updateNoiseBurst env)^[n] s = { s with clk := s.clk + n, rnd := s.rnd + n })) := by
  refine ⟨fun ha n ht => ⟨noise_active_calls env n s ha ht, fun hend => ?_⟩, fun ha => ?_⟩
  · rw [Function.iterate_succ_apply', noise_active_calls env n s ha ht,
      noise_active_end env (advance n s) ha hend]
    rfl
  · rw [random_noise env s]
    refine ⟨⟨by omega, by omega⟩, fun ht => ?_, fun ht => ?_, fun n ht =>
      noise_inactive_calls env n s ha ht⟩
    · rw [noise_inactive_start env s ha ht]; rfl
    · rw [noise_inactive_stay env s ha ht]; rfl

/-- C10, amended, on the clock of the counterexample: the call at 10000 ms
starts a burst from the initial state, and the call at 10151 ms ends a burst
that started at 10000 ms. -/
theorem updateNoiseBurst_timing_witness :
    updateNoiseBurst envBurst initState =
      { initState with clk := 1, rnd := 1, noiseBurstActive := true, lastNoiseBurst := 10000 } ∧
    updateNoiseBurst envBurst
        { initState with clk := 1, noiseBurstActive := true, lastNoiseBurst := 10000 } =
      { initState with clk := 2, noiseBurstActive := false, lastNoiseBurst := 10000 } :=
  ⟨((updateNoiseBurst_timing envBurst initState).2 rfl).2.1 (by decide),
   (((updateNoiseBurst_timing envBurst
      { initState with clk := 1, noiseBurstActive := true, lastNoiseBurst := 10000 }).1 rfl 0
      (by decide)).2 (by decide))⟩

/-! ## C11: glitch timing -/

theorem random_glitch (env : Env) (s : State) :
    toU32 (random env 2000 3500 s) = 2000 + env.entropy s.rnd % 1500 := by
  have h : Int.tmod (env.entropy s.rnd : Int) 1500 = ((env.entropy s.rnd % 1500 : Nat) : Int) := by
    rw [Int.tmod_eq_emod (Int.ofNat_nonneg _) (by decide)]
    omega
  unfold toU32 random random1 U32
  simp only [show ¬ ((2000 : Int) ≥ 3500) by decide, if_false,
    show ((3500 : Int) - 2000) = 1500 by decide, show ((1500 : Int) = 0) = False by decide, h]
  omega

theorem random_offset (env : Env) (s : State) :
    -3 ≤ random env (-3) 4 s ∧ random env (-3) 4 s ≤ 3 := by
  have h : Int.tmod (env.entropy s.rnd : Int) 7 = ((env.entropy s.rnd % 7 : Nat) : Int) := by
    rw [Int.tmod_eq_emod (Int.ofNat_nonneg _) (by decide)]
    omega
  unfold random random1
  simp only [show ¬ ((-3 : Int) ≥ 4) by decide, if_false,
    show ((4 : Int) - -3) = 7 by decide, show ((7 : Int) = 0) = False by decide, h]
  omega

theorem glitch_keep (env : Env) (s : State)
    (ht : sub32 (millis env s) s.lastGlitchTime ≤ 150) :
    updateGlitch env s = afterRandom (afterMillis s) := by
  have hr := random_glitch env (afterMillis s)
  have h1 : ¬ (toU32 (random env 2000 3500 (afterMillis s)) < sub32 (millis env s) s.lastGlitchTime) := by
    rw [hr]; omega
  have h2 : ¬ (150 < sub32 (millis env s) s.lastGlitchTime) := by omega
  have e : (afterRandom (afterMillis s)).lastGlitchTime = s.lastGlitchTime := rfl
  unfold updateGlitch
  simp only [gt_iff_lt, e]
  rw [if_neg h1, if_neg h2]

theorem glitch_expire (env : Env) (s : State)
    (h150 : 150 < sub32 (millis env s) s.lastGlitchTime)
    (hr : sub32 (millis env s) s.lastGlitchTime ≤ toU32 (random env 2000 3500 (afterMillis s))) :
    updateGlitch env s =
      { afterRandom (afterMillis s) with glitchActive := false, glitchOffset := 0 } := by
  have h1 : ¬ (toU32 (random env 2000 3500 (afterMillis s)) < sub32 (millis env s) s.lastGlitchTime) := by
    omega
  have e : (afterRandom (afterMillis s)).lastGlitchTime = s.lastGlitchTime := rfl
  unfold updateGlitch
  simp only [gt_iff_lt, e]
  rw [if_neg h1, if_pos h150]

theorem glitch_fire (env : Env) (s : State)
    (hr : toU32 (random env 2000 3500 (afterMillis s)) < sub32 (millis env s) s.lastGlitchTime) :
    updateGlitch env s =
      { afterRandom (afterRandom (afterMillis s)) with
          glitchActive := true,
          glitchOffset := random env (-3) 4 (afterRandom (afterMillis s)),
          lastGlitchTime := millis env s } := by
  have e : (afterRandom (afterMillis s)).lastGlitchTime = s.lastGlitchTime := rfl
  unfold updateGlitch
  simp only [gt_iff_lt, e]
  rw [if_pos hr]
  rfl

theorem glitch_calls_keep (env : Env) (n : Nat) (s : State)
    (ht : ∀ j < n, sub32 (reading env (s.clk + j)) s.lastGlitchTime ≤ 150) :
    (updateGlitch env)^[n] s = { s with clk := s.clk + n, rnd := s.rnd + n } := by
  induction n generalizing s with
  | zero => rfl
  | succ n ih =>
    rw [Function.iterate_succ_apply, glitch_keep env s (ht 0 (Nat.succ_pos n)),
      ih (afterRandom (afterMillis s))]
    · simp [afterRandom, afterMillis]; omega
    · intro j hj
      have := ht (j + 1) (Nat.succ_lt_succ hj)
      rwa [show s.clk + (j + 1) = (afterRandom (afterMillis s)).clk + j by
        simp [afterMillis, afterRandom]; omega] at this

/-- Calls with at most 2000 ms elapsed never fire: the trigger time and the
reading count are those of a run without glitch. -/
theorem glitch_calls_quiet (env : Env) (n : Nat) (s : State)
    (ht : ∀ j < n, sub32 (reading env (s.clk + j)) s.lastGlitchTime ≤ 2000) :
    ((updateGlitch env)^[n] s).lastGlitchTime = s.lastGlitchTime ∧
    ((updateGlitch env)^[n] s).clk = s.clk + n := by
  induction n generalizing s with
  | zero => exact ⟨rfl, rfl⟩
  | succ n ih =>
    have h0 : sub32 (millis env s) s.lastGlitchTime ≤ 2000 := ht 0 (Nat.succ_pos n)
    have hr := random_glitch env (afterMillis s)
    have hstep : (updateGlitch env s).lastGlitchTime = s.lastGlitchTime ∧
        (updateGlitch env s).clk = s.clk + 1 := by
      by_cases h150 : 150 < sub32 (millis env s) s.lastGlitchTime
      · rw [glitch_expire env s h150 (by rw [hr]; omega)]; exact ⟨rfl, rfl⟩
      · rw [glitch_keep env s (by omega)]; exact ⟨rfl, rfl⟩
    rw [Function.iterate_succ_apply]
    have := ih (updateGlitch env s) (fun j hj => by
      rw [hstep.1, hstep.2, show s.clk + 1 + j = s.clk + (j + 1) by omega]
      exact ht (j + 1) (Nat.succ_lt_succ hj))
    rw [this.1, this.2, hstep.1, hstep.2]
    exact ⟨rfl, by omega⟩


theorem click_glitch_toggle (env : Env) (s : State) :
    (onToggleClick env s).glitchActive = true ∧
    (onToggleClick env s).lastGlitchTime = reading env ((onToggleClick env s).clk - 1) :=
  ⟨rfl, rfl⟩

theorem click_glitch_bright (env : Env) (s : State) (h : s.isLedOn = true) :
    (onBrightClick env s).glitchActive = true ∧
    (onBrightClick env s).lastGlitchTime = reading env ((onBrightClick env s).clk - 1) := by
  have hw := congrArg Prod.fst (ledState_wakeScreen env s)
  simp only [ledState] at hw
  unfold onBrightClick
  simp only [hw, h, Bool.true_eq_false, if_false]
  exact ⟨rfl, rfl⟩

/-- C11: glitch timing, for every value that `random(2000, 3500)` returns
(it lies in `[2000, 3500)`).  A call of `updateGlitch` with at most 2000 ms
elapsed since `lastGlitchTime` fires no glitch: it leaves the glitch as it is
or deactivates it.  A call with 3500 ms or more elapsed fires one: the glitch
becomes active with an offset in `[-3, 3]` and `lastGlitchTime = now`.  A
glitch that is active since `t0 = lastGlitchTime` is still active, with the
same offset, after every run of calls with `now - t0 ≤ 150`; after a call
with `150 < now - t0 ≤ 2000` that follows calls with at most 2000 ms elapsed,
it is inactive with `glitchOffset = 0`.  A click sets the glitch active with
`lastGlitchTime` the last clock reading of the callback, so the same holds
for a glitch triggered by a click. -/
theorem updateGlitch_timing (env : Env) (s : State) :
    (2000 ≤ toU32 (random env 2000 3500 s) ∧ toU32 (random env 2000 3500 s) < 3500) ∧
    (sub32 (millis env s) s.lastGlitchTime ≤ 2000 →
      updateGlitch env s = { s with clk := s.clk + 1, rnd := s.rnd + 1 } ∨
      updateGlitch env s =
        { s with clk := s.clk + 1, rnd := s.rnd + 1, glitchActive := false, glitchOffset := 0 }) ∧
    (sub32 (millis env s) s.lastGlitchTime ≥ 3500 →
      (updateGlitch env s).glitchActive = true ∧
      (updateGlitch env s).lastGlitchTime = millis env s ∧
      -3 ≤ (updateGlitch env s).glitchOffset ∧ (updateGlitch env s).glitchOffset ≤ 3) ∧
    (s.glitchActive = true → ∀ n : Nat,
      (∀ j < n, sub32 (reading env (s.clk + j)) s.lastGlitchTime ≤ 150) →
      ((updateGlitch env)^[n] s).glitchActive = true ∧
      ((updateGlitch env)^[n] s).glitchOffset = s.glitchOffset ∧
      ((updateGlitch env)^[n] s).lastGlitchTime = s.lastGlitchTime) ∧
    (∀ n : Nat, (∀ j < n, sub32 (reading env (s.clk + j)) s.lastGlitchTime ≤ 2000) →
      150 < sub32 (reading env (s.clk + n)) s.lastGlitchTime →
      sub32 (reading env (s.clk + n)) s.lastGlitchTime ≤ 2000 →
      ((updateGlitch env)^[n + 1] s).glitchActive = false ∧
      ((updateGlitch env)^[n + 1] s).glitchOffset = 0) ∧
    (∀ q : State, (onToggleClick env q).glitchActive = true ∧
      (onToggleClick env q).lastGlitchTime = reading env ((onToggleClick env q).clk - 1)) ∧
    (∀ q : State, q.isLedOn = true → (onBrightClick env q).glitchActive = true ∧
      (onBrightClick env q).lastGlitchTime = reading env ((onBrightClick env q).clk - 1)) := by
  have hr := random_glitch env (afterMillis s)
  have hr' : toU32 (random env 2000 3500 s) = 2000 + env.entropy s.rnd % 1500 :=
    random_glitch env s
  have hrnd : (afterMillis s).rnd = s.rnd := rfl
  rw [hrnd] at hr
  refine ⟨by rw [hr']; omega, fun h => ?_, fun h => ?_, fun ha n hn => ?_, fun n hq h1 h2 => ?_,
    click_glitch_toggle env, click_glitch_bright env⟩
  · by_cases h150 : 150 < sub32 (millis env s) s.lastGlitchTime
    · right
      rw [glitch_expire env s h150 (by rw [hr]; omega)]
      rfl
    · left
      rw [glitch_keep env s (by omega)]
      rfl
  · rw [glitch_fire env s (by rw [hr]; omega)]
    exact ⟨rfl, rfl, random_offset env _⟩
  · rw [glitch_calls_keep env n s hn]
    exact ⟨ha, rfl, rfl⟩
  · obtain ⟨hl, hc⟩ := glitch_calls_quiet env n s hq
    have hm : millis env ((updateGlitch env)^[n] s) = reading env (s.clk + n) := by
      unfold millis; rw [hc]
    have hrn := random_glitch env (afterMillis ((updateGlitch env)^[n] s))
    rw [Function.iterate_succ_apply', glitch_expire env _ (by rw [hm, hl]; exact h1)
      (by rw [hm, hl, hrn]; omega)]
    exact ⟨rfl, rfl⟩

/-- C11 at concrete states: a glitch active since 1000 ms with offset 2,
polled at 2500 ms, at 5000 ms and twice at 1100 ms. -/
theorem updateGlitch_timing_witness :
    (updateGlitch (envConst 5000)
      { initState with glitchActive := true, glitchOffset := 2,
                       lastGlitchTime := 1000 }).lastGlitchTime = 5000 ∧
    ((updateGlitch (envConst 1100))^[2]
      { initState with glitchActive := true, glitchOffset := 2,
                       lastGlitchTime := 1000 }).glitchOffset = 2 ∧
    ((updateGlitch (envConst 2500))^[1]
      { initState with glitchActive := true, glitchOffset := 2,
                       lastGlitchTime := 1000 }).glitchActive = false :=
  ⟨((updateGlitch_timing (envConst 5000)
      { initState with glitchActive := true, glitchOffset := 2,
                       lastGlitchTime := 1000 }).2.2.1 (by decide)).2.1,
   ((updateGlitch_timing (envConst 1100)
      { initState with glitchActive := true, glitchOffset := 2,
                       lastGlitchTime := 1000 }).2.2.2.1 rfl 2 (by decide)).2.1,
   ((updateGlitch_timing (envConst 2500)
      { initState with glitchActive := true, glitchOffset := 2,
                       lastGlitchTime := 1000 }).2.2.2.2.1 0 (by decide) (by decide)
      (by decide)).1⟩

/-! ## C19: timeouts across the wrap-around of the clock -/

theorem sub32_elapsed (start e : Nat) (he : e < U32) :
    sub32 ((start + e) % U32) start = e := by
  unfold sub32 U32 at *
  omega

/-- C19: for every start timestamp `start` and every true elapsed time `e`
below `2^32`, when the clock reads `now = (start + e) mod 2^32` the unsigned
difference `now - start` that `updateScreenState` computes is `e`, also when
`now < start`.  Hence powering up ends exactly when `e ≥ 500`, the screen
leaves `SCREEN_ON` exactly when `e ≥ 5000` (with `start = lastUserActivity`)
and powering down ends exactly when `e ≥ 600`. -/
theorem timeouts_across_wrap (env : Env) (s : State) (start e : Nat)
    (he : e < U32) (hnow : millis env s = (start + e) % U32) :
    sub32 ((start + e) % U32) start = e ∧
    (s.screenState = SCREEN_POWERING_UP → s.animationStartTime = start →
      ((updateScreenState env s).screenState = SCREEN_ON ↔ e ≥ 500) ∧
      ((updateScreenState env s).screenState = SCREEN_POWERING_UP ↔ e < 500)) ∧
    (s.screenState = SCREEN_ON → s.lastUserActivity = start →
      ((updateScreenState env s).screenState = SCREEN_POWERING_DOWN ↔ e ≥ 5000) ∧
      ((updateScreenState env s).screenState = SCREEN_ON ↔ e < 5000)) ∧
    (s.screenState = SCREEN_POWERING_DOWN → s.animationStartTime = start →
      ((updateScreenState env s).screenState = SCREEN_OFF ↔ e ≥ 600) ∧
      ((updateScreenState env s).screenState = SCREEN_POWERING_DOWN ↔ e < 600)) := by
  have hsub := sub32_elapsed start e he
  refine ⟨hsub, fun h ha => ?_, fun h ha => ?_, fun h ha => ?_⟩
  · by_cases hc : e ≥ 500
    · rw [updateScreenState_up_go env s h (by rw [hnow, ha, hsub]; exact hc)]
      exact ⟨by simp [hc], by simp; omega⟩
    · rw [updateScreenState_up_stay env s h (by rw [hnow, ha, hsub]; omega)]
      simp only [show (afterMillis s).screenState = s.screenState from rfl, h]
      exact ⟨by simp; omega, by simp; omega⟩
  · by_cases hc : e ≥ 5000
    · rw [updateScreenState_on_go env s h (by rw [hnow, ha, hsub]; exact hc)]
      exact ⟨by simp [hc], by simp; omega⟩
    · rw [updateScreenState_on_stay env s h (by rw [hnow, ha, hsub]; omega)]
      simp only [show (afterMillis s).screenState = s.screenState from rfl, h]
      exact ⟨by simp; omega, by simp; omega⟩
  · by_cases hc : e ≥ 600
    · rw [updateScreenState_down_go env s h (by rw [hnow, ha, hsub]; exact hc)]
      exact ⟨by simp [hc, emitD], by simp [emitD]; omega⟩
    · rw [updateScreenState_down_stay env s h (by rw [hnow, ha, hsub]; omega)]
      simp only [show (afterMillis s).screenState = s.screenState from rfl, h]
      exact ⟨by simp; omega, by simp; omega⟩

/-- C19 across the wrap: the screen went on 100 ms before the clock wrapped
and the clock now reads 4900, which is 5000 ms later. -/
theorem timeouts_across_wrap_witness :
    sub32 4900 4294967196 = 5000 ∧
    (updateScreenState (envConst 4900)
      { initState with screenState := SCREEN_ON,
                       lastUserActivity := 4294967196 }).screenState = SCREEN_POWERING_DOWN :=
  have h := timeouts_across_wrap (envConst 4900)
    { initState with screenState := SCREEN_ON, lastUserActivity := 4294967196 }
    4294967196 5000 (by decide) (by decide)
  ⟨h.1, ((h.2.2.1 rfl rfl).1).2 (by decide)⟩

/-! ## C20: the scanline stays on the display -/

/-- What one `drawScanline` call does when the position is in `[0, 511]`: it
waits, or it draws the line at the advanced position, or it wraps and pauses. -/
theorem drawScanline_cases (env : Env) (s : State)
    (h0 : 0 ≤ s.scanlinePos) (h1 : s.scanlinePos ≤ 511) :
    drawScanline env s = afterMillis s ∨
    (∃ p : Int, 0 ≤ p ∧ p + 12 < 512 ∧
      drawScanline env s =
        { afterMillis s with scanlinePaused := false, lastScanlinePos := p, scanlinePos := p + 12,
                             disp := s.disp ++ scanlineCalls (p + 12) }) ∨
    (512 ≤ s.scanlinePos + 12 ∧
      drawScanline env s =
        { afterMillis s with lastScanlinePos := s.scanlinePos,
                             scanlinePos := s.scanlinePos + 12 - 512,
                             scanlinePaused := true, scanlinePauseStart := millis env s }) := by
  by_cases hp : s.scanlinePaused = true
  · by_cases ht : sub32 (millis env s) s.scanlinePauseStart ≥ 1000
    · right; left
      refine ⟨0, Int.le_refl 0, by decide, ?_⟩
      have hd : drawScanline env s = drawScanlineSweep (millis env s)
          { afterMillis s with scanlinePaused := false, scanlinePos := 0 } := by
        simp [drawScanline, afterMillis, hp, SCANLINE_PAUSE_DURATION, ht]
      rw [hd, drawScanlineSweep_advance (millis env s)
        { afterMillis s with scanlinePaused := false, scanlinePos := 0 } (Int.le_refl 0)
        (show (0 : Int) + 12 < 512 by decide)]
      simp [afterMillis]
    · left
      simp [drawScanline, afterMillis, hp, SCANLINE_PAUSE_DURATION, ht]
  · have hp' : s.scanlinePaused = false := by simpa using hp
    have hd : drawScanline env s = drawScanlineSweep (millis env s) (afterMillis s) := by
      simp [drawScanline, afterMillis, hp']
    rw [hd]
    by_cases hw : s.scanlinePos + 12 < 512
    · right; left
      refine ⟨s.scanlinePos, h0, hw, ?_⟩
      rw [drawScanlineSweep_advance (millis env s) (afterMillis s) h0 hw]
      simp [afterMillis, hp']
    · right; right
      refine ⟨by omega, ?_⟩
      rw [drawScanlineSweep_wrap (millis env s) (afterMillis s) (show s.scanlinePos < 512 by omega)
        (show 512 ≤ s.scanlinePos + 12 by omega)]
      rfl

theorem scanlineCalls_mem (pos : Int) (c : DispCmd) (hc : c ∈ scanlineCalls pos) :
    ∃ i : Nat, i < 32 ∧
      (c = .drawPixel i (Int.tmod (pos + Int.tdiv i 8) 128) ∨
       c = .drawPixel i (Int.tmod (Int.tmod (pos + Int.tdiv i 8) 128 + 1) 128)) := by
  rw [scanlineCalls_eq] at hc
  simp only [List.mem_flatMap, List.mem_range, scanlineColumnCalls, List.mem_cons,
    List.mem_singleton, List.not_mem_nil, or_false] at hc
  obtain ⟨i, hi, h⟩ := hc
  exact ⟨i, hi, h⟩


/-- C20: every pixel of the scanline overlay lies inside the 32 x 128
display.  For a sweep position `pos` in `[0, 511]` the drawing loop of
`drawScanline` draws, for columns `i` in `0..31`, only the pixels `(i, y)` and
`(i, (y + 1) mod 128)` with `y = (pos + i / 8) mod 128`, so `0 ≤ x ≤ 31` and
`0 ≤ y ≤ 127`; and a `drawScanline` call that starts from a position in
`[0, 511]` draws nothing or the line of a position in `[0, 511]`. -/
theorem scanline_in_bounds (pos : Int) (h0 : 0 ≤ pos) (h1 : pos ≤ 511) :
    (∀ c ∈ scanlineCalls pos, ∃ i : Nat, i < 32 ∧
      (c = .drawPixel i ((pos + (i : Int) / 8) % 128) ∨
       c = .drawPixel i (((pos + (i : Int) / 8) % 128 + 1) % 128))) ∧
    (∀ c ∈ scanlineCalls pos, ∃ x y : Int,
      c = .drawPixel x y ∧ 0 ≤ x ∧ x ≤ 31 ∧ 0 ≤ y ∧ y ≤ 127) ∧
    (∀ (env : Env) (s : State), s.scanlinePos = pos →
      ∃ ext, (drawScanline env s).disp = s.disp ++ ext ∧
        (ext = [] ∨ ∃ p : Int, 0 ≤ p ∧ p ≤ 511 ∧ (drawScanline env s).scanlinePos = p ∧
          ext = scanlineCalls p)) := by
  have key : ∀ c ∈ scanlineCalls pos, ∃ i : Nat, i < 32 ∧
      (c = .drawPixel i ((pos + (i : Int) / 8) % 128) ∨
       c = .drawPixel i (((pos + (i : Int) / 8) % 128 + 1) % 128)) := by
    intro c hc
    obtain ⟨i, hi, h⟩ := scanlineCalls_mem pos c hc
    have hdiv : Int.tdiv (i : Int) 8 = (i : Int) / 8 :=
      Int.tdiv_eq_ediv (Int.ofNat_nonneg i) (by decide)
    have hy : Int.tmod (pos + (i : Int) / 8) 128 = (pos + (i : Int) / 8) % 128 :=
      Int.tmod_eq_emod (by omega) (by decide)
    have hy1 : Int.tmod ((pos + (i : Int) / 8) % 128 + 1) 128
        = ((pos + (i : Int) / 8) % 128 + 1) % 128 :=
      Int.tmod_eq_emod (by omega) (by decide)
    rw [hdiv, hy, hy1] at h
    exact ⟨i, hi, h⟩
  refine ⟨key, fun c hc => ?_, fun env s hs => ?_⟩
  · obtain ⟨i, hi, h | h⟩ := key c hc
    · exact ⟨i, _, h, by omega, by omega, by omega, by omega⟩
    · exact ⟨i, _, h, by omega, by omega, by omega, by omega⟩
  · rcases drawScanline_cases env s (by omega) (by omega) with h | ⟨p, hp0, hp1, h⟩ | ⟨_, h⟩
    · exact ⟨[], by rw [h]; simp [afterMillis], Or.inl rfl⟩
    · exact ⟨scanlineCalls (p + 12), by rw [h], Or.inr ⟨p + 12, by omega, by omega, by rw [h], rfl⟩⟩
    · exact ⟨[], by rw [h]; simp [afterMillis], Or.inl rfl⟩

/-- C20 at position 500: the pixel of column 31, where `y = 503 mod 128`. -/
theorem scanline_in_bounds_witness :
    ∃ x y : Int, DispCmd.drawPixel 31 119 = .drawPixel x y ∧ 0 ≤ x ∧ x ≤ 31 ∧ 0 ≤ y ∧ y ≤ 127 :=
  (scanline_in_bounds 500 (by decide) (by decide)).2.1 (.drawPixel 31 119) (by decide)

/-! ## C18: the heartbeat pulse -/

theorem drawStatusIndicator_eq (y : Int) (active : Bool) (s : State) :
    drawStatusIndicator y active s =
      { s with disp := s.disp ++ indicatorCalls y active s.frameCounter } := by
  unfold indicatorCalls drawStatusIndicator
  simp only
  split_ifs <;> simp [emitD, initState]

theorem indicatorCalls_active (y fc : Int) :
    indicatorCalls y true fc =
      [.drawStr 2 y "[", .drawStr 26 y "]"] ++
        if Int.tmod fc 20 < 3 then
          [.drawBox (16 - 3) (y - 3 - 3) 7 7, .drawLine (16 - 5) (y - 3) (16 + 5) (y - 3),
           .drawLine 16 (y - 3 - 5) 16 (y - 3 + 5)]
        else if Int.tmod fc 20 < 6 then [.drawBox (16 - 1) (y - 3 - 1) 3 3]
        else if Int.tmod fc 20 < 11 then
          [.drawBox (16 - 2) (y - 3 - 2) 5 5, .drawFrame (16 - 5) (y - 3 - 5) 11 11]
        else [.drawBox (16 - 1) (y - 3 - 1) 3 3] := by
  unfold indicatorCalls drawStatusIndicator
  simp only [if_true]
  split_ifs <;> simp [emitD, initState]

theorem indicatorCalls_inactive (y fc : Int) :
    indicatorCalls y false fc =
      [.drawStr 2 y "[", .drawStr 26 y "]", .drawPixel 15 (y - 3)] := by
  unfold indicatorCalls drawStatusIndicator
  simp [emitD, initState]

/-- C18, counterexample: frame 3 (second phase) and frame 11 (fourth phase)
produce the same drawing. -/
theorem heartbeat_counterexample :
    (drawStatusIndicator 28 true { initState with frameCounter := 3 }).disp =
      (drawStatusIndicator 28 true { initState with frameCounter := 11 }).disp ∧
    indicatorCalls 28 true 3 = indicatorCalls 28 true 11 := by
  decide


/-- C18, amended: for every non-negative `frameCounter`, what
`drawStatusIndicator(y, true)` draws depends on `frameCounter` only through
`frameCounter mod 20`.  After the two brackets it draws, in frames 0-2 of the
cycle, the large box with the crosshair; in frames 3-5 the small box; in
frames 6-10 the medium box with the ring; in frames 11-19 the small box again.
These are three pairwise distinct drawings; the second and the fourth phase
draw the same.  `drawStatusIndicator(y, false)` draws the same static bracket
glyph for every `frameCounter`. -/
theorem heartbeat_cycle (y fc : Int) (h : 0 ≤ fc) :
    indicatorCalls y true fc = indicatorCalls y true (fc % 20) ∧
    (fc % 20 < 3 → indicatorCalls y true fc =
      [.drawStr 2 y "[", .drawStr 26 y "]", .drawBox (16 - 3) (y - 3 - 3) 7 7,
       .drawLine (16 - 5) (y - 3) (16 + 5) (y - 3), .drawLine 16 (y - 3 - 5) 16 (y - 3 + 5)]) ∧
    (3 ≤ fc % 20 → fc % 20 < 6 → indicatorCalls y true fc =
      [.drawStr 2 y "[", .drawStr 26 y "]", .drawBox (16 - 1) (y - 3 - 1) 3 3]) ∧
    (6 ≤ fc % 20 → fc % 20 < 11 → indicatorCalls y true fc =
      [.drawStr 2 y "[", .drawStr 26 y "]", .drawBox (16 - 2) (y - 3 - 2) 5 5,
       .drawFrame (16 - 5) (y - 3 - 5) 11 11]) ∧
    (11 ≤ fc % 20 → indicatorCalls y true fc =
      [.drawStr 2 y "[", .drawStr 26 y "]", .drawBox (16 - 1) (y - 3 - 1) 3 3]) ∧
    (indicatorCalls y true 0 ≠ indicatorCalls y true 3 ∧
     indicatorCalls y true 0 ≠ indicatorCalls y true 6 ∧
     indicatorCalls y true 3 ≠ indicatorCalls y true 6 ∧
     indicatorCalls y true 3 = indicatorCalls y true 11) ∧
    (∀ n : Int, indicatorCalls y false n =
      [.drawStr 2 y "[", .drawStr 26 y "]", .drawPixel 15 (y - 3)]) ∧
    (∀ (active : Bool) (s : State), drawStatusIndicator y active s =
      { s with disp := s.disp ++ indicatorCalls y active s.frameCounter }) := by
  have hm : Int.tmod fc 20 = fc % 20 := Int.tmod_eq_emod h (by decide)
  have hmm : Int.tmod (fc % 20) 20 = fc % 20 := by
    rw [Int.tmod_eq_emod (by omega) (by decide)]; omega
  refine ⟨?_, fun h1 => ?_, fun h1 h2 => ?_, fun h1 h2 => ?_, fun h1 => ?_, ?_,
    indicatorCalls_inactive y, fun a s => drawStatusIndicator_eq y a s⟩
  · rw [indicatorCalls_active, indicatorCalls_active, hm, hmm]
  · rw [indicatorCalls_active, hm, if_pos h1]; rfl
  · rw [indicatorCalls_active, hm, if_neg (by omega), if_pos h2]; rfl
  · rw [indicatorCalls_active, hm, if_neg (by omega), if_neg (by omega), if_pos h2]; rfl
  · rw [indicatorCalls_active, hm, if_neg (by omega), if_neg (by omega), if_neg (by omega)]; rfl
  · have e0 : Int.tmod 0 20 = 0 := rfl
    have e3 : Int.tmod 3 20 = 3 := rfl
    have e6 : Int.tmod 6 20 = 6 := rfl
    have e11 : Int.tmod 11 20 = 11 := rfl
    simp [indicatorCalls_active, e0, e3, e6, e11]

/-- C18, amended, at `y = 28` and frame 47, which is frame 7 of the cycle. -/
theorem heartbeat_cycle_witness :
    indicatorCalls 28 true 47 =
      [.drawStr 2 28 "[", .drawStr 26 28 "]", .drawBox 14 23 5 5, .drawFrame 11 20 11 11] :=
  (heartbeat_cycle 28 47 (by decide)).2.2.2.1 (by decide) (by decide)

/-! ## More frame lemmas -/

/-! ### The frame counter -/

theorem frameCount_mk (a1 : Bool) (a2 : Int) (a3 : Nat) (a4 a5 a6 a7 : Int) (a8 : Bool) (a9 : Nat)
    (a10 : Bool) (a11 a12 : Nat) (a13 : ScreenState) (a14 a15 : Nat) (a16 : Bool) (a17 a18 a19 : Nat)
    (a20 : List LedCmd) (a21 : List DispCmd) (a22 : Bool) :
    frameCount ⟨a1, a2, a3, a4, a5, a6, a7, a8, a9, a10, a11, a12, a13, a14, a15, a16, a17, a18, a19,
      a20, a21, a22⟩ = a4 := rfl

theorem frameCount_fold (s : State) : s.frameCounter = frameCount s := by cases s; rfl

theorem frameCount_emitD (c : DispCmd) (s : State) : frameCount (emitD c s) = frameCount s := by cases s; rfl

theorem frameCount_emitL (c : LedCmd) (s : State) : frameCount (emitL c s) = frameCount s := by cases s; rfl

theorem frameCount_markFault (s : State) : frameCount (markFault s) = frameCount s := by cases s; rfl

theorem frameCount_afterMillis (s : State) : frameCount (afterMillis s) = frameCount s := by cases s; rfl

theorem frameCount_afterRandom (s : State) : frameCount (afterRandom s) = frameCount s := by cases s; rfl

theorem frameCount_updateNoiseBurst (env : Env) (s : State) :
    frameCount (updateNoiseBurst env s) = frameCount s := by
  unfold updateNoiseBurst
  simp only [apply_ite frameCount, frameCount_mk, frameCount_fold, frameCount_afterMillis,
    frameCount_afterRandom, ite_self]

theorem frameCount_updateGlitch (env : Env) (s : State) :
    frameCount (updateGlitch env s) = frameCount s := by
  unfold updateGlitch
  simp only [apply_ite frameCount, frameCount_mk, frameCount_fold, frameCount_afterMillis,
    frameCount_afterRandom, ite_self]

theorem frameCount_drawNoiseBurstBody (env : Env) (s : State) :
    frameCount (drawNoiseBurstBody env s) = frameCount s := by
  unfold drawNoiseBurstBody
  simp only [apply_ite frameCount, frameCount_emitD, frameCount_afterRandom, ite_self]

theorem frameCount_drawNoiseBurst (env : Env) (s : State) :
    frameCount (drawNoiseBurst env s) = frameCount s := by
  unfold drawNoiseBurst
  split_ifs
  · rfl
  · exact forLoop_preserves frameCount _ _ (fun _ s => frameCount_drawNoiseBurstBody env s) _

theorem frameCount_drawScanlineSweep (now : Nat) (s : State) :
    frameCount (drawScanlineSweep now s) = frameCount s := by
  unfold drawScanlineSweep
  simp only [apply_ite frameCount, frameCount_mk, frameCount_fold, ite_self,
    forLoop_preserves frameCount 32 drawScanlineColumn (fun _ s => by cases s; rfl)]

theorem frameCount_drawScanline (env : Env) (s : State) :
    frameCount (drawScanline env s) = frameCount s := by
  unfold drawScanline
  simp only [apply_ite frameCount, frameCount_drawScanlineSweep, frameCount_mk, frameCount_fold,
    frameCount_afterMillis, ite_self]

theorem frameCount_drawStatusIndicator (y : Int) (a : Bool) (s : State) :
    frameCount (drawStatusIndicator y a s) = frameCount s := by
  unfold drawStatusIndicator
  simp only [apply_ite frameCount, frameCount_emitD, ite_self]

theorem frameCount_drawPowerBar (p : Int) (a : Bool) (s : State) :
    frameCount (drawPowerBar p a s) = frameCount s := by
  unfold drawPowerBar
  simp only [apply_ite frameCount, frameCount_emitD, ite_self,
    forLoop_preserves frameCount 5 drawPowerBarHatch (fun _ s => by cases s; rfl),
    forLoop_preserves frameCount 5 drawPowerBarSegment (fun _ s => by cases s; rfl)]

theorem frameCount_drawPowerUpAnimation (env : Env) (p : Progress) (s : State) :
    frameCount (drawPowerUpAnimation env p s) = frameCount s := by
  unfold drawPowerUpAnimation
  simp only [apply_ite frameCount, frameCount_emitD, ite_self,
    forLoop_preserves frameCount 4 (drawPowerUpRay env p) (fun _ s => by cases s; rfl)]

theorem frameCount_drawPowerDownBand (env : Env) (p : Progress) (i : Nat) (s : State) :
    frameCount (drawPowerDownBand env p i s) = frameCount s := by
  unfold drawPowerDownBand
  simp only [apply_ite frameCount, frameCount_emitD, ite_self]

theorem frameCount_drawPowerDownAnimation (env : Env) (p : Progress) (s : State) :
    frameCount (drawPowerDownAnimation env p s) = frameCount s := by
  unfold drawPowerDownAnimation
  simp only [apply_ite frameCount, frameCount_emitD, ite_self,
    forLoop_preserves frameCount 8 (drawPowerDownBand env p) (frameCount_drawPowerDownBand env p)]

theorem frameCount_drawStatusPanel (env : Env) (s : State) :
    frameCount (drawStatusPanel env s) = frameCount s := by
  unfold drawStatusPanel
  simp only [apply_ite frameCount, frameCount_emitD, frameCount_afterRandom, ite_self,
    frameCount_drawScanline, frameCount_drawPowerBar, frameCount_drawStatusIndicator,
    frameCount_drawNoiseBurst, frameCount_updateGlitch]

theorem frameCount_wakeScreen (env : Env) (s : State) :
    frameCount (wakeScreen env s) = frameCount s := by
  unfold wakeScreen
  simp only [apply_ite frameCount, frameCount_mk, frameCount_fold, frameCount_emitD, frameCount_afterMillis,
    ite_self]

theorem frameCount_updateScreenState (env : Env) (s : State) :
    frameCount (updateScreenState env s) = frameCount s := by
  unfold updateScreenState
  simp only
  split <;>
    simp only [apply_ite frameCount, frameCount_mk, frameCount_fold, frameCount_emitD,
      frameCount_afterMillis, ite_self]

theorem frameCount_updateLED (s : State) : frameCount (updateLED s) = frameCount s := by
  unfold updateLED
  simp only
  split_ifs
  · simp only [frameCount_emitL]
  · split <;> simp only [frameCount_emitL, frameCount_markFault]
  · simp only [frameCount_emitL]

/-! ### What drawing leaves untouched -/

theorem outer_mk (a1 : Bool) (a2 : Int) (a3 : Nat) (a4 a5 a6 a7 : Int) (a8 : Bool) (a9 : Nat)
    (a10 : Bool) (a11 a12 : Nat) (a13 : ScreenState) (a14 a15 : Nat) (a16 : Bool) (a17 a18 a19 : Nat)
    (a20 : List LedCmd) (a21 : List DispCmd) (a22 : Bool) :
    outer ⟨a1, a2, a3, a4, a5, a6, a7, a8, a9, a10, a11, a12, a13, a14, a15, a16, a17, a18, a19,
      a20, a21, a22⟩ = (a1, a2, a3, a13, a14, a15, a20, a22) := rfl

theorem outer_fold (s : State) : (s.isLedOn, s.currentLevelIndex, s.lastFrameTime, s.screenState, s.lastUserActivity, s.animationStartTime, s.led, s.fault) = outer s := by cases s; rfl

theorem outer_emitD (c : DispCmd) (s : State) : outer (emitD c s) = outer s := by cases s; rfl

theorem outer_afterMillis (s : State) : outer (afterMillis s) = outer s := by cases s; rfl

theorem outer_afterRandom (s : State) : outer (afterRandom s) = outer s := by cases s; rfl

theorem outer_updateNoiseBurst (env : Env) (s : State) :
    outer (updateNoiseBurst env s) = outer s := by
  unfold updateNoiseBurst
  simp only [apply_ite outer, outer_mk, outer_fold, outer_afterMillis,
    outer_afterRandom, ite_self]

theorem outer_updateGlitch (env : Env) (s : State) :
    outer (updateGlitch env s) = outer s := by
  unfold updateGlitch
  simp only [apply_ite outer, outer_mk, outer_fold, outer_afterMillis,
    outer_afterRandom, ite_self]

theorem outer_drawNoiseBurstBody (env : Env) (s : State) :
    outer (drawNoiseBurstBody env s) = outer s := by
  unfold drawNoiseBurstBody
  simp only [apply_ite outer, outer_emitD, outer_afterRandom, ite_self]

theorem outer_drawNoiseBurst (env : Env) (s : State) :
    outer (drawNoiseBurst env s) = outer s := by
  unfold drawNoiseBurst
  split_ifs
  · rfl
  · exact forLoop_preserves outer _ _ (fun _ s => outer_drawNoiseBurstBody env s) _

theorem outer_drawScanlineSweep (now : Nat) (s : State) :
    outer (drawScanlineSweep now s) = outer s := by
  unfold drawScanlineSweep
  simp only [apply_ite outer, outer_mk, outer_fold, ite_self,
    forLoop_preserves outer 32 drawScanlineColumn (fun _ s => by cases s; rfl)]

theorem outer_drawScanline (env : Env) (s : State) :
    outer (drawScanline env s) = outer s := by
  unfold drawScanline
  simp only [apply_ite outer, outer_drawScanlineSweep, outer_mk, outer_fold,
    outer_afterMillis, ite_self]

theorem outer_drawStatusIndicator (y : Int) (a : Bool) (s : State) :
    outer (drawStatusIndicator y a s) = outer s := by
  unfold drawStatusIndicator
  simp only [apply_ite outer, outer_emitD, ite_self]

theorem outer_drawPowerBar (p : Int) (a : Bool) (s : State) :
    outer (drawPowerBar p a s) = outer s := by
  unfold drawPowerBar
  simp only [apply_ite outer, outer_emitD, ite_self,
    forLoop_preserves outer 5 drawPowerBarHatch (fun _ s => by cases s; rfl),
    forLoop_preserves outer 5 drawPowerBarSegment (fun _ s => by cases s; rfl)]

theorem outer_drawPowerUpAnimation (env : Env) (p : Progress) (s : State) :
    outer (drawPowerUpAnimation env p s) = outer s := by
  unfold drawPowerUpAnimation
  simp only [apply_ite outer, outer_emitD, ite_self,
    forLoop_preserves outer 4 (drawPowerUpRay env p) (fun _ s => by cases s; rfl)]

theorem outer_drawPowerDownBand (env : Env) (p : Progress) (i : Nat) (s : State) :
    outer (drawPowerDownBand env p i s) = outer s := by
  unfold drawPowerDownBand
  simp only [apply_ite outer, outer_emitD, ite_self]

theorem outer_drawPowerDownAnimation (env : Env) (p : Progress) (s : State) :
    outer (drawPowerDownAnimation env p s) = outer s := by
  unfold drawPowerDownAnimation
  simp only [apply_ite outer, outer_emitD, ite_self,
    forLoop_preserves outer 8 (drawPowerDownBand env p) (outer_drawPowerDownBand env p)]

theorem outer_drawStatusPanel (env : Env) (s : State) :
    outer (drawStatusPanel env s) = outer s := by
  unfold drawStatusPanel
  simp only [apply_ite outer, outer_emitD, outer_afterRandom, ite_self,
    outer_drawScanline, outer_drawPowerBar, outer_drawStatusIndicator,
    outer_drawNoiseBurst, outer_updateGlitch]

theorem outer_drawScreen (env : Env) (s : State) :
    outer (drawScreen env s) = outer s := by
  unfold drawScreen
  simp only [apply_ite outer, outer_mk, outer_fold, outer_emitD, outer_afterMillis,
    ite_self, outer_drawStatusPanel, outer_drawPowerDownAnimation,
    outer_drawPowerUpAnimation, outer_updateNoiseBurst]

/-! ### The ranges of the effects state -/

theorem fxOk_mk (a1 : Bool) (a2 : Int) (a3 : Nat) (a4 a5 a6 a7 : Int) (a8 : Bool) (a9 : Nat)
    (a10 : Bool) (a11 a12 : Nat) (a13 : ScreenState) (a14 a15 : Nat) (a16 : Bool) (a17 a18 a19 : Nat)
    (a20 : List LedCmd) (a21 : List DispCmd) (a22 : Bool) :
    fxOk ⟨a1, a2, a3, a4, a5, a6, a7, a8, a9, a10, a11, a12, a13, a14, a15, a16, a17, a18, a19,
      a20, a21, a22⟩ = (-3 ≤ a5 ∧ a5 ≤ 3 ∧ 0 ≤ a6 ∧ a6 ≤ 511) := rfl

theorem fxOk_fold (s : State) : (-3 ≤ s.glitchOffset ∧ s.glitchOffset ≤ 3 ∧ 0 ≤ s.scanlinePos ∧ s.scanlinePos ≤ 511) = fxOk s := by cases s; rfl

theorem fxOk_emitD (c : DispCmd) (s : State) : fxOk (emitD c s) = fxOk s := by cases s; rfl

theorem fxOk_emitL (c : LedCmd) (s : State) : fxOk (emitL c s) = fxOk s := by cases s; rfl

theorem fxOk_markFault (s : State) : fxOk (markFault s) = fxOk s := by cases s; rfl

theorem fxOk_afterMillis (s : State) : fxOk (afterMillis s) = fxOk s := by cases s; rfl

theorem fxOk_afterRandom (s : State) : fxOk (afterRandom s) = fxOk s := by cases s; rfl

theorem fxOk_updateNoiseBurst (env : Env) (s : State) :
    fxOk (updateNoiseBurst env s) = fxOk s := by
  unfold updateNoiseBurst
  simp only [apply_ite fxOk, fxOk_mk, fxOk_fold, fxOk_afterMillis,
    fxOk_afterRandom, ite_self]

theorem fxOk_drawNoiseBurstBody (env : Env) (s : State) :
    fxOk (drawNoiseBurstBody env s) = fxOk s := by
  unfold drawNoiseBurstBody
  simp only [apply_ite fxOk, fxOk_emitD, fxOk_afterRandom, ite_self]

theorem fxOk_drawNoiseBurst (env : Env) (s : State) :
    fxOk (drawNoiseBurst env s) = fxOk s := by
  unfold drawNoiseBurst
  split_ifs
  · rfl
  · exact forLoop_preserves fxOk _ _ (fun _ s => fxOk_drawNoiseBurstBody env s) _

theorem fxOk_drawStatusIndicator (y : Int) (a : Bool) (s : State) :
    fxOk (drawStatusIndicator y a s) = fxOk s := by
  unfold drawStatusIndicator
  simp only [apply_ite fxOk, fxOk_emitD, ite_self]

theorem fxOk_drawPowerBar (p : Int) (a : Bool) (s : State) :
    fxOk (drawPowerBar p a s) = fxOk s := by
  unfold drawPowerBar
  simp only [apply_ite fxOk, fxOk_emitD, ite_self,
    forLoop_preserves fxOk 5 drawPowerBarHatch (fun _ s => by cases s; rfl),
    forLoop_preserves fxOk 5 drawPowerBarSegment (fun _ s => by cases s; rfl)]

theorem fxOk_drawPowerUpAnimation (env : Env) (p : Progress) (s : State) :
    fxOk (drawPowerUpAnimation env p s) = fxOk s := by
  unfold drawPowerUpAnimation
  simp only [apply_ite fxOk, fxOk_emitD, ite_self,
    forLoop_preserves fxOk 4 (drawPowerUpRay env p) (fun _ s => by cases s; rfl)]

theorem fxOk_drawPowerDownBand (env : Env) (p : Progress) (i : Nat) (s : State) :
    fxOk (drawPowerDownBand env p i s) = fxOk s := by
  unfold drawPowerDownBand
  simp only [apply_ite fxOk, fxOk_emitD, ite_self]

theorem fxOk_drawPowerDownAnimation (env : Env) (p : Progress) (s : State) :
    fxOk (drawPowerDownAnimation env p s) = fxOk s := by
  unfold drawPowerDownAnimation
  simp only [apply_ite fxOk, fxOk_emitD, ite_self,
    forLoop_preserves fxOk 8 (drawPowerDownBand env p) (fxOk_drawPowerDownBand env p)]

theorem fxOk_wakeScreen (env : Env) (s : State) :
    fxOk (wakeScreen env s) = fxOk s := by
  unfold wakeScreen
  simp only [apply_ite fxOk, fxOk_mk, fxOk_fold, fxOk_emitD, fxOk_afterMillis,
    ite_self]

theorem fxOk_updateScreenState (env : Env) (s : State) :
    fxOk (updateScreenState env s) = fxOk s := by
  unfold updateScreenState
  simp only
  split <;>
    simp only [apply_ite fxOk, fxOk_mk, fxOk_fold, fxOk_emitD,
      fxOk_afterMillis, ite_self]

theorem fxOk_updateLED (s : State) : fxOk (updateLED s) = fxOk s := by
  unfold updateLED
  simp only
  split_ifs
  · simp only [fxOk_emitL]
  · split <;> simp only [fxOk_emitL, fxOk_markFault]
  · simp only [fxOk_emitL]

/-! ### The glitch through the noise -/

theorem glitchView_mk (a1 : Bool) (a2 : Int) (a3 : Nat) (a4 a5 a6 a7 : Int) (a8 : Bool) (a9 : Nat)
    (a10 : Bool) (a11 a12 : Nat) (a13 : ScreenState) (a14 a15 : Nat) (a16 : Bool) (a17 a18 a19 : Nat)
    (a20 : List LedCmd) (a21 : List DispCmd) (a22 : Bool) :
    glitchView ⟨a1, a2, a3, a4, a5, a6, a7, a8, a9, a10, a11, a12, a13, a14, a15, a16, a17, a18, a19,
      a20, a21, a22⟩ = (a8, a5) := rfl

theorem glitchView_fold (s : State) : (s.glitchActive, s.glitchOffset) = glitchView s := by cases s; rfl

theorem glitchView_emitD (c : DispCmd) (s : State) : glitchView (emitD c s) = glitchView s := by cases s; rfl

theorem glitchView_afterMillis (s : State) : glitchView (afterMillis s) = glitchView s := by cases s; rfl

theorem glitchView_afterRandom (s : State) : glitchView (afterRandom s) = glitchView s := by cases s; rfl

theorem glitchView_drawNoiseBurstBody (env : Env) (s : State) :
    glitchView (drawNoiseBurstBody env s) = glitchView s := by
  unfold drawNoiseBurstBody
  simp only [apply_ite glitchView, glitchView_emitD, glitchView_afterRandom, ite_self]

theorem glitchView_drawNoiseBurst (env : Env) (s : State) :
    glitchView (drawNoiseBurst env s) = glitchView s := by
  unfold drawNoiseBurst
  split_ifs
  · rfl
  · exact forLoop_preserves glitchView _ _ (fun _ s => glitchView_drawNoiseBurstBody env s) _

/-! ### The out-of-bounds marker through the lifecycle functions -/

theorem faultOf_mk (a1 : Bool) (a2 : Int) (a3 : Nat) (a4 a5 a6 a7 : Int) (a8 : Bool) (a9 : Nat)
    (a10 : Bool) (a11 a12 : Nat) (a13 : ScreenState) (a14 a15 : Nat) (a16 : Bool) (a17 a18 a19 : Nat)
    (a20 : List LedCmd) (a21 : List DispCmd) (a22 : Bool) :
    faultOf ⟨a1, a2, a3, a4, a5, a6, a7, a8, a9, a10, a11, a12, a13, a14, a15, a16, a17, a18, a19,
      a20, a21, a22⟩ = a22 := rfl

theorem faultOf_fold (s : State) : s.fault = faultOf s := by cases s; rfl

theorem faultOf_emitD (c : DispCmd) (s : State) : faultOf (emitD c s) = faultOf s := by cases s; rfl

theorem faultOf_emitL (c : LedCmd) (s : State) : faultOf (emitL c s) = faultOf s := by cases s; rfl

theorem faultOf_afterMillis (s : State) : faultOf (afterMillis s) = faultOf s := by cases s; rfl

theorem faultOf_afterRandom (s : State) : faultOf (afterRandom s) = faultOf s := by cases s; rfl

theorem faultOf_wakeScreen (env : Env) (s : State) :
    faultOf (wakeScreen env s) = faultOf s := by
  unfold wakeScreen
  simp only [apply_ite faultOf, faultOf_mk, faultOf_fold, faultOf_emitD, faultOf_afterMillis,
    ite_self]

theorem faultOf_updateScreenState (env : Env) (s : State) :
    faultOf (updateScreenState env s) = faultOf s := by
  unfold updateScreenState
  simp only
  split <;>
    simp only [apply_ite faultOf, faultOf_mk, faultOf_fold, faultOf_emitD,
      faultOf_afterMillis, ite_self]

/-! ## C15: the level index stays inside the table -/

theorem readLevel_some (i : Int) (h0 : 0 ≤ i) (h4 : i ≤ 4) : ∃ v, readLevel i = some v := by
  have : i = 0 ∨ i = 1 ∨ i = 2 ∨ i = 3 ∨ i = 4 := by omega
  rcases this with h | h | h | h | h <;> subst h <;> exact ⟨_, rfl⟩

theorem updateLED_fault (s : State) (h0 : 0 ≤ s.currentLevelIndex)
    (h4 : s.currentLevelIndex ≤ 4) : (updateLED s).fault = s.fault := by
  obtain ⟨v, hv⟩ := readLevel_some s.currentLevelIndex h0 h4
  have key : faultOf (updateLED s) = faultOf s := by
    unfold updateLED
    simp only [show ∀ (c : LedCmd) (t : State), (emitL c t).currentLevelIndex = t.currentLevelIndex
      from fun _ _ => rfl, hv]
    simp only [apply_ite faultOf, faultOf_emitL, ite_self]
  exact key

theorem levelOk_of (s t : State) (hl : ledState t = ledState s) (hf : t.fault = s.fault)
    (h : levelOk s) : levelOk t := by
  simp only [ledState, Prod.mk.injEq] at hl
  unfold levelOk at *
  rw [hl.2, hf]
  exact h

theorem levelOk_wakeScreen (env : Env) (s : State) (h : levelOk s) :
    levelOk (wakeScreen env s) :=
  levelOk_of s _ (ledState_wakeScreen env s) (faultOf_wakeScreen env s) h

theorem levelOk_updateScreenState (env : Env) (s : State) (h : levelOk s) :
    levelOk (updateScreenState env s) :=
  levelOk_of s _ (ledState_updateScreenState env s) (faultOf_updateScreenState env s) h

theorem levelOk_drawScreen (env : Env) (s : State) (h : levelOk s) :
    levelOk (drawScreen env s) :=
  levelOk_of s _ (ledState_drawScreen env s)
    (by have := outer_drawScreen env s
        simp only [outer, Prod.mk.injEq] at this
        exact this.2.2.2.2.2.2.2) h

theorem levelOk_updateLED (s : State) (h : levelOk s) : levelOk (updateLED s) :=
  levelOk_of s _ (ledState_updateLED s) (updateLED_fault s h.1 h.2.1) h

theorem levelOk_onToggleClick (env : Env) (s : State) (h : levelOk s) :
    levelOk (onToggleClick env s) := by
  have h1 := levelOk_wakeScreen env s h
  have h2 : levelOk { wakeScreen env s with isLedOn := !(wakeScreen env s).isLedOn } := h1
  have h3 := levelOk_drawScreen env _ (levelOk_updateLED _ h2)
  exact h3

theorem levelOk_onBrightClick (env : Env) (s : State) (h : levelOk s) :
    levelOk (onBrightClick env s) := by
  have h1 := levelOk_wakeScreen env s h
  unfold onBrightClick
  simp only
  split_ifs with hoff hwrap
  · exact h1
  · have h2 : levelOk { wakeScreen env s with currentLevelIndex := 0 } :=
      ⟨Int.le_refl 0, show (0 : Int) ≤ 4 by decide, h1.2.2⟩
    exact levelOk_drawScreen env _ (levelOk_updateLED _ h2)
  · have hw : ¬ ((wakeScreen env s).currentLevelIndex + 1 ≥ NUM_LEVELS) := hwrap
    unfold NUM_LEVELS at hw
    have h2 : levelOk { wakeScreen env s with
        currentLevelIndex := (wakeScreen env s).currentLevelIndex + 1 } :=
      ⟨by have := h1.1; show 0 ≤ (wakeScreen env s).currentLevelIndex + 1; omega,
       by show (wakeScreen env s).currentLevelIndex + 1 ≤ 4; omega, h1.2.2⟩
    exact levelOk_drawScreen env _ (levelOk_updateLED _ h2)

/-- C15: starting from the initial state `{isLedOn: false, currentLevelIndex: 4}`,
after any finite sequence of `onToggleClick`, `onBrightClick`,
`updateScreenState` and `drawScreen` calls, at any clock and random values,
`0 ≤ currentLevelIndex ≤ 4`; the read `BRIGHTNESS_LEVELS[currentLevelIndex]`
is inside the table, and no read made by `updateLED` during the sequence went
outside it. -/
theorem level_index_in_table (env : Env) (ops : List Op) :
    0 ≤ (opRun env ops initState).currentLevelIndex ∧
    (opRun env ops initState).currentLevelIndex ≤ 4 ∧
    (readLevel (opRun env ops initState).currentLevelIndex).isSome = true ∧
    (opRun env ops initState).fault = false := by
  have key : ∀ (l : List Op) (s : State), levelOk s → levelOk (opRun env l s) := by
    intro l
    induction l with
    | nil => intro s h; exact h
    | cons o l ih =>
      intro s h
      unfold opRun
      rw [List.foldl_cons]
      apply ih
      cases o with
      | toggle => exact levelOk_onToggleClick env s h
      | bright => exact levelOk_onBrightClick env s h
      | poll => exact levelOk_updateScreenState env s h
      | draw => exact levelOk_drawScreen env s h
  have h := key ops initState ⟨by decide, by decide, rfl⟩
  obtain ⟨v, hv⟩ := readLevel_some _ h.1 h.2.1
  exact ⟨h.1, h.2.1, by rw [hv]; rfl, h.2.2⟩

/-! ## C16: the ranges of the effects state -/

theorem fxOk_updateGlitch (env : Env) (s : State) (h : fxOk s) : fxOk (updateGlitch env s) := by
  have hr := random_offset env (afterRandom (afterMillis s))
  by_cases hf : toU32 (random env 2000 3500 (afterMillis s)) < sub32 (millis env s) s.lastGlitchTime
  · rw [glitch_fire env s hf]
    exact ⟨hr.1, hr.2, h.2.2.1, h.2.2.2⟩
  · by_cases h150 : 150 < sub32 (millis env s) s.lastGlitchTime
    · rw [glitch_expire env s h150 (by omega)]
      exact ⟨show (-3 : Int) ≤ 0 by decide, show (0 : Int) ≤ 3 by decide, h.2.2.1, h.2.2.2⟩
    · rw [glitch_keep env s (by omega)]
      exact h

theorem fxOk_drawScanline (env : Env) (s : State) (h : fxOk s) : fxOk (drawScanline env s) := by
  rcases drawScanline_cases env s h.2.2.1 h.2.2.2 with hc | ⟨p, hp0, hp1, hc⟩ | ⟨hw, hc⟩
  · rw [hc]; exact h
  · rw [hc]
    exact ⟨h.1, h.2.1, show (0 : Int) ≤ p + 12 by omega, show p + 12 ≤ 511 by omega⟩
  · rw [hc]
    have h1 := h.2.2.2
    exact ⟨h.1, h.2.1, show (0 : Int) ≤ s.scanlinePos + 12 - 512 by omega,
      show s.scanlinePos + 12 - 512 ≤ 511 by omega⟩


theorem fxOk_drawStatusPanel (env : Env) (s : State) (h : fxOk s) :
    fxOk (drawStatusPanel env s) := by
  unfold drawStatusPanel
  simp only [apply_ite fxOk, fxOk_emitD, fxOk_afterRandom, ite_self]
  apply fxOk_drawScanline
  simp only [apply_ite fxOk, fxOk_emitD, fxOk_afterRandom, ite_self, fxOk_drawPowerBar,
    fxOk_drawStatusIndicator, fxOk_drawNoiseBurst]
  exact fxOk_updateGlitch env s h

theorem fxOk_drawScreen (env : Env) (s : State) (h : fxOk s) : fxOk (drawScreen env s) := by
  unfold drawScreen
  simp only [apply_ite fxOk, fxOk_mk, fxOk_fold, fxOk_emitD, fxOk_afterMillis, ite_self,
    fxOk_drawPowerDownAnimation, fxOk_drawPowerUpAnimation, fxOk_updateNoiseBurst]
  have hp : fxOk (drawStatusPanel env (emitD .clearBuffer (updateNoiseBurst env s))) :=
    fxOk_drawStatusPanel env _ (by rw [fxOk_emitD, fxOk_updateNoiseBurst]; exact h)
  split_ifs <;> first | exact h | exact hp

theorem fxOk_onToggleClick (env : Env) (s : State) (h : fxOk s) :
    fxOk (onToggleClick env s) := by
  have h1 : fxOk (wakeScreen env s) := by rw [fxOk_wakeScreen]; exact h
  have h2 : fxOk { wakeScreen env s with isLedOn := !(wakeScreen env s).isLedOn } := h1
  have h3 : fxOk (updateLED { wakeScreen env s with isLedOn := !(wakeScreen env s).isLedOn }) := by
    rw [fxOk_updateLED]; exact h2
  exact fxOk_drawScreen env _ h3

theorem fxOk_onBrightClick (env : Env) (s : State) (h : fxOk s) :
    fxOk (onBrightClick env s) := by
  have h1 : fxOk (wakeScreen env s) := by rw [fxOk_wakeScreen]; exact h
  unfold onBrightClick
  simp only
  split_ifs
  · exact h1
  · have h2 : fxOk { wakeScreen env s with currentLevelIndex := 0 } := h1
    exact fxOk_drawScreen env _ (by rw [fxOk_updateLED]; exact h2)
  · have h2 : fxOk { wakeScreen env s with
        currentLevelIndex := (wakeScreen env s).currentLevelIndex + 1 } := h1
    exact fxOk_drawScreen env _ (by rw [fxOk_updateLED]; exact h2)

/-- C16: starting from the initial state, after any finite sequence of clicks
(`onToggleClick`, `onBrightClick`), lifecycle updates (`updateScreenState`)
and `drawScreen` calls, at any clock values and with any values of the random
source, `glitchOffset` is in `[-3, 3]` and `scanlinePos` is in `[0, 511]`;
each of these operations keeps the two ranges. -/
theorem effects_state_ranges (env : Env) (ops : List Op) :
    (-3 ≤ (opRun env ops initState).glitchOffset ∧
     (opRun env ops initState).glitchOffset ≤ 3 ∧
     0 ≤ (opRun env ops initState).scanlinePos ∧
     (opRun env ops initState).scanlinePos ≤ 511) ∧
    (∀ (o : Op) (s : State), fxOk s → fxOk (opStep env o s)) := by
  have step : ∀ (o : Op) (s : State), fxOk s → fxOk (opStep env o s) := by
    intro o s h
    cases o with
    | toggle => exact fxOk_onToggleClick env s h
    | bright => exact fxOk_onBrightClick env s h
    | poll => exact (fxOk_updateScreenState env s).symm ▸ h
    | draw => exact fxOk_drawScreen env s h
  have key : ∀ (l : List Op) (s : State), fxOk s → fxOk (opRun env l s) := by
    intro l
    induction l with
    | nil => intro s h; exact h
    | cons o l ih =>
      intro s h
      unfold opRun
      rw [List.foldl_cons]
      exact ih _ (step o s h)
  exact ⟨key ops initState ⟨by decide, by decide, by decide, by decide⟩, step⟩

/-- C16 at a concrete step: a frame drawn with the screen on, the scanline at
its last position before the wrap and the largest glitch offset. -/
theorem effects_state_ranges_witness :
    fxOk (opStep (envConst 9000) .draw
      { initState with screenState := SCREEN_ON, scanlinePos := 504, glitchOffset := 3 }) :=
  (effects_state_ranges (envConst 9000) []).2 .draw
    { initState with screenState := SCREEN_ON, scanlinePos := 504, glitchOffset := 3 }
    ⟨by decide, by decide, by decide, by decide⟩

/-! ### Draw calls leave the last control call of the log in place -/

theorem lastControl_mk (a1 : Bool) (a2 : Int) (a3 : Nat) (a4 a5 a6 a7 : Int) (a8 : Bool) (a9 : Nat)
    (a10 : Bool) (a11 a12 : Nat) (a13 : ScreenState) (a14 a15 : Nat) (a16 : Bool) (a17 a18 a19 : Nat)
    (a20 : List LedCmd) (a21 : List DispCmd) (a22 : Bool) :
    lastControl ⟨a1, a2, a3, a4, a5, a6, a7, a8, a9, a10, a11, a12, a13, a14, a15, a16, a17, a18, a19,
      a20, a21, a22⟩ = List.dropWhile isDrawCall a21.reverse := rfl

theorem lastControl_fold (s : State) : List.dropWhile isDrawCall s.disp.reverse = lastControl s := by cases s; rfl

theorem lastControl_emitD (c : DispCmd) (s : State) (h : isDrawCall c = true) :
    lastControl (emitD c s) = lastControl s := by
  cases s
  simp [lastControl, emitD, List.dropWhile_cons, h]
theorem lastControl_drawScanlineColumn (i : Nat) (s : State) :
    lastControl (drawScanlineColumn i s) = lastControl s := by
  unfold drawScanlineColumn
  simp only [lastControl_emitD, isDrawCall]
theorem lastControl_drawPowerBarHatch (i : Nat) (s : State) :
    lastControl (drawPowerBarHatch i s) = lastControl s := by
  unfold drawPowerBarHatch
  simp only [lastControl_emitD, isDrawCall]
theorem lastControl_drawPowerBarSegment (i : Nat) (s : State) :
    lastControl (drawPowerBarSegment i s) = lastControl s := by
  unfold drawPowerBarSegment
  simp only [lastControl_emitD, isDrawCall]
theorem lastControl_drawPowerUpRay (env : Env) (p : Progress) (i : Nat) (s : State) :
    lastControl (drawPowerUpRay env p i s) = lastControl s := by
  unfold drawPowerUpRay
  simp only [lastControl_emitD, isDrawCall]
theorem lastControl_emitL (c : LedCmd) (s : State) : lastControl (emitL c s) = lastControl s := by cases s; rfl

theorem lastControl_markFault (s : State) : lastControl (markFault s) = lastControl s := by cases s; rfl

theorem lastControl_afterMillis (s : State) : lastControl (afterMillis s) = lastControl s := by cases s; rfl

theorem lastControl_afterRandom (s : State) : lastControl (afterRandom s) = lastControl s := by cases s; rfl

theorem lastControl_updateNoiseBurst (env : Env) (s : State) :
    lastControl (updateNoiseBurst env s) = lastControl s := by
  unfold updateNoiseBurst
  simp only [apply_ite lastControl, lastControl_mk, lastControl_fold, lastControl_afterMillis,
    lastControl_afterRandom, ite_self]

theorem lastControl_updateGlitch (env : Env) (s : State) :
    lastControl (updateGlitch env s) = lastControl s := by
  unfold updateGlitch
  simp only [apply_ite lastControl, lastControl_mk, lastControl_fold, lastControl_afterMillis,
    lastControl_afterRandom, ite_self]

theorem lastControl_drawNoiseBurstBody (env : Env) (s : State) :
    lastControl (drawNoiseBurstBody env s) = lastControl s := by
  unfold drawNoiseBurstBody
  simp only [apply_ite lastControl, lastControl_emitD, isDrawCall, lastControl_afterRandom, ite_self]

theorem lastControl_drawNoiseBurst (env : Env) (s : State) :
    lastControl (drawNoiseBurst env s) = lastControl s := by
  unfold drawNoiseBurst
  split_ifs
  · rfl
  · exact forLoop_preserves lastControl _ _ (fun _ s => lastControl_drawNoiseBurstBody env s) _

theorem lastControl_drawScanlineSweep (now : Nat) (s : State) :
    lastControl (drawScanlineSweep now s) = lastControl s := by
  unfold drawScanlineSweep
  simp only [apply_ite lastControl, lastControl_mk, lastControl_fold, ite_self,
    forLoop_preserves lastControl 32 drawScanlineColumn lastControl_drawScanlineColumn]

theorem lastControl_drawScanline (env : Env) (s : State) :
    lastControl (drawScanline env s) = lastControl s := by
  unfold drawScanline
  simp only [apply_ite lastControl, lastControl_drawScanlineSweep, lastControl_mk, lastControl_fold,
    lastControl_afterMillis, ite_self]

theorem lastControl_drawStatusIndicator (y : Int) (a : Bool) (s : State) :
    lastControl (drawStatusIndicator y a s) = lastControl s := by
  unfold drawStatusIndicator
  simp only [apply_ite lastControl, lastControl_emitD, isDrawCall, ite_self]

theorem lastControl_drawPowerBar (p : Int) (a : Bool) (s : State) :
    lastControl (drawPowerBar p a s) = lastControl s := by
  unfold drawPowerBar
  simp only [apply_ite lastControl, lastControl_emitD, isDrawCall, ite_self,
    forLoop_preserves lastControl 5 drawPowerBarHatch lastControl_drawPowerBarHatch,
    forLoop_preserves lastControl 5 drawPowerBarSegment lastControl_drawPowerBarSegment]

theorem lastControl_drawPowerUpAnimation (env : Env) (p : Progress) (s : State) :
    lastControl (drawPowerUpAnimation env p s) = lastControl s := by
  unfold drawPowerUpAnimation
  simp only [apply_ite lastControl, lastControl_emitD, isDrawCall, ite_self,
    forLoop_preserves lastControl 4 (drawPowerUpRay env p) (lastControl_drawPowerUpRay env p)]

theorem lastControl_drawPowerDownBand (env : Env) (p : Progress) (i : Nat) (s : State) :
    lastControl (drawPowerDownBand env p i s) = lastControl s := by
  unfold drawPowerDownBand
  simp only [apply_ite lastControl, lastControl_emitD, isDrawCall, ite_self]

theorem lastControl_drawPowerDownAnimation (env : Env) (p : Progress) (s : State) :
    lastControl (drawPowerDownAnimation env p s) = lastControl s := by
  unfold drawPowerDownAnimation
  simp only [apply_ite lastControl, lastControl_emitD, isDrawCall, ite_self,
    forLoop_preserves lastControl 8 (drawPowerDownBand env p) (lastControl_drawPowerDownBand env p)]

theorem lastControl_drawStatusPanel (env : Env) (s : State) :
    lastControl (drawStatusPanel env s) = lastControl s := by
  unfold drawStatusPanel
  simp only [apply_ite lastControl, lastControl_emitD, isDrawCall, lastControl_afterRandom, ite_self,
    lastControl_drawScanline, lastControl_drawPowerBar, lastControl_drawStatusIndicator,
    lastControl_drawNoiseBurst, lastControl_updateGlitch]

/-! ## C13: one frame of `drawScreen` -/

/-- A log whose last control call is `c`, made right after the log `base`,
is `base`, then `c`, then draw calls only. -/
theorem draws_of_lastControl (base : List DispCmd) (c : DispCmd) (m : State)
    (h : lastControl m = c :: base.reverse) :
    ∃ body, m.disp = base ++ [c] ++ body ∧ ∀ x ∈ body, isDrawCall x = true := by
  refine ⟨(m.disp.reverse.takeWhile isDrawCall).reverse, ?_, ?_⟩
  · have e := List.takeWhile_append_dropWhile isDrawCall m.disp.reverse
    have e2 := congrArg List.reverse e
    unfold lastControl at h
    rw [h] at e2
    simp only [List.reverse_append, List.reverse_reverse, List.reverse_cons] at e2
    exact e2.symm
  · intro x hx
    exact List.mem_takeWhile_imp (List.mem_reverse.mp hx)

theorem lastControl_clear (env : Env) (s : State) :
    lastControl (emitD .clearBuffer (updateNoiseBurst env s)) = .clearBuffer :: s.disp.reverse := by
  obtain ⟨a, l, r, hm⟩ := updateNoiseBurst_modifies env s
  rw [hm]
  simp [lastControl, emitD, List.dropWhile_cons, isDrawCall]

/-- The part of `drawScreen` between `clearBuffer` and `sendBuffer`, lines
377-477, only draws. -/
theorem lastControl_frame_body (env : Env) (s : State) :
    lastControl
      (if s.screenState = SCREEN_POWERING_UP then
        drawPowerUpAnimation env ⟨sub32 (millis env s) s.animationStartTime, POWERUP_DURATION⟩
          (afterMillis s)
      else if s.screenState = SCREEN_POWERING_DOWN then
        drawPowerDownAnimation env ⟨sub32 (millis env s) s.animationStartTime, POWERDOWN_DURATION⟩
          (afterMillis s)
      else drawStatusPanel env s) = lastControl s := by
  simp only [apply_ite lastControl, lastControl_drawPowerUpAnimation,
    lastControl_drawPowerDownAnimation, lastControl_drawStatusPanel, lastControl_afterMillis,
    ite_self]

/-- The display calls of one frame: `clearBuffer`, draw calls, `sendBuffer`. -/
theorem drawScreen_calls (env : Env) (s : State) (h : s.screenState ≠ SCREEN_OFF) :
    ∃ body, (drawScreen env s).disp = s.disp ++ [.clearBuffer] ++ body ++ [.sendBuffer] ∧
      ∀ x ∈ body, isDrawCall x = true := by
  unfold drawScreen
  rw [if_neg h]
  simp only
  have hb := lastControl_frame_body env (emitD .clearBuffer (updateNoiseBurst env s))
  rw [lastControl_clear] at hb
  obtain ⟨body, hd, hall⟩ := draws_of_lastControl _ _ _ hb
  refine ⟨body, ?_, hall⟩
  generalize (if (emitD DispCmd.clearBuffer (updateNoiseBurst env s)).screenState =
      SCREEN_POWERING_UP then _ else _) = m at hd ⊢
  show m.disp ++ [DispCmd.sendBuffer] = _
  rw [hd]

theorem frameCount_frame_body (env : Env) (s : State) :
    frameCount
      (if s.screenState = SCREEN_POWERING_UP then
        drawPowerUpAnimation env ⟨sub32 (millis env s) s.animationStartTime, POWERUP_DURATION⟩
          (afterMillis s)
      else if s.screenState = SCREEN_POWERING_DOWN then
        drawPowerDownAnimation env ⟨sub32 (millis env s) s.animationStartTime, POWERDOWN_DURATION⟩
          (afterMillis s)
      else drawStatusPanel env s) = frameCount s := by
  simp only [apply_ite frameCount, frameCount_drawPowerUpAnimation,
    frameCount_drawPowerDownAnimation, frameCount_drawStatusPanel, frameCount_afterMillis,
    ite_self]

/-- The frame bookkeeping of `drawScreen`, lines 479-484. -/
theorem drawScreen_bookkeeping (env : Env) (s : State) (h : s.screenState ≠ SCREEN_OFF) :
    (∃ k, (drawScreen env s).clk = k + 1 ∧
      (drawScreen env s).lastSuccessfulDraw = reading env k) ∧
    (drawScreen env s).frameCounter = s.frameCounter + 1 := by
  unfold drawScreen
  rw [if_neg h]
  simp only
  have hb := frameCount_frame_body env (emitD .clearBuffer (updateNoiseBurst env s))
  rw [frameCount_emitD, frameCount_updateNoiseBurst] at hb
  generalize (if (emitD DispCmd.clearBuffer (updateNoiseBurst env s)).screenState =
      SCREEN_POWERING_UP then _ else _) = m at hb ⊢
  refine ⟨⟨m.clk, rfl, rfl⟩, ?_⟩
  show m.frameCounter + 1 = _
  have e : m.frameCounter = s.frameCounter := hb
  rw [e]

/-- C13: `drawScreen` called while the screen is off returns the state it was
given, display log included; called in any other lifecycle state it appends to
the display log one `clearBuffer`, then draw calls only, then one `sendBuffer`,
it stores in `lastSuccessfulDraw` the clock reading it takes last, and it adds
exactly 1 to `frameCounter`. -/
theorem drawScreen_frame (env : Env) (s : State) :
    (s.screenState = SCREEN_OFF → drawScreen env s = s) ∧
    (s.screenState ≠ SCREEN_OFF →
      (∃ body, (drawScreen env s).disp = s.disp ++ [.clearBuffer] ++ body ++ [.sendBuffer] ∧
        ∀ x ∈ body, isDrawCall x = true) ∧
      (∃ k, (drawScreen env s).clk = k + 1 ∧
        (drawScreen env s).lastSuccessfulDraw = reading env k) ∧
      (drawScreen env s).frameCounter = s.frameCounter + 1) := by
  refine ⟨fun h => ?_, fun h => ⟨drawScreen_calls env s h, drawScreen_bookkeeping env s h⟩⟩
  unfold drawScreen
  rw [if_pos h]

/-- Witness of C13: `drawScreen` on the off initial state changes nothing; on
the initial state with the screen powering up it appends a frame, and the
frame counter goes from 0 to 1. -/
theorem drawScreen_frame_witness :
    drawScreen (envConst 0) initState = initState ∧
    (drawScreen (envConst 0) { initState with screenState := SCREEN_POWERING_UP }).frameCounter
      = 1 :=
  ⟨(drawScreen_frame (envConst 0) initState).1 (by decide),
   ((drawScreen_frame (envConst 0) { initState with screenState := SCREEN_POWERING_UP }).2
      (by decide)).2.2⟩

/-! ## C12: the frame-rate gate of the poll loop -/

theorem loop_eq_renderIfDue (env : Env) (toggle bright : Bool) (s : State) :
    loop env toggle bright s = renderIfDue env (millis env s) (beforeGate env toggle bright s) := by
  unfold loop renderIfDue beforeGate dispatchClicks
  rfl

theorem renderIfDue_closed (env : Env) (now : Nat) (m : State)
    (h : ¬ (m.screenState ≠ SCREEN_OFF ∧ sub32 now m.lastFrameTime > targetFrameInterval m)) :
    renderIfDue env now m = m := by
  unfold renderIfDue
  simp only
  rw [if_neg]
  intro hc
  apply h
  refine ⟨hc.1, ?_⟩
  have h2 := hc.2
  unfold targetFrameInterval
  split_ifs at h2 ⊢ <;> exact h2

theorem renderIfDue_open (env : Env) (now : Nat) (m : State)
    (h : m.screenState ≠ SCREEN_OFF ∧ sub32 now m.lastFrameTime > targetFrameInterval m) :
    outer (renderIfDue env now m) = outer { m with lastFrameTime := now } ∧
    frameCount (renderIfDue env now m) = frameCount m + 1 ∧
    (renderIfDue env now m).disp = (drawScreen env { m with lastFrameTime := now }).disp := by
  have hc : m.screenState ≠ SCREEN_OFF ∧ sub32 now m.lastFrameTime >
      toU32 (if m.screenState = SCREEN_POWERING_UP ∨ m.screenState = SCREEN_POWERING_DOWN
        ∨ m.noiseBurstActive = true then 33 else 100) := by
    refine ⟨h.1, ?_⟩
    have h2 := h.2
    unfold targetFrameInterval at h2
    split_ifs at h2 ⊢ <;> exact h2
  have hf : (drawScreen env { m with lastFrameTime := now }).frameCounter = m.frameCounter + 1 :=
    (drawScreen_bookkeeping env { m with lastFrameTime := now } h.1).2
  have ho := outer_drawScreen env { m with lastFrameTime := now }
  unfold renderIfDue
  simp only
  rw [if_pos hc]
  generalize drawScreen env { m with lastFrameTime := now } = d at hf ho ⊢
  split_ifs
  · exact ⟨by rw [outer_afterMillis, ho], hf, rfl⟩
  · exact ⟨ho, hf, rfl⟩

/-- C12: in every iteration of `loop` the frame-rate gate compares the time
since `lastFrameTime` with the target frame interval, 33 ms while the screen
is powering up or down or a noise burst is active and 100 ms otherwise.  When
the screen is not off and more than that interval has passed, the iteration
sets `lastFrameTime` to its clock reading `now` and renders one frame (one
`clearBuffer`, draw calls, one `sendBuffer`, frame counter plus 1); otherwise
the gate leaves the state as the button ticks left it, display log included. -/
theorem frame_rate_gate (env : Env) (toggle bright : Bool) (s : State) :
    ((beforeGate env toggle bright s).screenState ≠ SCREEN_OFF ∧
        sub32 (millis env s) (beforeGate env toggle bright s).lastFrameTime >
          targetFrameInterval (beforeGate env toggle bright s) →
      (loop env toggle bright s).lastFrameTime = millis env s ∧
      (loop env toggle bright s).frameCounter
        = (beforeGate env toggle bright s).frameCounter + 1 ∧
      ∃ body, (loop env toggle bright s).disp =
          (beforeGate env toggle bright s).disp ++ [.clearBuffer] ++ body ++ [.sendBuffer] ∧
        ∀ x ∈ body, isDrawCall x = true) ∧
    (¬ ((beforeGate env toggle bright s).screenState ≠ SCREEN_OFF ∧
        sub32 (millis env s) (beforeGate env toggle bright s).lastFrameTime >
          targetFrameInterval (beforeGate env toggle bright s)) →
      loop env toggle bright s = beforeGate env toggle bright s) := by
  rw [loop_eq_renderIfDue]
  generalize beforeGate env toggle bright s = m
  refine ⟨fun h => ?_, fun h => renderIfDue_closed env _ m h⟩
  obtain ⟨ho, hf, hd⟩ := renderIfDue_open env (millis env s) m h
  refine ⟨?_, hf, ?_⟩
  · have e := congrArg (fun p => p.2.2.1) ho
    exact e
  · rw [hd]
    exact drawScreen_calls env { m with lastFrameTime := millis env s } h.1

/-- Witness of C12: with the status panel on and the last frame
drawn at 0 ms, an iteration that reads 100 ms renders nothing and an iteration
that reads 101 ms renders a frame and records 101 as `lastFrameTime`. -/
theorem frame_rate_gate_witness :
    loop (envConst 100) false false
        { initState with screenState := SCREEN_ON }
      = beforeGate (envConst 100) false false
        { initState with screenState := SCREEN_ON } ∧
    (loop (envConst 101) false false
        { initState with screenState := SCREEN_ON }).lastFrameTime
      = 101 :=
  ⟨(frame_rate_gate (envConst 100) false false
      { initState with screenState := SCREEN_ON }).2 (by decide),
   ((frame_rate_gate (envConst 101) false false
      { initState with screenState := SCREEN_ON }).1 (by decide)).1⟩

/-! ### The texts of the display log -/

theorem textCalls_mk (a1 : Bool) (a2 : Int) (a3 : Nat) (a4 a5 a6 a7 : Int) (a8 : Bool) (a9 : Nat)
    (a10 : Bool) (a11 a12 : Nat) (a13 : ScreenState) (a14 a15 : Nat) (a16 : Bool) (a17 a18 a19 : Nat)
    (a20 : List LedCmd) (a21 : List DispCmd) (a22 : Bool) :
    textCalls ⟨a1, a2, a3, a4, a5, a6, a7, a8, a9, a10, a11, a12, a13, a14, a15, a16, a17, a18, a19,
      a20, a21, a22⟩ = List.filter isText a21 := rfl

theorem textCalls_fold (s : State) : List.filter isText s.disp = textCalls s := by cases s; rfl

theorem textCalls_emitD (c : DispCmd) (s : State) (h : isText c = false) :
    textCalls (emitD c s) = textCalls s := by
  cases s
  simp [textCalls, emitD, List.filter_cons, h]
theorem textCalls_drawStr (x y : Int) (text : String) (s : State) :
    textCalls (emitD (.drawStr x y text) s) = textCalls s ++ [.drawStr x y text] := by
  cases s
  simp [textCalls, emitD, List.filter_cons, isText]
theorem textCalls_drawScanlineColumn (i : Nat) (s : State) :
    textCalls (drawScanlineColumn i s) = textCalls s := by
  unfold drawScanlineColumn
  simp only [textCalls_emitD, isText]
theorem textCalls_drawPowerBarHatch (i : Nat) (s : State) :
    textCalls (drawPowerBarHatch i s) = textCalls s := by
  unfold drawPowerBarHatch
  simp only [textCalls_emitD, isText]
theorem textCalls_drawPowerBarSegment (i : Nat) (s : State) :
    textCalls (drawPowerBarSegment i s) = textCalls s := by
  unfold drawPowerBarSegment
  simp only [textCalls_emitD, isText]
theorem textCalls_emitL (c : LedCmd) (s : State) : textCalls (emitL c s) = textCalls s := by cases s; rfl

theorem textCalls_markFault (s : State) : textCalls (markFault s) = textCalls s := by cases s; rfl

theorem textCalls_afterMillis (s : State) : textCalls (afterMillis s) = textCalls s := by cases s; rfl

theorem textCalls_afterRandom (s : State) : textCalls (afterRandom s) = textCalls s := by cases s; rfl

theorem textCalls_updateNoiseBurst (env : Env) (s : State) :
    textCalls (updateNoiseBurst env s) = textCalls s := by
  unfold updateNoiseBurst
  simp only [apply_ite textCalls, textCalls_mk, textCalls_fold, textCalls_afterMillis,
    textCalls_afterRandom, ite_self]

theorem textCalls_updateGlitch (env : Env) (s : State) :
    textCalls (updateGlitch env s) = textCalls s := by
  unfold updateGlitch
  simp only [apply_ite textCalls, textCalls_mk, textCalls_fold, textCalls_afterMillis,
    textCalls_afterRandom, ite_self]

theorem textCalls_drawNoiseBurstBody (env : Env) (s : State) :
    textCalls (drawNoiseBurstBody env s) = textCalls s := by
  unfold drawNoiseBurstBody
  simp only [apply_ite textCalls, textCalls_emitD, isText, textCalls_afterRandom, ite_self]

theorem textCalls_drawNoiseBurst (env : Env) (s : State) :
    textCalls (drawNoiseBurst env s) = textCalls s := by
  unfold drawNoiseBurst
  split_ifs
  · rfl
  · exact forLoop_preserves textCalls _ _ (fun _ s => textCalls_drawNoiseBurstBody env s) _

theorem textCalls_drawScanlineSweep (now : Nat) (s : State) :
    textCalls (drawScanlineSweep now s) = textCalls s := by
  unfold drawScanlineSweep
  simp only [apply_ite textCalls, textCalls_mk, textCalls_fold, ite_self,
    forLoop_preserves textCalls 32 drawScanlineColumn textCalls_drawScanlineColumn]

theorem textCalls_drawScanline (env : Env) (s : State) :
    textCalls (drawScanline env s) = textCalls s := by
  unfold drawScanline
  simp only [apply_ite textCalls, textCalls_drawScanlineSweep, textCalls_mk, textCalls_fold,
    textCalls_afterMillis, ite_self]

theorem textCalls_drawPowerBar (p : Int) (a : Bool) (s : State) :
    textCalls (drawPowerBar p a s) = textCalls s := by
  unfold drawPowerBar
  simp only [apply_ite textCalls, textCalls_emitD, isText, ite_self,
    forLoop_preserves textCalls 5 drawPowerBarHatch textCalls_drawPowerBarHatch,
    forLoop_preserves textCalls 5 drawPowerBarSegment textCalls_drawPowerBarSegment]

theorem textCalls_drawStatusIndicator (y : Int) (a : Bool) (s : State) :
    textCalls (drawStatusIndicator y a s)
      = textCalls s ++ [.drawStr 2 y "[", .drawStr 26 y "]"] := by
  unfold drawStatusIndicator
  simp only [apply_ite textCalls, textCalls_emitD, isText, textCalls_drawStr, ite_self,
    List.append_assoc, List.singleton_append]

theorem isLedOn_view (s : State) : s.isLedOn = (ledState s).1 := by cases s; rfl
theorem level_view (s : State) : s.currentLevelIndex = (ledState s).2 := by cases s; rfl
theorem frameCounter_view (s : State) : s.frameCounter = frameCount s := by cases s; rfl
theorem glitchActive_view (s : State) : s.glitchActive = (glitchView s).1 := by cases s; rfl
theorem glitchOffset_view (s : State) : s.glitchOffset = (glitchView s).2 := by cases s; rfl

/-- The texts of the status panel, lines 401-477 of `drawScreen`, in drawing
order: header, indicator brackets, power label, level label, percentage,
footer and, for half of every 30 frames, the frame-counter digest. -/
theorem textCalls_drawStatusPanel (env : Env) (s : State) :
    textCalls (drawStatusPanel env s) = textCalls s ++
      ([.drawStr 1 (8 + headerY (updateGlitch env s)) "CYBR.LMP",
        .drawStr 2 28 "[", .drawStr 26 28 "]",
        if s.isLedOn = true then .drawStr (6 + headerY (updateGlitch env s)) 38 "PWR"
        else .drawStr (4 - headerY (updateGlitch env s)) 38 "SLEEP",
        .drawStr 8 54 "LVL",
        .drawStr (if percentage s = 100 then 6 else 10) 66 (fmtD (percentage s)),
        .drawStr 2 122 "SYS.OK"] ++
       if Int.tmod s.frameCounter 30 < 15 then
         [.drawStr 18 122 (fmt02X (Int.tmod (Int.tdiv s.frameCounter 10) 256))]
       else []) := by
  unfold drawStatusPanel headerY percentage
  simp only [isLedOn_view, level_view, frameCounter_view, glitchActive_view, glitchOffset_view,
    apply_ite textCalls, apply_ite ledState, apply_ite frameCount, apply_ite glitchView,
    textCalls_emitD, isText, textCalls_drawStr, textCalls_afterRandom, textCalls_drawScanline,
    textCalls_drawPowerBar, textCalls_drawStatusIndicator, textCalls_drawNoiseBurst,
    textCalls_updateGlitch,
    ledState_emitD, ledState_afterRandom, ledState_drawScanline, ledState_drawPowerBar,
    ledState_drawStatusIndicator, ledState_drawNoiseBurst, ledState_updateGlitch,
    frameCount_emitD, frameCount_afterRandom, frameCount_drawScanline, frameCount_drawPowerBar,
    frameCount_drawStatusIndicator, frameCount_drawNoiseBurst, frameCount_updateGlitch,
    glitchView_emitD, glitchView_afterRandom, glitchView_drawNoiseBurst,
    ite_self, List.append_assoc, List.singleton_append, List.cons_append, List.nil_append]
  split_ifs <;> simp

/-! ### The glitch through the rest of the status panel -/

theorem glitchView_updateNoiseBurst (env : Env) (s : State) :
    glitchView (updateNoiseBurst env s) = glitchView s := by
  unfold updateNoiseBurst
  simp only [apply_ite glitchView, glitchView_mk, glitchView_fold, glitchView_afterMillis,
    glitchView_afterRandom, ite_self]

theorem glitchView_drawScanlineSweep (now : Nat) (s : State) :
    glitchView (drawScanlineSweep now s) = glitchView s := by
  unfold drawScanlineSweep
  simp only [apply_ite glitchView, glitchView_mk, glitchView_fold, ite_self,
    forLoop_preserves glitchView 32 drawScanlineColumn (fun _ s => by cases s; rfl)]

theorem glitchView_drawScanline (env : Env) (s : State) :
    glitchView (drawScanline env s) = glitchView s := by
  unfold drawScanline
  simp only [apply_ite glitchView, glitchView_drawScanlineSweep, glitchView_mk, glitchView_fold,
    glitchView_afterMillis, ite_self]

theorem glitchView_drawStatusIndicator (y : Int) (a : Bool) (s : State) :
    glitchView (drawStatusIndicator y a s) = glitchView s := by
  unfold drawStatusIndicator
  simp only [apply_ite glitchView, glitchView_emitD, ite_self]

theorem glitchView_drawPowerBar (p : Int) (a : Bool) (s : State) :
    glitchView (drawPowerBar p a s) = glitchView s := by
  unfold drawPowerBar
  simp only [apply_ite glitchView, glitchView_emitD, ite_self,
    forLoop_preserves glitchView 5 drawPowerBarHatch (fun _ s => by cases s; rfl),
    forLoop_preserves glitchView 5 drawPowerBarSegment (fun _ s => by cases s; rfl)]

/-! ## The texts of a frame of the status panel -/

theorem glitchView_drawStatusPanel (env : Env) (s : State) :
    glitchView (drawStatusPanel env s) = glitchView (updateGlitch env s) := by
  unfold drawStatusPanel
  simp only [apply_ite glitchView, glitchView_emitD, glitchView_afterRandom,
    glitchView_drawScanline, glitchView_drawPowerBar, glitchView_drawStatusIndicator,
    glitchView_drawNoiseBurst, ite_self]

theorem headerY_eq (s t : State) (h : glitchView s = glitchView t) : headerY s = headerY t := by
  unfold headerY
  simp only [glitchActive_view, glitchOffset_view, h]

/-- In the ON state `drawScreen` runs the status panel between `clearBuffer`
and the frame bookkeeping. -/
theorem drawScreen_on (env : Env) (s : State) (h : s.screenState = SCREEN_ON) :
    textCalls (drawScreen env s)
      = textCalls (drawStatusPanel env (emitD .clearBuffer (updateNoiseBurst env s))) ∧
    glitchView (drawScreen env s)
      = glitchView (updateGlitch env (emitD .clearBuffer (updateNoiseBurst env s))) := by
  have hl := lifecycle_updateNoiseBurst env s
  have hs : (emitD .clearBuffer (updateNoiseBurst env s)).screenState = SCREEN_ON := by
    have e := congrArg Prod.fst ((lifecycle_emitD .clearBuffer (updateNoiseBurst env s)).trans hl)
    exact e.trans h
  unfold drawScreen
  rw [if_neg (by rw [h]; decide)]
  simp only
  rw [if_neg (by rw [hs]; decide), if_neg (by rw [hs]; decide)]
  rw [← glitchView_drawStatusPanel]
  generalize drawStatusPanel env (emitD .clearBuffer (updateNoiseBurst env s)) = p
  constructor
  · simp only [textCalls_mk, textCalls_fold, textCalls_afterMillis, textCalls_emitD, isText]
  · simp only [glitchView_mk, glitchView_fold, glitchView_afterMillis, glitchView_emitD]

/-- The texts of one frame in the ON state, in drawing order. -/
theorem textCalls_drawScreen_on (env : Env) (s : State) (h : s.screenState = SCREEN_ON) :
    textCalls (drawScreen env s) = textCalls s ++
      ([.drawStr 1 (8 + headerY (drawScreen env s)) "CYBR.LMP",
        .drawStr 2 28 "[", .drawStr 26 28 "]",
        if s.isLedOn = true then .drawStr (6 + headerY (drawScreen env s)) 38 "PWR"
        else .drawStr (4 - headerY (drawScreen env s)) 38 "SLEEP",
        .drawStr 8 54 "LVL",
        .drawStr (if percentage s = 100 then 6 else 10) 66 (fmtD (percentage s)),
        .drawStr 2 122 "SYS.OK"] ++
       if Int.tmod s.frameCounter 30 < 15 then
         [.drawStr 18 122 (fmt02X (Int.tmod (Int.tdiv s.frameCounter 10) 256))]
       else []) := by
  obtain ⟨ht, hg⟩ := drawScreen_on env s h
  rw [ht, textCalls_drawStatusPanel, headerY_eq _ _ hg]
  have e1 : textCalls (emitD .clearBuffer (updateNoiseBurst env s)) = textCalls s := by
    rw [textCalls_emitD .clearBuffer _ rfl, textCalls_updateNoiseBurst]
  have e2 : ledState (emitD .clearBuffer (updateNoiseBurst env s)) = ledState s := by
    rw [ledState_emitD, ledState_updateNoiseBurst]
  have e3 : frameCount (emitD .clearBuffer (updateNoiseBurst env s)) = frameCount s := by
    rw [frameCount_emitD, frameCount_updateNoiseBurst]
  unfold percentage
  simp only [isLedOn_view, level_view, frameCounter_view, e1, e2, e3]

/-! ## C14: the brightness percentage on the panel -/

/-- C14: a frame drawn in the ON state shows the brightness percentage
`(currentLevelIndex + 1) * 20` as a decimal number.  The texts of the frame
are, in order, the header, the two indicator brackets, the power label, "LVL",
the percentage at baseline 66 (at x = 6 for 100, x = 10 otherwise), "SYS.OK"
and, in half of the frames, the frame-counter digest; and for the level
indices 0 to 4 the percentage text is "20", "40", "60", "80", "100" in that
order. -/
theorem percentage_drawn (env : Env) (s : State) (h : s.screenState = SCREEN_ON)
    (h0 : 0 ≤ s.currentLevelIndex) (h4 : s.currentLevelIndex ≤ 4) :
    (∃ header label digest, textCalls (drawScreen env s) = textCalls s ++
      [header, .drawStr 2 28 "[", .drawStr 26 28 "]", label, .drawStr 8 54 "LVL",
       .drawStr (if (s.currentLevelIndex + 1) * 20 = 100 then 6 else 10) 66
         (fmtD ((s.currentLevelIndex + 1) * 20)),
       .drawStr 2 122 "SYS.OK"] ++ digest ∧
      ∀ c ∈ digest, ∃ text, c = .drawStr 18 122 text) ∧
    ["20", "40", "60", "80", "100"][s.currentLevelIndex.toNat]?
      = some (fmtD ((s.currentLevelIndex + 1) * 20)) := by
  constructor
  · refine ⟨.drawStr 1 (8 + headerY (drawScreen env s)) "CYBR.LMP",
      if s.isLedOn = true then .drawStr (6 + headerY (drawScreen env s)) 38 "PWR"
      else .drawStr (4 - headerY (drawScreen env s)) 38 "SLEEP",
      if Int.tmod s.frameCounter 30 < 15 then
        [.drawStr 18 122 (fmt02X (Int.tmod (Int.tdiv s.frameCounter 10) 256))]
      else [], ?_, ?_⟩
    · rw [textCalls_drawScreen_on env s h, ← List.append_assoc]
      rfl
    · intro c hc
      split_ifs at hc
      · exact ⟨_, List.mem_singleton.mp hc⟩
      · simp at hc
  · generalize s.currentLevelIndex = i at h0 h4
    have hi : i = 0 ∨ i = 1 ∨ i = 2 ∨ i = 3 ∨ i = 4 := by omega
    rcases hi with e | e | e | e | e <;> rw [e] <;> decide

/-- Witness of C14: at level index 4 the percentage text of a frame of the
status panel is the fifth entry of the table, "100". -/
theorem percentage_drawn_witness :
    ["20", "40", "60", "80", "100"][(4 : Int).toNat]? = some (fmtD ((4 + 1) * 20)) :=
  (percentage_drawn (envConst 0)
    { initState with screenState := SCREEN_ON, currentLevelIndex := 4 }
    rfl (by decide) (by decide)).2

/-! ## C17: the header under a glitch -/

/-- C17 as stated fails: in a frame of the status panel drawn at 9000 ms
while a glitch with offset 2 is active (before and after the frame), the
header is drawn at (1, 10), two pixels below its resting position, and not at
(3, 8); it is the power label that moves sideways. -/
theorem header_glitch_counterexample :
    glitchedPanel.screenState = SCREEN_ON ∧
    glitchedPanel.glitchActive = true ∧ glitchedPanel.glitchOffset = 2 ∧
    (drawScreen (envConst 9000) glitchedPanel).glitchActive = true ∧
    (drawScreen (envConst 9000) glitchedPanel).glitchOffset = 2 ∧
    textCalls (drawScreen (envConst 9000) glitchedPanel) =
      [.drawStr 1 10 "CYBR.LMP", .drawStr 2 28 "[", .drawStr 26 28 "]",
       .drawStr 2 38 "SLEEP", .drawStr 8 54 "LVL", .drawStr 6 66 "100",
       .drawStr 2 122 "SYS.OK", .drawStr 18 122 "00"] ∧
    DispCmd.drawStr 3 8 "CYBR.LMP" ∉ (drawScreen (envConst 9000) glitchedPanel).disp := by
  set_option maxRecDepth 20000 in
  decide

/-- C17, amended: a frame drawn in the ON state draws the header "CYBR.LMP"
first of its texts, displaced vertically by `glitchOffset` while the glitch is
active in that frame, at x = 1 and baseline y = 8 + glitchOffset, and at its
resting position (1, 8) while the glitch is inactive.  The glitch of the frame
is the one `drawScreen` leaves: the header is drawn after the frame has
called `updateGlitch`, and nothing later in the frame changes the glitch. -/
theorem header_glitch (env : Env) (s : State) (h : s.screenState = SCREEN_ON) :
    ((drawScreen env s).glitchActive = true →
      ∃ rest, textCalls (drawScreen env s) = textCalls s ++
        .drawStr 1 (8 + (drawScreen env s).glitchOffset) "CYBR.LMP" :: rest) ∧
    ((drawScreen env s).glitchActive = false →
      ∃ rest, textCalls (drawScreen env s) = textCalls s ++
        .drawStr 1 8 "CYBR.LMP" :: rest) := by
  have ht := textCalls_drawScreen_on env s h
  constructor
  · intro ha
    have e : headerY (drawScreen env s) = (drawScreen env s).glitchOffset := by
      unfold headerY
      rw [if_pos ha]
    rw [e] at ht
    exact ⟨_, ht⟩
  · intro ha
    have e : headerY (drawScreen env s) = 0 := by
      unfold headerY
      rw [if_neg (by rw [ha]; decide)]
    rw [e] at ht
    exact ⟨_, ht⟩

/-- Witness of C17, amended: the frame of the header example, whose glitch is
active with offset 2, draws the header first, at (1, 8 + 2). -/
theorem header_glitch_witness :
    ∃ rest, textCalls (drawScreen (envConst 9000) glitchedPanel) = textCalls glitchedPanel ++
      .drawStr 1 (8 + (drawScreen (envConst 9000) glitchedPanel).glitchOffset) "CYBR.LMP"
        :: rest :=
  (header_glitch (envConst 9000) glitchedPanel rfl).1 (by decide)

end CybrLmp
